import Mathlib

/-!
# Open PHIGS logical input devices (`cb_inp.c`)

A shallow embedding of the C binding for logical input devices of Open PHIGS:
device initialisation, operating modes, SAMPLE and REQUEST engines and the
GET accessors, followed by theorems about them.

Conventions of the embedding.

* `Pint` is `Int`; `Pfloat` values are only stored and copied by this code and
  are represented by `Rat`.
* A pointer to an array is the map from index to element (`CArray`); a
  NUL-terminated input string is a `String`.
* C unions are records with one field per member that the code touches.
* Everything the code does to its surroundings (error reports, calls of the
  external echo-volume validator, driver hooks, sleeps) is appended to an
  effect log in program order; driver hooks also transform the driver state.
* Loops whose exit depends on a driver answer take a fuel bound and return
  `none` when it is exhausted.
-/

namespace Phigs

/-! ## Basic types -/

abbrev Pint := Int
abbrev Pfloat := Rat

/-- Storage reached through a C pointer, read as element `i` of the array. -/
abbrev CArray (α : Type) := Nat → α

/-- PHIGS workstation state of the state list (`PSL_WS_STATE`). -/
inductive Pws_st where
  | PWS_ST_WSCL
  | PWS_ST_WSOP
  deriving DecidableEq, Repr

/-- Workstation category. -/
inductive Pws_cat where
  | PCAT_OUT
  | PCAT_IN
  | PCAT_OUTIN
  | PCAT_MO
  | PCAT_MI
  deriving DecidableEq, Repr

/-- Input status. -/
inductive Pin_status where
  | PIN_STATUS_NONE
  | PIN_STATUS_OK
  | PIN_STATUS_NO_IN
  deriving DecidableEq, Repr

/-- Input class of an event. -/
inductive Pin_class where
  | PIN_NONE
  | PIN_LOC
  | PIN_STROKE
  | PIN_VAL
  | PIN_CHOICE
  | PIN_PICK
  | PIN_STRING
  deriving DecidableEq, Repr

/-- Device class tag of the argument records passed to the driver. -/
inductive Phg_args_idev_class where
  | PHG_ARGS_INP_LOC
  | PHG_ARGS_INP_LOC3
  | PHG_ARGS_INP_STK
  | PHG_ARGS_INP_STK3
  | PHG_ARGS_INP_VAL
  | PHG_ARGS_INP_VAL3
  | PHG_ARGS_INP_CHC
  | PHG_ARGS_INP_CHC3
  | PHG_ARGS_INP_PIK
  | PHG_ARGS_INP_PIK3
  | PHG_ARGS_INP_STR
  | PHG_ARGS_INP_STR3
  deriving DecidableEq, Repr

inductive Pop_mode where
  | POP_REQ
  | POP_SAMPLE
  | POP_EVENT
  deriving DecidableEq, Repr

inductive Pecho_switch where
  | PSWITCH_NO_ECHO
  | PSWITCH_ECHO
  deriving DecidableEq, Repr

inductive Ppath_order where
  | PORDER_TOP_FIRST
  | PORDER_BOTTOM_FIRST
  deriving DecidableEq, Repr

/-- Function identifiers handed to the error handler (`Pfn_*`). -/
inductive Pfn where
  | Pfn_init_loc3
  | Pfn_init_stroke3
  | Pfn_init_pick3
  | Pfn_init_string3
  | Pfn_init_string
  | Pfn_init_choice3
  | Pfn_init_val3
  | Pfn_set_loc_mode
  | Pfn_set_stroke_mode
  | Pfn_set_pick_mode
  | Pfn_set_string_mode
  | Pfn_set_choice_mode
  | Pfn_set_val_mode
  | Pfn_sample_loc
  | Pfn_sample_loc3
  | Pfn_sample_stroke
  | Pfn_sample_stroke3
  | Pfn_sample_pick
  | Pfn_req_loc3
  | Pfn_req_stroke3
  | Pfn_req_pick
  | Pfn_req_string
  | Pfn_req_choice
  | Pfn_req_val
  | Pfn_await_event
  | Pfn_get_loc
  | Pfn_get_loc3
  | Pfn_get_stroke
  | Pfn_get_stroke3
  | Pfn_get_pick
  | Pfn_get_val
  | Pfn_get_choice
  | Pfn_flush_events
  deriving DecidableEq, Repr

/-! Error numbers (`ERRn` is the PHIGS error number `n`). -/

@[reducible] def ERR3 : Pint := 3
@[reducible] def ERR54 : Pint := 54
@[reducible] def ERR61 : Pint := 61
@[reducible] def ERR114 : Pint := 114
@[reducible] def ERR250 : Pint := 250
@[reducible] def ERR253 : Pint := 253
@[reducible] def ERR259 : Pint := 259
@[reducible] def ERR260 : Pint := 260
@[reducible] def ERR262 : Pint := 262
@[reducible] def ERR256 : Pint := 256
@[reducible] def ERR900 : Pint := 900

structure Ppoint where
  x : Pfloat
  y : Pfloat
  deriving DecidableEq

structure Ppoint3 where
  x : Pfloat
  y : Pfloat
  z : Pfloat
  deriving DecidableEq

structure Plimit where
  x_min : Pfloat
  x_max : Pfloat
  y_min : Pfloat
  y_max : Pfloat
  deriving DecidableEq

structure Plimit3 where
  x_min : Pfloat
  x_max : Pfloat
  y_min : Pfloat
  y_max : Pfloat
  z_min : Pfloat
  z_max : Pfloat
  deriving DecidableEq

structure Ppick_path_elem where
  struct_id : Pint
  pick_id : Pint
  elem_pos : Pint
  deriving DecidableEq

structure Ppick_path where
  depth : Pint
  path_list : CArray Ppick_path_elem

structure Ppoint_list where
  num_points : Pint
  points : CArray Ppoint

structure Ppoint_list3 where
  num_points : Pint
  points : CArray Ppoint3

/-! ## Event values -/

structure Ploc3 where
  view_ind : Pint
  position : Ppoint3
  deriving DecidableEq

structure Pstroke3 where
  view_ind : Pint
  num_points : Pint
  points : CArray Ppoint3

structure Ppick where
  status : Pin_status
  pick_path : Ppick_path

structure Pchoice where
  status : Pin_status
  choice : Pint
  deriving DecidableEq

structure Phg_string where
  length : Pint
  string : CArray Char

structure Pevent where
  ws : Pint
  dev : Pint
  in_class : Pin_class
  deriving DecidableEq

/-- The union `Phg_inp_event_data`, one field per member. -/
structure Phg_inp_event_data where
  loc : Ploc3
  stk : Pstroke3
  pik : Ppick
  val : Pfloat
  chc : Pchoice
  str : Phg_string

structure Phg_ret_inp_event where
  id : Pevent
  data : Phg_inp_event_data

/-- Return block of a request. The members `istat`, `pkstat` and `chstat` of
its `status` name one status cell. -/
structure Phg_ret_inp_request where
  status : Pin_status
  event : Phg_ret_inp_event

/-- The return record `Phg_ret` as far as the input functions use it. -/
structure Phg_ret where
  err : Pint
  inp_event : Phg_ret_inp_event
  inp_request : Phg_ret_inp_request

/-! ## Data records -/

/-- Locator data record; its content is only copied. -/
structure Ploc_data3 where
  image : List Pint
  deriving DecidableEq

structure Pstroke_data3 where
  buffer_size : Pint
  init_pos : Pint
  image : List Pint
  deriving DecidableEq

/-- Pick data record; its content is only copied. -/
structure Ppick_data3 where
  image : List Pint
  deriving DecidableEq

/-- String data record (`Pstring_data3`, and `Pstring_data` of the 2D entry
point); its content is only copied. -/
structure Pstring_data3 where
  image : List Pint
  deriving DecidableEq

/-- Choice data record: the members of the union `pets` that the code reads or
writes, and the rest of the record. -/
structure Pchoice_data3 where
  pet_r1_unused : Pint
  pet_r3_num_strings : Pint
  pet_r3_strings : List String
  pet_r4_num_strings : Pint
  pet_r4_strings : List String
  image : List Pint
  deriving DecidableEq

/-- Valuator data record (`Pval_data`): the four strings of `pets.pet_u1`
(`none` is the NULL pointer) and the rest of the record. -/
structure Pval_data where
  label : Option String
  format : Option String
  low_label : Option String
  high_label : Option String
  image : List Pint
  deriving DecidableEq

/-! ## Workstation description tables -/

structure Wst_defloc where
  num_pets : Pint
  pets : CArray Pint
  record : Ploc_data3

structure Wst_defstroke where
  num_pets : Pint
  pets : CArray Pint
  max_bufsize : Pint
  record : Pstroke_data3

structure Wst_defpick where
  num_pets : Pint
  pets : CArray Pint
  record : Ppick_data3

structure Wst_defstring where
  num_pets : Pint
  pets : CArray Pint
  record : Pstring_data3

structure Wst_defchoice where
  num_pets : Pint
  pets : CArray Pint
  record : Pchoice_data3

structure Wst_defval where
  num_pets : Pint
  pets : CArray Pint
  record : Pval_data

structure Wst_num_devs where
  loc : Pint
  stroke : Pint
  pick : Pint
  val : Pint
  choice : Pint
  string : Pint
  deriving DecidableEq

structure Wst_input_wsdt where
  num_devs : Wst_num_devs
  locators : CArray Wst_defloc
  strokes : CArray Wst_defstroke
  picks : CArray Wst_defpick
  valuators : CArray Wst_defval
  choices : CArray Wst_defchoice
  strings : CArray Wst_defstring

structure Wst_phigs_dt where
  ws_category : Pws_cat
  in_dt : Wst_input_wsdt

/-! ## Records handed to the driver -/

structure Phg_args_init_loc where
  init : Ploc3
  record : Ploc_data3
  deriving DecidableEq

structure Phg_args_init_stk where
  init : Pstroke3
  record : Pstroke_data3

/-- Pick part of the initialisation record. `init_path_list` is `none` when
the code leaves the pointer of the initial path unset. -/
structure Phg_args_init_pik where
  init_status : Pin_status
  init_depth : Pint
  init_path_list : Option (CArray Ppick_path_elem)
  record : Ppick_data3
  porder : Ppath_order

structure Phg_args_init_str where
  init_length : Pint
  init_string : String
  record : Pstring_data3
  deriving DecidableEq

/-- Choice part of the initialisation record. `string_list_size` is `none`
when the code leaves it unset. -/
structure Phg_args_init_cho where
  init : Pint
  status : Pin_status
  record : Pchoice_data3
  string_list_size : Option Pint
  deriving DecidableEq

/-- Valuator part of the initialisation record. `counts` is `none` when the
code leaves the four counts unset. -/
structure Phg_args_init_val where
  init : Pfloat
  counts : Option (List Pint)
  record : Pval_data
  deriving DecidableEq

/-- The union `data` of `Phg_args_inp_init_dev`, by the member written. -/
inductive Phg_args_init_data where
  | loc (d : Phg_args_init_loc)
  | stk (d : Phg_args_init_stk)
  | pik (d : Phg_args_init_pik)
  | str (d : Phg_args_init_str)
  | cho (d : Phg_args_init_cho)
  | val (d : Phg_args_init_val)

structure Phg_args_inp_init_dev where
  wsid : Pint
  idev_class : Phg_args_idev_class
  dev : Pint
  pet : Pint
  echo_volume : Plimit3
  data : Phg_args_init_data

structure Phg_args_set_mode_data where
  idev_class : Phg_args_idev_class
  dev : Pint
  mode : Pop_mode
  echo : Pecho_switch
  deriving DecidableEq

/-! ## Effects, state and external collaborators -/

/-- What a call does to its surroundings, in program order. -/
inductive Effect where
  /-- Effect of `ERR_SET_CUR_FUNC` -/
  | set_cur_func (fn : Pfn)
  /-- Effect of `ERR_REPORT` -/
  | report (err : Pint)
  /-- a call of the external validator `phg_echo_limits_valid`, which reports
  its own errors -/
  | echo_limits_valid (ws : Pint) (fn : Pfn)
  /-- Effect of `(*wsh->init_device)(wsh, &args)` -/
  | init_device (ws : Pint) (args : Phg_args_inp_init_dev)
  /-- Effect of `(*wsh->set_device_mode)(wsh, &args)` -/
  | set_device_mode (ws : Pint) (args : Phg_args_set_mode_data)
  /-- Effect of `phg_wsx_input_dispatch_next(wsh, PHG_EVT_TABLE)` -/
  | dispatch_next (ws : Pint)
  /-- Effect of `(*wsh->sample_device)(wsh, dev_class, dev_num, ret)` -/
  | sample_device (ws : Pint) (dev_class : Phg_args_idev_class) (dev : Pint)
  /-- Effect of `(*wsh->request_device)(wsh, dev_class, dev_num, ret)` -/
  | request_device (ws : Pint) (dev_class : Phg_args_idev_class) (dev : Pint)
  /-- Effect of `phg_msleep(ms)` -/
  | msleep (ms : Nat)
  /-- Effect of `ERR_BUF`: the error is handed to the error handler's buffer -/
  | buf (err : Pint)
  /-- Effect of `ERR_FLUSH` -/
  | flush

/-- Request state block of a workstation (`wsh->in_ws.input_request`).
`dev_class` holds the numeric value of the enumeration; the members `istat`,
`pkstat` and `chstat` of `status` name one status cell. -/
structure Ws_inp_req where
  dev_class : Pint
  dev_num : Pint
  status : Pin_status
  loc : Ploc3
  stroke : Pstroke3
  pick : Ppick
  val : Pfloat
  choice : Pchoice
  string : Phg_string

/-- The union `data` of a queued event (`Sin_input_event`), one field per
member: `locator.evt`, `stroke.evt`, `pick.evt`, `valuator.value`,
`choice.evt` and `string.evt`. -/
structure Sin_event_data where
  locator : Ploc3
  stroke : Pstroke3
  pick : Ppick
  valuator : Pfloat
  choice : Pchoice
  string : Phg_string

/-- A queued input event as far as this file reads it. -/
structure Sin_input_event where
  wsid : Pint
  dev_class : Pin_class
  dev_num : Pint
  simul_id : Pint
  data : Sin_event_data

/-- Modelled from the spec: the input queue `PHG_INPUT_Q` is implemented
outside this file; it is a FIFO of events (oldest first) with an overflow
latch, and it remembers the simultaneous-event id of the event last
polled. -/
structure Sin_event_queue where
  events : List Sin_input_event
  overflow : Bool
  cur_simul_id : Pint

/-- The scratch arena `PHG_SCRATCH`: its capacity `size` in bytes and the
content of `buf`, one field per element type the code stores there. -/
structure Phg_scratch where
  size : Nat
  points : CArray Ppoint3
  path : CArray Ppick_path_elem
  chars : CArray Char

/-- The current event of the PHIGS state list. -/
structure Psl_cur_event where
  id : Pevent
  data : Phg_inp_event_data

/-- PHIGS state list as far as this file reads it. `ws_info ws_id` is the
description table `wsinfo->wstype->desc_tbl.phigs_dt` of the entry that
`phg_psl_get_ws_info` finds for `ws_id`, `none` when it returns NULL. -/
structure Psl where
  ws_state : Pws_st
  ws_info : Pint → Option Wst_phigs_dt
  cur_event : Psl_cur_event

/-- State the drivers reach: the request state blocks of the workstation
handles, the input queue the dispatcher fills, and the private state `priv`
of the drivers. -/
structure DState (σ : Type) where
  input_request : Pint → Ws_inp_req
  input_q : Sin_event_queue
  priv : σ

/-- Global state of the library together with the log of effects so far.
`n_alloc` counts the allocation requests and `n_mtime` the clock readings
made so far. -/
structure Phg (σ : Type) where
  psl : Psl
  ds : DState σ
  log : List Effect
  scratch : Phg_scratch
  n_alloc : Nat
  n_mtime : Nat

/-- External collaborators: the echo-volume validator, the driver hooks of the
workstation handle `PHG_WSID(ws_id)` (first argument `ws_id`), the dispatcher
`phg_wsx_input_dispatch_next`, and the numeric values of the device class
enumeration; further the constants and services declared outside this file:
the number of workstation slots `MAX_NO_OPEN_WS`, the element sizes
`sizeof(Ppoint3)` and `sizeof(Ppick_path_elem)`, the answer `alloc_ok k` of
the allocator to the `k`-th allocation request (`false`: NULL), the `k`-th
reading `mtime k` of the millisecond clock `phg_mtime`, and the macro
`PSL_CLEAR_CUR_EVENT`, which clears the current event of the state list. -/
structure Ext (σ : Type) where
  phg_echo_limits_valid : Pint → Pfn → Plimit3 → Wst_phigs_dt → Bool
  init_device : Pint → Phg_args_inp_init_dev → DState σ → DState σ
  set_device_mode : Pint → Phg_args_set_mode_data → DState σ → DState σ
  sample_device : Pint → Phg_args_idev_class → Pint → DState σ → Phg_ret × DState σ
  request_device : Pint → Phg_args_idev_class → Pint → DState σ → Phg_ret × DState σ
  dispatch_next : Pint → DState σ → Bool × DState σ
  idev_class_code : Phg_args_idev_class → Pint
  MAX_NO_OPEN_WS : Nat
  sizeof_Ppoint3 : Nat
  sizeof_Ppick_path_elem : Nat
  alloc_ok : Nat → Bool
  mtime : Nat → Int
  PSL_CLEAR_CUR_EVENT : Psl_cur_event → Psl_cur_event

variable {σ : Type}

/-- Append one effect to the log. -/
def emit (e : Effect) (s : Phg σ) : Phg σ :=
  { s with log := s.log ++ [e] }

/-- Embedding of `ERR_REPORT(PHG_ERH, err)`. -/
def ERR_REPORT (err : Pint) (s : Phg σ) : Phg σ :=
  emit (Effect.report err) s

/-- Embedding of `ERR_SET_CUR_FUNC(PHG_ERH, fn_id)`. -/
def ERR_SET_CUR_FUNC (fn_id : Pfn) (s : Phg σ) : Phg σ :=
  emit (Effect.set_cur_func fn_id) s

/-- Modelled from the spec: the list helper `phg_int_in_list(v, num, list)` is
defined outside this file; the requested value is valid when it is one of the
first `num` entries of `list`. -/
def phg_int_in_list (v : Pint) (num : Pint) (list : CArray Pint) : Bool :=
  (List.range num.toNat).any (fun i => list i == v)

/-- Modelled from the spec: the macro `PHG_MIN` is defined outside this file;
it is the minimum of its arguments. -/
def PHG_MIN (a b : Pint) : Pint :=
  if a < b then a else b

/-! ## Effect log projections -/

/-- Error numbers reported through `ERR_REPORT`, in order. -/
def reported : List Effect → List Pint
  | [] => []
  | Effect.report e :: l => e :: reported l
  | _ :: l => reported l

/-- Records handed to the driver hook `init_device`, in order. -/
def init_calls : List Effect → List Phg_args_inp_init_dev
  | [] => []
  | Effect.init_device _ a :: l => a :: init_calls l
  | _ :: l => init_calls l

/-- Whether an effect is a call into the driver: one of the hooks of the
workstation handle or the dispatcher. -/
def Effect.is_hook : Effect → Bool
  | Effect.init_device _ _ => true
  | Effect.set_device_mode _ _ => true
  | Effect.dispatch_next _ => true
  | Effect.sample_device _ _ _ => true
  | Effect.request_device _ _ _ => true
  | _ => false

/-- Number of driver calls in a log. -/
def hook_calls (l : List Effect) : Nat :=
  (l.filter Effect.is_hook).length

/-! ## Workstation check -/

/-- What `input_ws_open` hands back on success: the returned input
description `idt` and the description table stored through `dtp` (callers
passing `dtp = NULL` do not receive `dt`). -/
structure Ws_open where
  idt : Wst_input_wsdt
  dt : Wst_phigs_dt

/-- Result of `input_ws_open`: the returned pointer (`none` is NULL), the
content of `*err_ind` after the call (`none` when `err_ind` is NULL) and the
state. -/
structure Ws_open_ret (σ : Type) where
  ret : Option Ws_open
  err_ind : Option Pint
  st : Phg σ

/-- Embedding of `input_ws_open(ws_id, fn_id, dtp, err_ind)`; `err_ind` is `none` for a
NULL pointer and `some v` for a pointer to a cell holding `v`. -/
def input_ws_open (s : Phg σ) (ws_id : Pint) (fn_id : Pfn) (err_ind : Option Pint) :
    Ws_open_ret σ :=
  let s0 := if err_ind = none then ERR_SET_CUR_FUNC fn_id s else s
  if s0.psl.ws_state ≠ Pws_st.PWS_ST_WSOP then
    if err_ind = none then
      { ret := none, err_ind := none, st := ERR_REPORT ERR3 s0 }
    else
      { ret := none, err_ind := some ERR3, st := s0 }
  else
    match s0.psl.ws_info ws_id with
    | none =>
      if err_ind = none then
        { ret := none, err_ind := none, st := ERR_REPORT ERR54 s0 }
      else
        { ret := none, err_ind := some ERR54, st := s0 }
    | some dt =>
      if ¬ (dt.ws_category = Pws_cat.PCAT_OUTIN ∨ dt.ws_category = Pws_cat.PCAT_IN) then
        if err_ind = none then
          { ret := none, err_ind := none, st := ERR_REPORT ERR61 s0 }
        else
          { ret := none, err_ind := some ERR61, st := s0 }
      else
        { ret := some { idt := dt.in_dt, dt := dt }, err_ind := err_ind, st := s0 }

/-! ## Device initialisation -/

/-- Embedding of `(*wsh->init_device)(wsh, &args)` with `wsh = PHG_WSID(ws_id)`. -/
def call_init_device (X : Ext σ) (ws_id : Pint) (args : Phg_args_inp_init_dev)
    (s : Phg σ) : Phg σ :=
  { s with ds := X.init_device ws_id args s.ds,
           log := s.log ++ [Effect.init_device ws_id args] }

/-- The call `phg_echo_limits_valid(ws_id, fn_id, echo_vol, dt)`: the call is
logged and its answer returned. -/
def echo_limits_valid (X : Ext σ) (ws_id : Pint) (fn_id : Pfn) (echo_vol : Plimit3)
    (dt : Wst_phigs_dt) (s : Phg σ) : Bool × Phg σ :=
  (X.phg_echo_limits_valid ws_id fn_id echo_vol dt, emit (Effect.echo_limits_valid ws_id fn_id) s)

/-- Embedding of `check_loc_data_record`. -/
def check_loc_data_record (pet : Pint) (_loc_data : Ploc_data3) (_dt : Wst_phigs_dt)
    (_ddt : Wst_defloc) : Bool :=
  if pet = 1 ∨ pet = 2 ∨ pet = 3 then true else false

/-- Embedding of `pinit_loc3`. -/
def pinit_loc3 (X : Ext σ) (s : Phg σ) (ws_id loc_num init_view_ind : Pint)
    (init_loc_pos : Ppoint3) (pet : Pint) (echo_vol : Plimit3) (loc_data : Ploc_data3) :
    Phg σ :=
  let r := input_ws_open s ws_id Pfn.Pfn_init_loc3 none
  match r.ret with
  | none => r.st
  | some o =>
    if 0 < loc_num ∧ loc_num ≤ o.idt.num_devs.loc then
      let v := echo_limits_valid X ws_id Pfn.Pfn_init_loc3 echo_vol o.dt r.st
      if v.1 then
        if init_view_ind ≥ 0 then
          let ddt := o.idt.locators (loc_num - 1).toNat
          let bad := !phg_int_in_list pet ddt.num_pets ddt.pets
          let s1 := if bad then ERR_REPORT ERR253 v.2 else v.2
          let loc_data1 := if bad then ddt.record else loc_data
          let pet1 := if bad then 1 else pet
          if check_loc_data_record pet1 loc_data1 o.dt ddt then
            call_init_device X ws_id
              { wsid := ws_id,
                idev_class := Phg_args_idev_class.PHG_ARGS_INP_LOC3,
                dev := loc_num,
                pet := pet1,
                echo_volume := echo_vol,
                data := Phg_args_init_data.loc
                  { init := { view_ind := init_view_ind, position := init_loc_pos },
                    record := loc_data1 } } s1
          else
            ERR_REPORT ERR260 s1
        else
          ERR_REPORT ERR114 v.2
      else
        v.2
    else
      ERR_REPORT ERR250 r.st

/-- Embedding of `check_stroke_data_record`. -/
def check_stroke_data_record (_pet : Pint) (stroke_data : Pstroke_data3) (_dt : Wst_phigs_dt)
    (ddt : Wst_defstroke) : Bool :=
  if stroke_data.buffer_size < 1 ∨ stroke_data.buffer_size > ddt.max_bufsize then false
  else if stroke_data.init_pos < 1 ∨ stroke_data.init_pos > ddt.max_bufsize then false
  else true

/-- Embedding of `pinit_stroke3`. -/
def pinit_stroke3 (X : Ext σ) (s : Phg σ) (ws_id stroke_num init_view_ind : Pint)
    (init_stroke : Ppoint_list3) (pet : Pint) (echo_vol : Plimit3)
    (stroke_data : Pstroke_data3) : Phg σ :=
  let r := input_ws_open s ws_id Pfn.Pfn_init_stroke3 none
  match r.ret with
  | none => r.st
  | some o =>
    if 0 < stroke_num ∧ stroke_num ≤ o.idt.num_devs.stroke then
      let v := echo_limits_valid X ws_id Pfn.Pfn_init_stroke3 echo_vol o.dt r.st
      if v.1 then
        if init_view_ind ≥ 0 then
          let ddt := o.idt.strokes (stroke_num - 1).toNat
          let bad := !phg_int_in_list pet ddt.num_pets ddt.pets
          let s1 := if bad then ERR_REPORT ERR253 v.2 else v.2
          let stroke_data1 := if bad then ddt.record else stroke_data
          let pet1 := if bad then 1 else pet
          if check_stroke_data_record pet1 stroke_data1 o.dt ddt then
            if init_stroke.num_points < stroke_data1.buffer_size then
              call_init_device X ws_id
                { wsid := ws_id,
                  idev_class := Phg_args_idev_class.PHG_ARGS_INP_STK3,
                  dev := stroke_num,
                  pet := pet1,
                  echo_volume := echo_vol,
                  data := Phg_args_init_data.stk
                    { init := { view_ind := init_view_ind,
                                num_points := init_stroke.num_points,
                                points := init_stroke.points },
                      record := stroke_data1 } } s1
            else
              ERR_REPORT ERR262 s1
          else
            ERR_REPORT ERR260 s1
        else
          ERR_REPORT ERR114 v.2
      else
        v.2
    else
      ERR_REPORT ERR250 r.st

/-- Embedding of `check_pick_data_record`. -/
def check_pick_data_record (pet : Pint) (_pick_data : Ppick_data3) (_dt : Wst_phigs_dt)
    (_ddt : Wst_defpick) : Bool :=
  if pet = 1 ∨ pet = 2 ∨ pet = 3 then true else false

/-- Embedding of `pinit_pick3`. -/
def pinit_pick3 (X : Ext σ) (s : Phg σ) (ws_id pick_num : Pint) (init_status : Pin_status)
    (init_pick : Ppick_path) (pet : Pint) (echo_vol : Plimit3) (pick_data : Ppick_data3)
    (order : Ppath_order) : Phg σ :=
  let r := input_ws_open s ws_id Pfn.Pfn_init_pick3 none
  match r.ret with
  | none => r.st
  | some o =>
    if 0 < pick_num ∧ pick_num ≤ o.idt.num_devs.pick then
      let v := echo_limits_valid X ws_id Pfn.Pfn_init_pick3 echo_vol o.dt r.st
      if v.1 then
        let ddt := o.idt.picks (pick_num - 1).toNat
        let bad := !phg_int_in_list pet ddt.num_pets ddt.pets
        let s1 := if bad then ERR_REPORT ERR253 v.2 else v.2
        let pick_data1 := if bad then ddt.record else pick_data
        let pet1 := if bad then 1 else pet
        if check_pick_data_record pet1 pick_data1 o.dt ddt then
          call_init_device X ws_id
            { wsid := ws_id,
              idev_class := Phg_args_idev_class.PHG_ARGS_INP_PIK3,
              dev := pick_num,
              pet := pet1,
              echo_volume := echo_vol,
              data := Phg_args_init_data.pik
                { init_status := init_status,
                  init_depth :=
                    if init_status = Pin_status.PIN_STATUS_OK then init_pick.depth else 0,
                  init_path_list :=
                    if init_status = Pin_status.PIN_STATUS_OK then some init_pick.path_list
                    else none,
                  record := pick_data1,
                  porder := order } } s1
        else
          ERR_REPORT ERR260 s1
      else
        v.2
    else
      ERR_REPORT ERR250 r.st

/-- Embedding of `strlen` of a NUL-terminated string. -/
def strlen (str : String) : Pint :=
  (str.length : Int)

/-- Embedding of `pinit_string3`. -/
def pinit_string3 (X : Ext σ) (s : Phg σ) (ws_id string_dev : Pint) (init_string : String)
    (pet : Pint) (echo_vol : Plimit3) (string_data : Pstring_data3) : Phg σ :=
  let r := input_ws_open s ws_id Pfn.Pfn_init_string3 none
  match r.ret with
  | none => r.st
  | some o =>
    if 0 < string_dev ∧ string_dev ≤ o.idt.num_devs.string then
      let v := echo_limits_valid X ws_id Pfn.Pfn_init_string3 echo_vol o.dt r.st
      if v.1 then
        let ddt := o.idt.strings (string_dev - 1).toNat
        let bad := !phg_int_in_list pet ddt.num_pets ddt.pets
        let s1 := if bad then ERR_REPORT ERR253 v.2 else v.2
        let string_data1 := if bad then ddt.record else string_data
        let pet1 := if bad then 1 else pet
        call_init_device X ws_id
          { wsid := ws_id,
            idev_class := Phg_args_idev_class.PHG_ARGS_INP_STR,
            dev := string_dev,
            pet := pet1,
            echo_volume := echo_vol,
            data := Phg_args_init_data.str
              { init_length := strlen init_string,
                init_string := init_string,
                record := string_data1 } } s1
      else
        ERR_REPORT ERR260 v.2
    else
      ERR_REPORT ERR250 r.st

/-- Embedding of `pinit_string`; the string data record of the 2D entry point is copied
into the same field as that of `pinit_string3`. -/
def pinit_string (X : Ext σ) (s : Phg σ) (ws_id string_dev : Pint) (init_string : String)
    (pet : Pint) (area : Plimit) (string_data : Pstring_data3) : Phg σ :=
  let echo_vol : Plimit3 :=
    { x_min := area.x_min, x_max := area.x_max, y_min := area.y_min, y_max := area.y_max,
      z_min := 0, z_max := 0 }
  let r := input_ws_open s ws_id Pfn.Pfn_init_string none
  match r.ret with
  | none => r.st
  | some o =>
    if 0 < string_dev ∧ string_dev ≤ o.idt.num_devs.string then
      let v := echo_limits_valid X ws_id Pfn.Pfn_init_string echo_vol o.dt r.st
      if v.1 then
        let ddt := o.idt.strings (string_dev - 1).toNat
        let bad := !phg_int_in_list pet ddt.num_pets ddt.pets
        let s1 := if bad then ERR_REPORT ERR253 v.2 else v.2
        let string_data1 := if bad then ddt.record else string_data
        let pet1 := if bad then 0 else pet
        call_init_device X ws_id
          { wsid := ws_id,
            idev_class := Phg_args_idev_class.PHG_ARGS_INP_STR,
            dev := string_dev,
            pet := pet1,
            echo_volume := echo_vol,
            data := Phg_args_init_data.str
              { init_length := strlen init_string,
                init_string := init_string,
                record := string_data1 } } s1
      else
        ERR_REPORT ERR260 v.2
    else
      ERR_REPORT ERR250 r.st

/-- The `switch (pet)` of `pinit_choice3` on the copied record `c`: the
string list size (`none` when no case sets it) and the record after the
assignments of the case taken. -/
def choice_switch (pet : Pint) (choice_data_rec c : Pchoice_data3) :
    Option Pint × Pchoice_data3 :=
  if pet = 1 ∨ pet = -1 then
    (some 0, { c with pet_r1_unused := 0 })
  else if pet = 3 ∨ pet = -3 then
    (some choice_data_rec.pet_r3_num_strings,
     { c with pet_r3_num_strings := choice_data_rec.pet_r3_num_strings,
              pet_r3_strings := choice_data_rec.pet_r3_strings })
  else if pet = 4 ∨ pet = -4 then
    (some choice_data_rec.pet_r4_num_strings,
     { c with pet_r4_num_strings := choice_data_rec.pet_r4_num_strings,
              pet_r4_strings := choice_data_rec.pet_r4_strings })
  else
    (none, c)

/-- Embedding of `pinit_choice3`. -/
def pinit_choice3 (X : Ext σ) (s : Phg σ) (ws_id choice_dev : Pint) (init_status : Pin_status)
    (init_choice : Pint) (pet : Pint) (echo_volume : Plimit3)
    (choice_data_rec : Pchoice_data3) : Phg σ :=
  let r := input_ws_open s ws_id Pfn.Pfn_init_choice3 none
  match r.ret with
  | none => r.st
  | some o =>
    if 0 < choice_dev ∧ choice_dev ≤ o.idt.num_devs.choice then
      let v := echo_limits_valid X ws_id Pfn.Pfn_init_choice3 echo_volume o.dt r.st
      if v.1 then
        let ddt := o.idt.choices (choice_dev - 1).toNat
        let bad := !phg_int_in_list pet ddt.num_pets ddt.pets
        let s1 := if bad then ERR_REPORT ERR253 v.2 else v.2
        let pet1 := if bad then 1 else pet
        let sw := choice_switch pet1 choice_data_rec choice_data_rec
        call_init_device X ws_id
          { wsid := ws_id,
            idev_class := Phg_args_idev_class.PHG_ARGS_INP_CHC3,
            dev := choice_dev,
            pet := pet1,
            echo_volume := echo_volume,
            data := Phg_args_init_data.cho
              { init := init_choice,
                status := init_status,
                record := sw.2,
                string_list_size := sw.1 } } s1
      else
        ERR_REPORT ERR260 v.2
    else
      ERR_REPORT ERR250 r.st

/-- The count stored for one string of the valuator record: `1 + strlen` of
the string, `0` for a NULL pointer. -/
def val_count (str : Option String) : Pint :=
  match str with
  | some t => 1 + strlen t
  | none => 0

/-- Embedding of `pinit_val3`. -/
def pinit_val3 (X : Ext σ) (s : Phg σ) (ws_id val_dev : Pint) (init_value : Pfloat)
    (pet : Pint) (echo_volume : Plimit3) (val_data_rec : Pval_data) : Phg σ :=
  let r := input_ws_open s ws_id Pfn.Pfn_init_val3 none
  match r.ret with
  | none => r.st
  | some o =>
    if 0 < val_dev ∧ val_dev ≤ o.idt.num_devs.val then
      let v := echo_limits_valid X ws_id Pfn.Pfn_init_val3 echo_volume o.dt r.st
      if v.1 then
        let ddt := o.idt.valuators (val_dev - 1).toNat
        let bad := !phg_int_in_list pet ddt.num_pets ddt.pets
        let s1 := if bad then ERR_REPORT ERR253 v.2 else v.2
        let pet1 := if bad then 0 else pet
        call_init_device X ws_id
          { wsid := ws_id,
            idev_class := Phg_args_idev_class.PHG_ARGS_INP_VAL3,
            dev := val_dev,
            pet := pet1,
            echo_volume := echo_volume,
            data := Phg_args_init_data.val
              { init := init_value,
                counts :=
                  if pet1 < 0 then
                    some [val_count val_data_rec.label, val_count val_data_rec.format,
                          val_count val_data_rec.low_label, val_count val_data_rec.high_label]
                  else none,
                record := val_data_rec } } s1
      else
        ERR_REPORT ERR260 v.2
    else
      ERR_REPORT ERR250 r.st

/-! ## Operating modes -/

/-- Embedding of `set_mode`: fills the argument record and calls the driver hook
`set_device_mode` of `PHG_WSID(ws_id)`. -/
def set_mode (X : Ext σ) (s : Phg σ) (ws_id : Pint) (dev_class : Phg_args_idev_class)
    (dev_num : Pint) (op_mode : Pop_mode) (echo_switch : Pecho_switch) : Phg σ :=
  let args : Phg_args_set_mode_data :=
    { idev_class := dev_class, dev := dev_num, mode := op_mode, echo := echo_switch }
  { s with ds := X.set_device_mode ws_id args s.ds,
           log := s.log ++ [Effect.set_device_mode ws_id args] }

/-- Embedding of `pset_loc_mode`. -/
def pset_loc_mode (X : Ext σ) (s : Phg σ) (ws_id loc_num : Pint) (op_mode : Pop_mode)
    (echo_switch : Pecho_switch) : Phg σ :=
  let r := input_ws_open s ws_id Pfn.Pfn_set_loc_mode none
  match r.ret with
  | none => r.st
  | some o =>
    if 0 < loc_num ∧ loc_num ≤ o.idt.num_devs.loc then
      set_mode X r.st ws_id Phg_args_idev_class.PHG_ARGS_INP_LOC loc_num op_mode echo_switch
    else
      ERR_REPORT ERR250 r.st

/-- Embedding of `pset_stroke_mode`. -/
def pset_stroke_mode (X : Ext σ) (s : Phg σ) (ws_id stroke_num : Pint) (op_mode : Pop_mode)
    (echo_switch : Pecho_switch) : Phg σ :=
  let r := input_ws_open s ws_id Pfn.Pfn_set_stroke_mode none
  match r.ret with
  | none => r.st
  | some o =>
    if 0 < stroke_num ∧ stroke_num ≤ o.idt.num_devs.stroke then
      set_mode X r.st ws_id Phg_args_idev_class.PHG_ARGS_INP_STK stroke_num op_mode echo_switch
    else
      ERR_REPORT ERR250 r.st

/-- Embedding of `pset_pick_mode`; the source passes `Pfn_set_stroke_mode` as function
identifier. -/
def pset_pick_mode (X : Ext σ) (s : Phg σ) (ws_id pick_num : Pint) (op_mode : Pop_mode)
    (echo_switch : Pecho_switch) : Phg σ :=
  let r := input_ws_open s ws_id Pfn.Pfn_set_stroke_mode none
  match r.ret with
  | none => r.st
  | some o =>
    if 0 < pick_num ∧ pick_num ≤ o.idt.num_devs.pick then
      set_mode X r.st ws_id Phg_args_idev_class.PHG_ARGS_INP_PIK pick_num op_mode echo_switch
    else
      ERR_REPORT ERR250 r.st

/-- Embedding of `pset_string_mode`. -/
def pset_string_mode (X : Ext σ) (s : Phg σ) (ws_id string_dev : Pint) (op_mode : Pop_mode)
    (echo_switch : Pecho_switch) : Phg σ :=
  let r := input_ws_open s ws_id Pfn.Pfn_set_string_mode none
  match r.ret with
  | none => r.st
  | some _ =>
    if 0 < string_dev then
      set_mode X r.st ws_id Phg_args_idev_class.PHG_ARGS_INP_STR string_dev op_mode echo_switch
    else
      ERR_REPORT ERR250 r.st

/-- Embedding of `pset_choice_mode`. -/
def pset_choice_mode (X : Ext σ) (s : Phg σ) (ws_id choice_dev : Pint) (op_mode : Pop_mode)
    (echo_switch : Pecho_switch) : Phg σ :=
  let r := input_ws_open s ws_id Pfn.Pfn_set_choice_mode none
  match r.ret with
  | none => r.st
  | some _ =>
    if 0 < choice_dev then
      set_mode X r.st ws_id Phg_args_idev_class.PHG_ARGS_INP_CHC choice_dev op_mode echo_switch
    else
      ERR_REPORT ERR250 r.st

/-- Embedding of `pset_val_mode`. -/
def pset_val_mode (X : Ext σ) (s : Phg σ) (ws_id val_dev : Pint) (op_mode : Pop_mode)
    (echo_switch : Pecho_switch) : Phg σ :=
  let r := input_ws_open s ws_id Pfn.Pfn_set_val_mode none
  match r.ret with
  | none => r.st
  | some _ =>
    if 0 < val_dev then
      set_mode X r.st ws_id Phg_args_idev_class.PHG_ARGS_INP_VAL val_dev op_mode echo_switch
    else
      ERR_REPORT ERR250 r.st

/-! ## Sample engine -/

/-- The loop `while (phg_wsx_input_dispatch_next(wsh, PHG_EVT_TABLE));`:
the dispatcher is called until it answers FALSE. `none` when the fuel runs
out first. -/
def drain (X : Ext σ) (ws_id : Pint) : Nat → Phg σ → Option (Phg σ)
  | 0, _ => none
  | fuel + 1, s =>
    let d := X.dispatch_next ws_id s.ds
    let s1 : Phg σ := { s with ds := d.2, log := s.log ++ [Effect.dispatch_next ws_id] }
    if d.1 then drain X ws_id fuel s1 else some s1

/-- Embedding of `sample_device`: drains the pending input of the workstation, then calls
the driver hook `sample_device`, which fills `ret`. -/
def sample_device (X : Ext σ) (fuel : Nat) (s : Phg σ) (ws_id dev_num : Pint)
    (dev_class : Phg_args_idev_class) : Option (Phg_ret × Phg σ) :=
  match drain X ws_id fuel s with
  | none => none
  | some s1 =>
    let d := X.sample_device ws_id dev_class dev_num s1.ds
    some (d.1, { s1 with ds := d.2,
                         log := s1.log ++ [Effect.sample_device ws_id dev_class dev_num] })

/-- Caller storage written by `psample_loc`. -/
structure Sample_loc_out where
  view_ind : Pint
  loc_pos : Ppoint

/-- Embedding of `psample_loc`; `out` is the content of the caller storage before the
call. -/
def psample_loc (X : Ext σ) (fuel : Nat) (s : Phg σ) (ws_id loc_num : Pint)
    (out : Sample_loc_out) : Option (Sample_loc_out × Phg σ) :=
  let r := input_ws_open s ws_id Pfn.Pfn_sample_loc none
  match r.ret with
  | none => some (out, r.st)
  | some o =>
    if 0 < loc_num ∧ loc_num ≤ o.idt.num_devs.loc then
      match sample_device X fuel r.st ws_id loc_num Phg_args_idev_class.PHG_ARGS_INP_LOC with
      | none => none
      | some (ret, s1) =>
        if ret.err = 0 then
          some ({ view_ind := ret.inp_event.data.loc.view_ind,
                  loc_pos := { x := ret.inp_event.data.loc.position.x,
                               y := ret.inp_event.data.loc.position.y } }, s1)
        else
          some (out, s1)
    else
      some (out, ERR_REPORT ERR250 r.st)

/-- Caller storage written by `psample_loc3`. -/
structure Sample_loc3_out where
  view_ind : Pint
  loc_pos : Ppoint3

/-- Embedding of `psample_loc3`. -/
def psample_loc3 (X : Ext σ) (fuel : Nat) (s : Phg σ) (ws_id loc_num : Pint)
    (out : Sample_loc3_out) : Option (Sample_loc3_out × Phg σ) :=
  let r := input_ws_open s ws_id Pfn.Pfn_sample_loc3 none
  match r.ret with
  | none => some (out, r.st)
  | some o =>
    if 0 < loc_num ∧ loc_num ≤ o.idt.num_devs.loc then
      match sample_device X fuel r.st ws_id loc_num Phg_args_idev_class.PHG_ARGS_INP_LOC3 with
      | none => none
      | some (ret, s1) =>
        if ret.err = 0 then
          some ({ view_ind := ret.inp_event.data.loc.view_ind,
                  loc_pos := ret.inp_event.data.loc.position }, s1)
        else
          some (out, s1)
    else
      some (out, ERR_REPORT ERR250 r.st)

/-- Caller storage written by `psample_stroke`. -/
structure Sample_stroke_out where
  view_ind : Pint
  stroke : Ppoint_list

/-- The loop `for (i = 0; i < n; i++)` copying `x` and `y` of the first `n`
points of `src` into `dst`. -/
def copy_points_xy (dst : CArray Ppoint) (src : CArray Ppoint3) (n : Pint) : CArray Ppoint :=
  fun i => if (i : Int) < n then { x := (src i).x, y := (src i).y } else dst i

/-- Embedding of `psample_stroke`. -/
def psample_stroke (X : Ext σ) (fuel : Nat) (s : Phg σ) (ws_id stroke_num : Pint)
    (out : Sample_stroke_out) : Option (Sample_stroke_out × Phg σ) :=
  let r := input_ws_open s ws_id Pfn.Pfn_sample_stroke none
  match r.ret with
  | none => some (out, r.st)
  | some o =>
    if 0 < stroke_num ∧ stroke_num ≤ o.idt.num_devs.stroke then
      match sample_device X fuel r.st ws_id stroke_num Phg_args_idev_class.PHG_ARGS_INP_STK with
      | none => none
      | some (ret, s1) =>
        if ret.err = 0 then
          let stk := ret.inp_event.data.stk
          if stk.num_points > 0 then
            some ({ view_ind := stk.view_ind,
                    stroke := { num_points := stk.num_points,
                                points := copy_points_xy out.stroke.points stk.points
                                            stk.num_points } }, s1)
          else
            some ({ view_ind := stk.view_ind,
                    stroke := { num_points := 0, points := out.stroke.points } }, s1)
        else
          some (out, s1)
    else
      some (out, ERR_REPORT ERR250 r.st)

/-- Caller storage written by `psample_stroke3`. -/
structure Sample_stroke3_out where
  view_ind : Pint
  stroke : Ppoint_list3

/-- Embedding of `psample_stroke3`. The source copies with
`memcpy(&stroke->points, &stk->points, ...)`, from the address of the pointer
member to the address of the pointer member: the pointer `stroke->points`
takes the value of `stk->points`; the bytes the copy writes past that member
lie outside the caller storage described here. -/
def psample_stroke3 (X : Ext σ) (fuel : Nat) (s : Phg σ) (ws_id stroke_num : Pint)
    (out : Sample_stroke3_out) : Option (Sample_stroke3_out × Phg σ) :=
  let r := input_ws_open s ws_id Pfn.Pfn_sample_stroke3 none
  match r.ret with
  | none => some (out, r.st)
  | some o =>
    if 0 < stroke_num ∧ stroke_num ≤ o.idt.num_devs.stroke then
      match sample_device X fuel r.st ws_id stroke_num Phg_args_idev_class.PHG_ARGS_INP_STK3 with
      | none => none
      | some (ret, s1) =>
        if ret.err = 0 then
          let stk := ret.inp_event.data.stk
          if stk.num_points > 0 then
            some ({ view_ind := stk.view_ind,
                    stroke := { num_points := stk.num_points, points := stk.points } }, s1)
          else
            some ({ view_ind := stk.view_ind,
                    stroke := { num_points := 0, points := out.stroke.points } }, s1)
        else
          some (out, s1)
    else
      some (out, ERR_REPORT ERR250 r.st)

/-- Embedding of `memcpy(dst, src, n * sizeof(elem))` on arrays: the first `n` elements of
`dst` take the values of `src`, the others keep theirs. -/
def memcpy_elems {α : Type} (dst src : CArray α) (n : Pint) : CArray α :=
  fun i => if (i : Int) < n then src i else dst i

/-- Caller storage written by `psample_pick` and `pget_pick`. -/
structure Pick_out where
  in_status : Pin_status
  pick : Ppick_path

/-- The copy of a pick value with status OK into the caller's path, shared by
`psample_pick` and `pget_pick`: the depth is stored, then the first
`PHG_MIN(depth, pik->pick_path.depth)` path elements when that is positive. -/
def copy_pick_path (depth : Pint) (pik : Ppick) (pick : Ppick_path) : Ppick_path :=
  let depth_limit := PHG_MIN depth pik.pick_path.depth
  { depth := pik.pick_path.depth,
    path_list :=
      if depth_limit > 0 then memcpy_elems pick.path_list pik.pick_path.path_list depth_limit
      else pick.path_list }

/-- Embedding of `psample_pick`. -/
def psample_pick (X : Ext σ) (fuel : Nat) (s : Phg σ) (ws_id pick_num depth : Pint)
    (out : Pick_out) : Option (Pick_out × Phg σ) :=
  let r := input_ws_open s ws_id Pfn.Pfn_sample_pick none
  match r.ret with
  | none => some (out, r.st)
  | some o =>
    if 0 < pick_num ∧ pick_num ≤ o.idt.num_devs.pick then
      match sample_device X fuel r.st ws_id pick_num Phg_args_idev_class.PHG_ARGS_INP_PIK with
      | none => none
      | some (ret, s1) =>
        if ret.err = 0 then
          let pik := ret.inp_event.data.pik
          if pik.status = Pin_status.PIN_STATUS_OK then
            some ({ in_status := pik.status, pick := copy_pick_path depth pik out.pick }, s1)
          else
            some ({ out with in_status := pik.status }, s1)
        else
          some ({ out with in_status := Pin_status.PIN_STATUS_NONE }, s1)
    else
      some (out, ERR_REPORT ERR250 r.st)

/-- The NUL character. -/
def NUL : Char := Char.ofNat 0

/-- Embedding of `strncpy(dst, src, n)`: the first `n` characters of `dst` take the
characters of `src` up to its first NUL, and NUL from there on. -/
def strncpy (dst src : CArray Char) (n : Nat) : CArray Char :=
  fun i =>
    if i < n then
      if (List.range (i + 1)).any (fun j => src j == NUL) then NUL else src i
    else dst i

/-- Conversion of a `Pint` to `size_t` (64 bit). -/
def to_size_t (n : Pint) : Nat :=
  (n % 2 ^ 64).toNat

/-- Embedding of `psample_string`; the source passes `Pfn_sample_pick` as function
identifier. -/
def psample_string (X : Ext σ) (fuel : Nat) (s : Phg σ) (ws_id string_dev : Pint)
    (string : CArray Char) : Option (CArray Char × Phg σ) :=
  let r := input_ws_open s ws_id Pfn.Pfn_sample_pick none
  match r.ret with
  | none => some (string, r.st)
  | some _ =>
    if 0 < string_dev then
      match sample_device X fuel r.st ws_id string_dev Phg_args_idev_class.PHG_ARGS_INP_STR with
      | none => none
      | some (ret, s1) =>
        if ret.err = 0 then
          some (strncpy string ret.inp_event.data.str.string
                  (to_size_t ret.inp_event.data.str.length), s1)
        else
          some (string, s1)
    else
      some (string, ERR_REPORT ERR250 r.st)

/-! ## Request engine -/

/-- The `switch (dev_class)` of the polling loop of `request_device`: every
device class reads the status cell of the request state block (`istat`,
`pkstat` or `chstat`). -/
def request_status (dev_class : Phg_args_idev_class) (inp : Ws_inp_req) : Pin_status :=
  match dev_class with
  | Phg_args_idev_class.PHG_ARGS_INP_LOC | Phg_args_idev_class.PHG_ARGS_INP_LOC3
  | Phg_args_idev_class.PHG_ARGS_INP_STK | Phg_args_idev_class.PHG_ARGS_INP_STK3
  | Phg_args_idev_class.PHG_ARGS_INP_VAL | Phg_args_idev_class.PHG_ARGS_INP_VAL3
  | Phg_args_idev_class.PHG_ARGS_INP_STR | Phg_args_idev_class.PHG_ARGS_INP_STR3 => inp.status
  | Phg_args_idev_class.PHG_ARGS_INP_PIK | Phg_args_idev_class.PHG_ARGS_INP_PIK3 => inp.status
  | Phg_args_idev_class.PHG_ARGS_INP_CHC | Phg_args_idev_class.PHG_ARGS_INP_CHC3 => inp.status

/-- The condition of the `do ... while` of `request_device`, read from the
request state block `inp`. -/
def request_continue (X : Ext σ) (dev_class : Phg_args_idev_class) (dev_num : Pint)
    (in_status : Pin_status) (inp : Ws_inp_req) : Bool :=
  decide (in_status = Pin_status.PIN_STATUS_NONE) &&
  decide (inp.dev_class ≠ X.idev_class_code dev_class) &&
  decide (inp.dev_num ≠ dev_num)

/-- The `do ... while` loop of `request_device`: drain the workstation, read
the status, sleep 1 ms, repeat while `request_continue`. Returns the status
last read; `none` when the fuel (rounds `fuel`, dispatcher calls per round
`dfuel`) runs out first. -/
def request_loop (X : Ext σ) (ws_id dev_num : Pint) (dev_class : Phg_args_idev_class)
    (dfuel : Nat) : Nat → Phg σ → Option (Pin_status × Phg σ)
  | 0, _ => none
  | fuel + 1, s =>
    match drain X ws_id dfuel s with
    | none => none
    | some s1 =>
      let in_status := request_status dev_class (s1.ds.input_request ws_id)
      let s2 := emit (Effect.msleep 1) s1
      if request_continue X dev_class dev_num in_status (s2.ds.input_request ws_id) then
        request_loop X ws_id dev_num dev_class dfuel fuel s2
      else
        some (in_status, s2)

/-- The request state block after `memset(inp, 0, sizeof(Ws_inp_req))`: all
numbers are 0, the status is `PIN_STATUS_NONE` (the enumerator of value 0)
and the pointers are NULL, read here as arrays of zero elements. -/
def Ws_inp_req.zero : Ws_inp_req :=
  { dev_class := 0,
    dev_num := 0,
    status := Pin_status.PIN_STATUS_NONE,
    loc := { view_ind := 0, position := { x := 0, y := 0, z := 0 } },
    stroke := { view_ind := 0, num_points := 0, points := fun _ => { x := 0, y := 0, z := 0 } },
    pick := { status := Pin_status.PIN_STATUS_NONE,
              pick_path := { depth := 0,
                             path_list := fun _ => { struct_id := 0, pick_id := 0,
                                                     elem_pos := 0 } } },
    val := 0,
    choice := { status := Pin_status.PIN_STATUS_NONE, choice := 0 },
    string := { length := 0, string := fun _ => NUL } }

/-- The `switch (dev_class)` that copies the payload of the requested class
from the request state block `inp` into the event data `d` of the result. -/
def request_copy (dev_class : Phg_args_idev_class) (inp : Ws_inp_req)
    (d : Phg_inp_event_data) : Phg_inp_event_data :=
  match dev_class with
  | Phg_args_idev_class.PHG_ARGS_INP_LOC | Phg_args_idev_class.PHG_ARGS_INP_LOC3 =>
    { d with loc := inp.loc }
  | Phg_args_idev_class.PHG_ARGS_INP_STK | Phg_args_idev_class.PHG_ARGS_INP_STK3 =>
    { d with stk := inp.stroke }
  | Phg_args_idev_class.PHG_ARGS_INP_PIK | Phg_args_idev_class.PHG_ARGS_INP_PIK3 =>
    { d with pik := inp.pick }
  | Phg_args_idev_class.PHG_ARGS_INP_VAL | Phg_args_idev_class.PHG_ARGS_INP_VAL3 =>
    { d with val := inp.val }
  | Phg_args_idev_class.PHG_ARGS_INP_CHC | Phg_args_idev_class.PHG_ARGS_INP_CHC3 =>
    { d with chc := inp.choice }
  | Phg_args_idev_class.PHG_ARGS_INP_STR | Phg_args_idev_class.PHG_ARGS_INP_STR3 =>
    { d with str := inp.string }

/-- Embedding of `request_device`: calls the driver hook `request_device` (which receives
`ret`), polls the request state block, copies status and payload into `ret`,
clears the block and sets `ret->err = 0`. -/
def request_device (X : Ext σ) (fuel : Nat) (s : Phg σ) (ws_id dev_num : Pint)
    (dev_class : Phg_args_idev_class) : Option (Phg_ret × Phg σ) :=
  let d := X.request_device ws_id dev_class dev_num s.ds
  let s0 : Phg σ :=
    { s with ds := d.2, log := s.log ++ [Effect.request_device ws_id dev_class dev_num] }
  match request_loop X ws_id dev_num dev_class fuel fuel s0 with
  | none => none
  | some (in_status, s1) =>
    let inp := s1.ds.input_request ws_id
    let req : Phg_ret_inp_request := { d.1.inp_request with status := in_status }
    let req1 : Phg_ret_inp_request :=
      if in_status ≠ Pin_status.PIN_STATUS_NO_IN then
        { req with event := { req.event with data := request_copy dev_class inp req.event.data } }
      else req
    let ds1 : DState σ :=
      { s1.ds with input_request := Function.update s1.ds.input_request ws_id Ws_inp_req.zero }
    some ({ d.1 with inp_request := req1, err := 0 }, { s1 with ds := ds1 })

/-- Caller storage written by `preq_loc3`. -/
structure Req_loc3_out where
  in_status : Pin_status
  view_ind : Pint
  loc_pos : Ppoint3

/-- Embedding of `preq_loc3`. -/
def preq_loc3 (X : Ext σ) (fuel : Nat) (s : Phg σ) (ws_id loc_num : Pint)
    (out : Req_loc3_out) : Option (Req_loc3_out × Phg σ) :=
  let r := input_ws_open s ws_id Pfn.Pfn_req_loc3 none
  match r.ret with
  | none => some (out, r.st)
  | some o =>
    if 0 < loc_num ∧ loc_num ≤ o.idt.num_devs.loc then
      match request_device X fuel r.st ws_id loc_num Phg_args_idev_class.PHG_ARGS_INP_LOC3 with
      | none => none
      | some (ret, s1) =>
        let req := ret.inp_request
        if ret.err = 0 then
          if req.status ≠ Pin_status.PIN_STATUS_NO_IN then
            some ({ in_status := req.status,
                    view_ind := req.event.data.loc.view_ind,
                    loc_pos := req.event.data.loc.position }, s1)
          else
            some ({ out with in_status := req.status }, s1)
        else
          some ({ out with in_status := Pin_status.PIN_STATUS_NO_IN }, s1)
    else
      some (out, ERR_REPORT ERR250 r.st)

/-- Caller storage written by `preq_stroke3`. -/
structure Req_stroke3_out where
  in_status : Pin_status
  view_ind : Pint
  stroke : Ppoint_list3

/-- Embedding of `preq_stroke3`. -/
def preq_stroke3 (X : Ext σ) (fuel : Nat) (s : Phg σ) (ws_id stroke_num : Pint)
    (out : Req_stroke3_out) : Option (Req_stroke3_out × Phg σ) :=
  let r := input_ws_open s ws_id Pfn.Pfn_req_stroke3 none
  match r.ret with
  | none => some (out, r.st)
  | some o =>
    if 0 < stroke_num ∧ stroke_num ≤ o.idt.num_devs.stroke then
      match request_device X fuel r.st ws_id stroke_num
              Phg_args_idev_class.PHG_ARGS_INP_STK3 with
      | none => none
      | some (ret, s1) =>
        let req := ret.inp_request
        if ret.err = 0 then
          if req.status ≠ Pin_status.PIN_STATUS_NO_IN then
            some ({ in_status := req.status,
                    view_ind := req.event.data.stk.view_ind,
                    stroke := { num_points := req.event.data.stk.num_points,
                                points := memcpy_elems out.stroke.points
                                            req.event.data.stk.points
                                            req.event.data.stk.num_points } }, s1)
          else
            some ({ out with in_status := req.status }, s1)
        else
          some ({ out with in_status := Pin_status.PIN_STATUS_NO_IN }, s1)
    else
      some (out, ERR_REPORT ERR250 r.st)

/-- Embedding of `preq_pick`; the source bounds the device number by `num_devs.loc`,
copies the whole `Ppick_path` of the result and does not use `depth`. -/
def preq_pick (X : Ext σ) (fuel : Nat) (s : Phg σ) (ws_id pick_num _depth : Pint)
    (out : Pick_out) : Option (Pick_out × Phg σ) :=
  let r := input_ws_open s ws_id Pfn.Pfn_req_pick none
  match r.ret with
  | none => some (out, r.st)
  | some o =>
    if 0 < pick_num ∧ pick_num ≤ o.idt.num_devs.loc then
      match request_device X fuel r.st ws_id pick_num Phg_args_idev_class.PHG_ARGS_INP_PIK with
      | none => none
      | some (ret, s1) =>
        let req := ret.inp_request
        if ret.err = 0 then
          if req.status ≠ Pin_status.PIN_STATUS_NO_IN then
            some ({ in_status := req.event.data.pik.status,
                    pick := req.event.data.pik.pick_path }, s1)
          else
            some ({ out with in_status := req.status }, s1)
        else
          some (out, s1)
    else
      some (out, r.st)

/-- Caller storage written by `preq_string`. -/
structure Req_string_out where
  status : Pin_status
  string : CArray Char

/-- Embedding of `preq_string`. -/
def preq_string (X : Ext σ) (fuel : Nat) (s : Phg σ) (ws_id string_dev : Pint)
    (out : Req_string_out) : Option (Req_string_out × Phg σ) :=
  let r := input_ws_open s ws_id Pfn.Pfn_req_string none
  match r.ret with
  | none => some (out, r.st)
  | some _ =>
    if 0 < string_dev then
      match request_device X fuel r.st ws_id string_dev Phg_args_idev_class.PHG_ARGS_INP_STR with
      | none => none
      | some (ret, s1) =>
        let req := ret.inp_request
        if ret.err = 0 then
          if req.status ≠ Pin_status.PIN_STATUS_NO_IN then
            let length := req.event.data.str.length
            some ({ status := req.status,
                    string := Function.update
                      (memcpy_elems out.string req.event.data.str.string length)
                      length.toNat NUL }, s1)
          else
            some ({ status := req.status, string := Function.update out.string 0 NUL }, s1)
        else
          some (out, s1)
    else
      some (out, r.st)

/-- Caller storage written by `preq_choice`. -/
structure Req_choice_out where
  status : Pin_status
  choice : Pint

/-- Embedding of `preq_choice`. -/
def preq_choice (X : Ext σ) (fuel : Nat) (s : Phg σ) (ws_id choice_dev : Pint)
    (out : Req_choice_out) : Option (Req_choice_out × Phg σ) :=
  let r := input_ws_open s ws_id Pfn.Pfn_req_choice none
  match r.ret with
  | none => some (out, r.st)
  | some _ =>
    if 0 < choice_dev then
      match request_device X fuel r.st ws_id choice_dev Phg_args_idev_class.PHG_ARGS_INP_CHC with
      | none => none
      | some (ret, s1) =>
        let req := ret.inp_request
        if ret.err = 0 then
          if req.status ≠ Pin_status.PIN_STATUS_NO_IN then
            some ({ status := req.event.data.chc.status,
                    choice := req.event.data.chc.choice }, s1)
          else
            some ({ status := req.event.data.chc.status, choice := 0 }, s1)
        else
          some (out, s1)
    else
      some (out, r.st)

/-- Caller storage written by `preq_valuator`. -/
structure Req_val_out where
  status : Pin_status
  value : Pfloat

/-- Embedding of `preq_valuator`. -/
def preq_valuator (X : Ext σ) (fuel : Nat) (s : Phg σ) (ws_id val_dev : Pint)
    (out : Req_val_out) : Option (Req_val_out × Phg σ) :=
  let r := input_ws_open s ws_id Pfn.Pfn_req_val none
  match r.ret with
  | none => some (out, r.st)
  | some _ =>
    if 0 < val_dev then
      match request_device X fuel r.st ws_id val_dev Phg_args_idev_class.PHG_ARGS_INP_VAL with
      | none => none
      | some (ret, s1) =>
        let req := ret.inp_request
        if ret.err = 0 then
          if req.status ≠ Pin_status.PIN_STATUS_NO_IN then
            some ({ status := req.status, value := req.event.data.val }, s1)
          else
            some ({ status := req.status, value := 0 }, s1)
        else
          some (out, s1)
    else
      some (out, r.st)

/-! ## Get engine -/

/-- Embedding of `check_event_class`. -/
def check_event_class (s : Phg σ) (dev_class : Pin_class) (fn_id : Pfn) : Bool × Phg σ :=
  let s0 := ERR_SET_CUR_FUNC fn_id s
  if s0.psl.ws_state ≠ Pws_st.PWS_ST_WSOP then
    (false, ERR_REPORT ERR3 s0)
  else if s0.psl.cur_event.id.in_class ≠ dev_class then
    (false, ERR_REPORT ERR259 s0)
  else
    (true, s0)

/-- Embedding of `pget_pick`. -/
def pget_pick (s : Phg σ) (depth : Pint) (out : Pick_out) : Pick_out × Phg σ :=
  if s.psl.cur_event.id.in_class ≠ Pin_class.PIN_NONE then
    let c := check_event_class s Pin_class.PIN_PICK Pfn.Pfn_get_pick
    if c.1 then
      let pik := c.2.psl.cur_event.data.pik
      if pik.status = Pin_status.PIN_STATUS_OK then
        ({ in_status := pik.status, pick := copy_pick_path depth pik out.pick }, c.2)
      else
        ({ out with in_status := pik.status }, c.2)
    else
      (out, c.2)
  else
    ({ out with in_status := Pin_status.PIN_STATUS_NO_IN }, s)

/-! ## Event queue and poll engine -/

/-- Embedding of `ERR_BUF(PHG_ERH, err)`. -/
def ERR_BUF (err : Pint) (s : Phg σ) : Phg σ :=
  emit (Effect.buf err) s

/-- Embedding of `ERR_FLUSH(PHG_ERH)`. -/
def ERR_FLUSH (s : Phg σ) : Phg σ :=
  emit Effect.flush s

/-- Error numbers handed to `ERR_BUF`, in order. -/
def buffered : List Effect → List Pint
  | [] => []
  | Effect.buf e :: l => e :: buffered l
  | _ :: l => buffered l

/-- Conversion of an integer to `unsigned` (32 bit). -/
def to_unsigned (n : Int) : Nat :=
  (n % 2 ^ 32).toNat

/-- Embedding of `memcpy(dst, src, size)` for a byte count `size` and elements
of `elem_size` bytes: the elements that `size` bytes cover in whole take the
values of `src`; an element covered only in part is left as in `dst`. -/
def memcpy_bytes {α : Type} (dst src : CArray α) (size elem_size : Nat) : CArray α :=
  memcpy_elems dst src ((size / elem_size : Nat) : Int)

/-- Modelled from the spec: the macro `PHG_SCRATCH_SPACE(&PHG_SCRATCH, size)`
is defined outside this file; it ensures that the scratch arena has at least
`size` bytes, growing it through the allocator if needed, and answers whether
it has. -/
def PHG_SCRATCH_SPACE (X : Ext σ) (s : Phg σ) (size : Nat) : Bool × Phg σ :=
  if size ≤ s.scratch.size then (true, s)
  else if X.alloc_ok s.n_alloc then
    (true, { s with scratch := { s.scratch with size := size }, n_alloc := s.n_alloc + 1 })
  else
    (false, { s with n_alloc := s.n_alloc + 1 })

/-- Modelled from the spec: `phg_sin_q_next_event` is defined outside this
file; it answers the oldest event of the queue without removing it, `none`
(NULL) when the queue is empty. -/
def phg_sin_q_next_event (q : Sin_event_queue) : Option Sin_input_event :=
  q.events.head?

/-- Modelled from the spec: `phg_sin_q_deque_event` is defined outside this
file; it removes the oldest event from the queue. -/
def phg_sin_q_deque_event (q : Sin_event_queue) : Sin_event_queue :=
  { q with events := q.events.tail }

/-- Modelled from the spec: the macro `SIN_Q_OVERFLOWED` is defined outside
this file; it reads the overflow latch. -/
def SIN_Q_OVERFLOWED (q : Sin_event_queue) : Bool :=
  q.overflow

/-- Modelled from the spec: the macro `SIN_Q_CLEAR_OVERFLOW` is defined
outside this file; it clears the overflow latch. -/
def SIN_Q_CLEAR_OVERFLOW (q : Sin_event_queue) : Sin_event_queue :=
  { q with overflow := false }

/-- Modelled from the spec: the macro `SIN_Q_SET_CUR_SIMUL_ID` is defined
outside this file; it stores the simultaneous-event id of `event` in the
queue. -/
def SIN_Q_SET_CUR_SIMUL_ID (q : Sin_event_queue) (event : Sin_input_event) :
    Sin_event_queue :=
  { q with cur_simul_id := event.simul_id }

/-- Replace the input queue of a state. -/
def set_input_q (s : Phg σ) (q : Sin_event_queue) : Phg σ :=
  { s with ds := { s.ds with input_q := q } }

/-- Replace the event data `ret->data.inp_event.data` of a return record. -/
def set_ed (ret : Phg_ret) (ed : Phg_inp_event_data) : Phg_ret :=
  { ret with inp_event := { ret.inp_event with data := ed } }

/-- Embedding of the three failure branches of `inp_event_poll`:
`ERR_BUF(PHG_ERH, ERR900)`, `ret->err = ERR900` and `free(p)`. `live` says
whether the pointer `p` handed to `free` is NULL or a live heap block; when
it is not, the behaviour is undefined and the call does not return
(`none`). -/
def poll_fail (live : Bool) (ret : Phg_ret) (s : Phg σ) : Option (Phg_ret × Phg σ) :=
  if live then some ({ ret with err := ERR900 }, ERR_BUF ERR900 s) else none

/-- The `switch (ev_id->in_class)` of `inp_event_poll` for the queued event
`event`: the event data of `ret` is filled from the event; variable-length
payloads are staged in the scratch arena. `live` says whether the pointer
`ed->stk.points` that the return record holds when the call starts is NULL or
a live heap block: the failure branches of the stroke and of the string case
hand that pointer to `free`. The failure branch of the pick case frees the
path of the queued event; the payload of a queued event is taken to be a
live block, and its release on this branch and on the success branches is
not represented. `none` when the call does not return. -/
def poll_switch (X : Ext σ) (event : Sin_input_event) (ret : Phg_ret) (s : Phg σ)
    (live : Bool) : Option (Phg_ret × Phg σ) :=
  let ed := ret.inp_event.data
  match ret.inp_event.id.in_class with
  | Pin_class.PIN_LOC => some (set_ed ret { ed with loc := event.data.locator }, s)
  | Pin_class.PIN_STROKE =>
    let evt := event.data.stroke
    let size := to_unsigned (evt.num_points * (X.sizeof_Ppoint3 : Int))
    if size > 0 then
      let sp := PHG_SCRATCH_SPACE X s size
      if sp.1 = false then poll_fail live ret sp.2
      else
        let buf := memcpy_bytes sp.2.scratch.points evt.points size X.sizeof_Ppoint3
        some (set_ed ret { ed with stk := { evt with points := buf } },
              { sp.2 with scratch := { sp.2.scratch with points := buf } })
    else
      some (set_ed ret { ed with stk := evt }, s)
  | Pin_class.PIN_PICK =>
    let pick := event.data.pick
    let ret1 := set_ed ret { ed with pik := pick }
    if pick.status = Pin_status.PIN_STATUS_OK then
      let size := to_unsigned (pick.pick_path.depth * (X.sizeof_Ppick_path_elem : Int))
      if size > 0 then
        let sp := PHG_SCRATCH_SPACE X s size
        if sp.1 = false then poll_fail true ret1 sp.2
        else
          let buf := memcpy_bytes sp.2.scratch.path pick.pick_path.path_list size
                       X.sizeof_Ppick_path_elem
          some (set_ed ret { ed with pik := { pick with
                                              pick_path := { pick.pick_path with
                                                             path_list := buf } } },
                { sp.2 with scratch := { sp.2.scratch with path := buf } })
      else
        some (ret1, s)
    else
      some (ret1, s)
  | Pin_class.PIN_VAL => some (set_ed ret { ed with val := event.data.valuator }, s)
  | Pin_class.PIN_CHOICE => some (set_ed ret { ed with chc := event.data.choice }, s)
  | Pin_class.PIN_STRING =>
    let evt := event.data.string
    let size := to_unsigned evt.length
    if size > 0 then
      let sp := PHG_SCRATCH_SPACE X s size
      if sp.1 = false then poll_fail live ret sp.2
      else
        let buf := memcpy_bytes sp.2.scratch.chars evt.string size 1
        some (set_ed ret { ed with str := { evt with string := buf } },
              { sp.2 with scratch := { sp.2.scratch with chars := buf } })
    else
      some (set_ed ret { ed with str := evt }, s)
  | Pin_class.PIN_NONE => some (ret, s)

/-- Embedding of `inp_event_poll`; `ret` holds what the caller's return
record contained before the call, and `live` says whether the pointer
`ret->data.inp_event.data.stk.points` it holds is NULL or a live heap block
(see `poll_switch`). `none` when the call does not return. -/
def inp_event_poll (X : Ext σ) (s : Phg σ) (ret : Phg_ret) (live : Bool) :
    Option (Phg_ret × Phg σ) :=
  let ret0 : Phg_ret := { ret with err := 0 }
  match phg_sin_q_next_event s.ds.input_q with
  | some event =>
    let s1 := if SIN_Q_OVERFLOWED s.ds.input_q then ERR_BUF ERR256 s else s
    let ret1 : Phg_ret :=
      { ret0 with inp_event := { ret0.inp_event with
                                 id := { ws := event.wsid, dev := event.dev_num,
                                         in_class := event.dev_class } } }
    let s2 := set_input_q s1 (SIN_Q_SET_CUR_SIMUL_ID s1.ds.input_q event)
    match poll_switch X event ret1 s2 live with
    | none => none
    | some r => some (r.1, set_input_q r.2 (phg_sin_q_deque_event r.2.ds.input_q))
  | none =>
    let ret1 : Phg_ret :=
      { ret0 with inp_event := { ret0.inp_event with
                                 id := { ret0.inp_event.id with
                                         in_class := Pin_class.PIN_NONE } } }
    let s1 := if SIN_Q_OVERFLOWED s.ds.input_q then
                set_input_q s (SIN_Q_CLEAR_OVERFLOW s.ds.input_q)
              else s
    some (ret1, s1)

/-- One pass of the `for` loop of `inp_dispatch_next` for the workstation
slot `i`: the workstation check in non-reporting mode, then the dispatcher
for an input workstation, whose answer replaces `status`. -/
def dispatch_step (X : Ext σ) (fn_id : Pfn) (acc : Bool × Phg σ) (i : Nat) : Bool × Phg σ :=
  let r := input_ws_open acc.2 (i : Int) fn_id (some 0)
  match r.ret with
  | none => (acc.1, r.st)
  | some o =>
    if o.dt.ws_category = Pws_cat.PCAT_IN ∨ o.dt.ws_category = Pws_cat.PCAT_OUTIN then
      let d := X.dispatch_next (i : Int) r.st.ds
      (d.1, { r.st with ds := d.2, log := r.st.log ++ [Effect.dispatch_next (i : Int)] })
    else
      (acc.1, r.st)

/-- Embedding of `inp_dispatch_next`: the workstation slots
`0 .. MAX_NO_OPEN_WS - 1` in ascending order, starting from
`status = FALSE`. -/
def inp_dispatch_next (X : Ext σ) (fn_id : Pfn) (s : Phg σ) : Bool × Phg σ :=
  (List.range X.MAX_NO_OPEN_WS).foldl (dispatch_step X fn_id) (false, s)

/-! ## Await engine -/

/-- Caller storage written by `pawait_event`. -/
structure Await_out where
  ws_id : Pint
  dev_class : Pin_class
  in_num : Pint
  deriving DecidableEq

/-- Values the C program leaves indeterminate in a call of `pawait_event`:
the initial content of the locals `ret` and `ed`, whether the pointer that
the uninitialised `ret` holds in `data.inp_event.data.stk.points` happens to
be NULL or a live heap block (`stk_live`), and the initial content of the
blocks that `malloc` hands out for the stroke, pick and string copies. -/
structure Await_locals where
  ret : Phg_ret
  stk_live : Bool
  ed : Phg_inp_event_data
  pts : CArray Ppoint3
  path : CArray Ppick_path_elem
  str : CArray Char

/-- Embedding of `phg_mtime(&t)`: the next reading of the millisecond
clock. -/
def phg_mtime (X : Ext σ) (s : Phg σ) : Int × Phg σ :=
  (X.mtime s.n_mtime, { s with n_mtime := s.n_mtime + 1 })

/-- Embedding of `malloc(size)`: whether the allocator hands out a block. -/
def malloc (X : Ext σ) (s : Phg σ) (_size : Nat) : Bool × Phg σ :=
  (X.alloc_ok s.n_alloc, { s with n_alloc := s.n_alloc + 1 })

/-- The cast `(time_t) (timeout * 1000.0)`: the product truncated towards
zero. The product is taken exactly; floating-point rounding is not
represented. -/
def timeout_limit (timeout : Pfloat) : Int :=
  if 0 ≤ timeout * 1000 then (timeout * 1000).floor else (timeout * 1000).ceil

/-- The `do ... while` loop of `pawait_event`: each round reads the clock,
scans the workstations, sleeps 1 ms when the scan answered FALSE, polls the
queue into `ret`, reads the clock again and adds the difference to `time`;
the loop ends when `time >= limit` or the polled class is not `PIN_NONE`.
`live` is the flag of `inp_event_poll` for the record `ret`, whose pointer the
loop never changes before it ends. `none` when the fuel runs out first or
the poll does not return. -/
def await_loop (X : Ext σ) (limit : Int) (live : Bool) : Nat → Int → Phg_ret → Phg σ →
    Option (Phg_ret × Phg σ)
  | 0, _, _, _ => none
  | fuel + 1, time, ret, s =>
    let t1 := phg_mtime X s
    let d := inp_dispatch_next X Pfn.Pfn_await_event t1.2
    let s1 := if d.1 = false then emit (Effect.msleep 1) d.2 else d.2
    match inp_event_poll X s1 ret live with
    | none => none
    | some p =>
      let t2 := phg_mtime X p.2
      let time1 := time + (t2.1 - t1.1)
      if time1 ≥ limit then some (p.1, t2.2)
      else if p.1.inp_event.id.in_class = Pin_class.PIN_NONE then
        await_loop X limit live fuel time1 p.1 t2.2
      else some (p.1, t2.2)

/-- Embedding of `strcpy(dst, src)` for a source that lies in a buffer of
`bound` characters: the characters of `src` up to and including its first
NUL replace those of `dst`; `none` when `src` has no NUL within the buffer.
Writes past the end of the destination block are not represented. -/
def strcpy (dst src : CArray Char) (bound : Nat) : Option (CArray Char) :=
  match (List.range bound).find? (fun j => src j == NUL) with
  | some k => some (fun i => if i ≤ k then src i else dst i)
  | none => none

/-- The first `switch (revt->id.in_class)` of `pawait_event`: the owned
copies of stroke and pick payloads are made in `revt`, string, valuator and
choice values are put into the local `ed`. Answers the updated `revt`, `ed`
and state; `none` when the string case does not return (`malloc` answered
NULL, which the source hands to `strcpy`, or the source string has no NUL). -/
def await_copy (X : Ext σ) (L : Await_locals) (revt : Phg_ret_inp_event) (s : Phg σ) :
    Option (Phg_ret_inp_event × Phg_inp_event_data × Phg σ) :=
  match revt.id.in_class with
  | Pin_class.PIN_STROKE =>
    let size := to_unsigned (revt.data.stk.num_points * (X.sizeof_Ppoint3 : Int))
    if size > 0 then
      let m := malloc X s size
      if m.1 = false then
        some ({ revt with data := { revt.data with
                                    stk := { revt.data.stk with num_points := 0 } } },
              L.ed, ERR_REPORT ERR900 m.2)
      else
        some ({ revt with data := { revt.data with
                                    stk := { revt.data.stk with
                                             points := memcpy_bytes L.pts revt.data.stk.points
                                                         size X.sizeof_Ppoint3 } } },
              L.ed, m.2)
    else some (revt, L.ed, s)
  | Pin_class.PIN_PICK =>
    if revt.data.pik.status = Pin_status.PIN_STATUS_OK then
      let size := to_unsigned (revt.data.pik.pick_path.depth *
                               (X.sizeof_Ppick_path_elem : Int))
      if size > 0 then
        let m := malloc X s size
        if m.1 = false then
          some ({ revt with data := { revt.data with
                                      pik := { revt.data.pik with
                                               status := Pin_status.PIN_STATUS_NONE } } },
                L.ed, ERR_REPORT ERR900 m.2)
        else
          some ({ revt with
                  data := { revt.data with
                            pik := { revt.data.pik with
                                     pick_path :=
                                       { revt.data.pik.pick_path with
                                         path_list :=
                                           memcpy_bytes L.path
                                             revt.data.pik.pick_path.path_list size
                                             X.sizeof_Ppick_path_elem } } } },
                L.ed, m.2)
      else some (revt, L.ed, s)
    else some (revt, L.ed, s)
  | Pin_class.PIN_STRING =>
    if revt.data.str.length > 0 then
      let m := malloc X s (to_unsigned revt.data.str.length)
      if m.1 = false then none
      else
        match strcpy L.str revt.data.str.string m.2.scratch.size with
        | none => none
        | some str => some (revt, { L.ed with str := { L.ed.str with string := str } }, m.2)
    else some (revt, L.ed, s)
  | Pin_class.PIN_VAL => some (revt, { L.ed with val := revt.data.val }, s)
  | Pin_class.PIN_CHOICE =>
    some (revt, { L.ed with chc := { choice := revt.data.chc.choice,
                                     status := revt.data.chc.status } }, s)
  | _ => some (revt, L.ed, s)

/-- The statements of `pawait_event` from `PSL_CLEAR_CUR_EVENT` on: the
current event is cleared, takes the identity `revt.id`, and takes the data of
`revt` for stroke and pick, of the local `ed` for string, valuator and
choice, and no data for locator and `PIN_NONE`. -/
def await_store (X : Ext σ) (revt : Phg_ret_inp_event) (ed : Phg_inp_event_data)
    (cur : Psl_cur_event) : Psl_cur_event :=
  let c1 : Psl_cur_event := { X.PSL_CLEAR_CUR_EVENT cur with id := revt.id }
  match revt.id.in_class with
  | Pin_class.PIN_STROKE | Pin_class.PIN_PICK => { c1 with data := revt.data }
  | Pin_class.PIN_STRING | Pin_class.PIN_VAL | Pin_class.PIN_CHOICE => { c1 with data := ed }
  | Pin_class.PIN_NONE | Pin_class.PIN_LOC => c1

/-- The part of `pawait_event` after the loop, for the return record `ret`
the loop ended with. -/
def await_finish (X : Ext σ) (L : Await_locals) (ret : Phg_ret) (s : Phg σ)
    (out : Await_out) : Option (Await_out × Phg σ) :=
  if ret.err = 0 then
    match await_copy X L ret.inp_event s with
    | none => none
    | some (revt, ed, s1) =>
      some ({ ws_id := ret.inp_event.id.ws, dev_class := ret.inp_event.id.in_class,
              in_num := ret.inp_event.id.dev },
            { s1 with psl := { s1.psl with
                               cur_event := await_store X revt ed s1.psl.cur_event } })
  else
    some (out, ERR_FLUSH s)

/-- Embedding of `pawait_event`; `out` is the content of the caller storage
before the call. `none` when the call does not return. -/
def pawait_event (X : Ext σ) (fuel : Nat) (s : Phg σ) (timeout : Pfloat) (out : Await_out)
    (L : Await_locals) : Option (Await_out × Phg σ) :=
  let limit := timeout_limit timeout
  let s0 := ERR_SET_CUR_FUNC Pfn.Pfn_await_event s
  if s0.psl.ws_state ≠ Pws_st.PWS_ST_WSOP then
    some (out, ERR_REPORT ERR3 s0)
  else
    match await_loop X limit L.stk_live fuel 0 L.ret s0 with
    | none => none
    | some (ret, s1) => await_finish X L ret s1 out

/-- Result of one round of the `do ... while` loop of `pawait_event`: the
time the round adds to `time`, the return record after the poll and the
state after the second clock reading. -/
structure Await_round (σ : Type) where
  elapsed : Int
  ret : Phg_ret
  st : Phg σ

/-- The body of the `do ... while` loop of `pawait_event` up to the test of
the limit, started in the state `s` with the return record `ret`; `none`
when the poll does not return. -/
def await_round (X : Ext σ) (s : Phg σ) (ret : Phg_ret) (live : Bool) :
    Option (Await_round σ) :=
  let t1 := phg_mtime X s
  let d := inp_dispatch_next X Pfn.Pfn_await_event t1.2
  let s1 := if d.1 = false then emit (Effect.msleep 1) d.2 else d.2
  match inp_event_poll X s1 ret live with
  | none => none
  | some p =>
    let t2 := phg_mtime X p.2
    some { elapsed := t2.1 - t1.1, ret := p.1, st := t2.2 }

/-! ## Get engine, other classes -/

/-- Embedding of `pget_loc`. -/
def pget_loc (s : Phg σ) (out : Sample_loc_out) : Sample_loc_out × Phg σ :=
  let c := check_event_class s Pin_class.PIN_LOC Pfn.Pfn_get_loc
  if c.1 then
    ({ view_ind := c.2.psl.cur_event.data.loc.view_ind,
       loc_pos := { x := c.2.psl.cur_event.data.loc.position.x,
                    y := c.2.psl.cur_event.data.loc.position.y } }, c.2)
  else (out, c.2)

/-- Embedding of `pget_loc3`. -/
def pget_loc3 (s : Phg σ) (out : Sample_loc3_out) : Sample_loc3_out × Phg σ :=
  let c := check_event_class s Pin_class.PIN_LOC Pfn.Pfn_get_loc3
  if c.1 then
    ({ view_ind := c.2.psl.cur_event.data.loc.view_ind,
       loc_pos := { x := c.2.psl.cur_event.data.loc.position.x,
                    y := c.2.psl.cur_event.data.loc.position.y,
                    z := c.2.psl.cur_event.data.loc.position.z } }, c.2)
  else (out, c.2)

/-- Embedding of `pget_stroke`. -/
def pget_stroke (s : Phg σ) (out : Sample_stroke_out) : Sample_stroke_out × Phg σ :=
  let c := check_event_class s Pin_class.PIN_STROKE Pfn.Pfn_get_stroke
  if c.1 then
    let stk := c.2.psl.cur_event.data.stk
    ({ view_ind := stk.view_ind,
       stroke := { num_points := stk.num_points,
                   points := copy_points_xy out.stroke.points stk.points stk.num_points } },
     c.2)
  else (out, c.2)

/-- Embedding of `pget_stroke3`. -/
def pget_stroke3 (s : Phg σ) (out : Sample_stroke3_out) : Sample_stroke3_out × Phg σ :=
  let c := check_event_class s Pin_class.PIN_STROKE Pfn.Pfn_get_stroke3
  if c.1 then
    let stk := c.2.psl.cur_event.data.stk
    ({ view_ind := stk.view_ind,
       stroke := { num_points := stk.num_points,
                   points := if stk.num_points > 0 then
                               memcpy_elems out.stroke.points stk.points stk.num_points
                             else out.stroke.points } }, c.2)
  else (out, c.2)

/-- Embedding of `pget_val`. -/
def pget_val (s : Phg σ) (val : Pfloat) : Pfloat × Phg σ :=
  if s.psl.cur_event.id.in_class ≠ Pin_class.PIN_NONE then
    let c := check_event_class s Pin_class.PIN_VAL Pfn.Pfn_get_val
    if c.1 then (c.2.psl.cur_event.data.val, c.2) else (0, c.2)
  else (val, s)

/-- Embedding of `pget_choice`. -/
def pget_choice (s : Phg σ) (out : Req_choice_out) : Req_choice_out × Phg σ :=
  if s.psl.cur_event.id.in_class ≠ Pin_class.PIN_NONE then
    let c := check_event_class s Pin_class.PIN_CHOICE Pfn.Pfn_get_choice
    if c.1 then
      let chc := c.2.psl.cur_event.data.chc
      if chc.status = Pin_status.PIN_STATUS_OK then
        ({ status := chc.status, choice := chc.choice }, c.2)
      else
        ({ out with status := Pin_status.PIN_STATUS_NO_IN }, c.2)
    else (out, c.2)
  else (out, s)

/-! ## Predicates of the statements and a concrete workstation -/

/-- The workstation checks of `input_ws_open` pass for `ws_id`, whose
description table is `dt`: the state is "workstation open", `ws_id` resolves
to workstation info, and the category is IN or OUTIN. -/
def ws_ok (s : Phg σ) (ws_id : Pint) (dt : Wst_phigs_dt) : Prop :=
  s.psl.ws_state = Pws_st.PWS_ST_WSOP ∧ s.psl.ws_info ws_id = some dt ∧
  (dt.ws_category = Pws_cat.PCAT_IN ∨ dt.ws_category = Pws_cat.PCAT_OUTIN)

/-- The error the workstation check is to report when it fails, by
precedence: ERR3 when the state is not "workstation open", else ERR54 when
`ws_id` does not resolve to workstation info, else ERR61 (wrong category). -/
def ws_error (s : Phg σ) (ws_id : Pint) : Pint :=
  if s.psl.ws_state ≠ Pws_st.PWS_ST_WSOP then ERR3
  else if (s.psl.ws_info ws_id).isNone then ERR54
  else ERR61

/-- The state after a failed workstation check of the function `fn_id`: the
log gains `ERR_SET_CUR_FUNC` and the report of `ws_error`, nothing else
changes. -/
def ws_failed (s : Phg σ) (ws_id : Pint) (fn_id : Pfn) : Phg σ :=
  { s with log := s.log ++ [Effect.set_cur_func fn_id, Effect.report (ws_error s ws_id)] }

/-- A stroke descriptor: PETs 1 and 2, buffers of up to 64 points. -/
def ex_defstroke : Wst_defstroke :=
  { num_pets := 2, pets := fun i => (i : Int) + 1, max_bufsize := 64,
    record := { buffer_size := 32, init_pos := 1, image := [] } }

/-- Input description with one device of each class, each with PETs 1 and 2. -/
def ex_idt : Wst_input_wsdt :=
  { num_devs := { loc := 1, stroke := 1, pick := 1, val := 1, choice := 1, string := 1 },
    locators := fun _ => { num_pets := 2, pets := fun i => (i : Int) + 1,
                           record := { image := [7] } },
    strokes := fun _ => ex_defstroke,
    picks := fun _ => { num_pets := 2, pets := fun i => (i : Int) + 1,
                        record := { image := [7] } },
    valuators := fun _ => { num_pets := 2, pets := fun i => (i : Int) + 1,
                            record := { label := none, format := none, low_label := none,
                                        high_label := none, image := [7] } },
    choices := fun _ => { num_pets := 2, pets := fun i => (i : Int) + 1,
                          record := { pet_r1_unused := 0, pet_r3_num_strings := 0,
                                      pet_r3_strings := [], pet_r4_num_strings := 0,
                                      pet_r4_strings := [], image := [7] } },
    strings := fun _ => { num_pets := 2, pets := fun i => (i : Int) + 1,
                          record := { image := [7] } } }

/-- Description table of an OUTIN workstation. -/
def ex_dt : Wst_phigs_dt :=
  { ws_category := Pws_cat.PCAT_OUTIN, in_dt := ex_idt }

/-- Description table of an output-only workstation. -/
def ex_dt_out : Wst_phigs_dt :=
  { ws_category := Pws_cat.PCAT_OUT, in_dt := ex_idt }

/-- Event data with every member zero. -/
def ex_event_data : Phg_inp_event_data :=
  { loc := Ws_inp_req.zero.loc, stk := Ws_inp_req.zero.stroke, pik := Ws_inp_req.zero.pick,
    val := 0, chc := Ws_inp_req.zero.choice, str := Ws_inp_req.zero.string }

/-- State list with workstation 1 open (OUTIN), workstation 2 open (OUT only)
and no current event. -/
def ex_psl : Psl :=
  { ws_state := Pws_st.PWS_ST_WSOP,
    ws_info := fun w => if w = 1 then some ex_dt else if w = 2 then some ex_dt_out else none,
    cur_event := { id := { ws := 0, dev := 0, in_class := Pin_class.PIN_NONE },
                   data := ex_event_data } }

/-- Library state with an empty effect log. -/
def ex_phg : Phg Unit :=
  { psl := ex_psl,
    ds := { input_request := fun _ => Ws_inp_req.zero,
            input_q := { events := [], overflow := false, cur_simul_id := 0 },
            priv := () },
    log := [],
    scratch := { size := 0, points := Ws_inp_req.zero.stroke.points,
                 path := Ws_inp_req.zero.pick.pick_path.path_list,
                 chars := Ws_inp_req.zero.string.string },
    n_alloc := 0,
    n_mtime := 0 }

/-- The state `ex_phg` with every workstation closed. -/
def ex_phg_closed : Phg Unit :=
  { ex_phg with psl := { ex_psl with ws_state := Pws_st.PWS_ST_WSCL } }

/-- A zero return record. -/
def ex_ret : Phg_ret :=
  { err := 0,
    inp_event := { id := { ws := 0, dev := 0, in_class := Pin_class.PIN_NONE },
                   data := ex_event_data },
    inp_request := { status := Pin_status.PIN_STATUS_NONE,
                     event := { id := { ws := 0, dev := 0, in_class := Pin_class.PIN_NONE },
                                data := ex_event_data } } }

/-- Collaborators that accept every echo volume (`ok = true`) or none, never
have pending input and leave the driver state alone; 4 workstation slots,
elements of 12 bytes, an allocator that always succeeds, a clock that
advances 1 ms per reading, and a `PSL_CLEAR_CUR_EVENT` that sets the class
of the current event to `PIN_NONE`. -/
def ex_ext (ok : Bool) : Ext Unit :=
  { phg_echo_limits_valid := fun _ _ _ _ => ok,
    init_device := fun _ _ d => d,
    set_device_mode := fun _ _ d => d,
    sample_device := fun _ _ _ d => (ex_ret, d),
    request_device := fun _ _ _ d => (ex_ret, d),
    dispatch_next := fun _ d => (false, d),
    idev_class_code := fun _ => 0,
    MAX_NO_OPEN_WS := 4,
    sizeof_Ppoint3 := 12,
    sizeof_Ppick_path_elem := 12,
    alloc_ok := fun _ => true,
    mtime := fun k => (k : Int),
    PSL_CLEAR_CUR_EVENT := fun e =>
      { e with id := { e.id with in_class := Pin_class.PIN_NONE } } }

/-- The unit echo volume. -/
def ex_vol : Plimit3 :=
  { x_min := 0, x_max := 1, y_min := 0, y_max := 1, z_min := 0, z_max := 1 }

/-- A stroke descriptor whose default data record has `init_pos = 0`, outside
`[1, max_bufsize]`. -/
def ex_defstroke_bad : Wst_defstroke :=
  { num_pets := 2, pets := fun i => (i : Int) + 1, max_bufsize := 64,
    record := { buffer_size := 32, init_pos := 0, image := [] } }

/-- The table `ex_dt` with the stroke descriptor `ex_defstroke_bad`. -/
def ex_dt_bad : Wst_phigs_dt :=
  { ws_category := Pws_cat.PCAT_OUTIN,
    in_dt := { ex_idt with strokes := fun _ => ex_defstroke_bad } }

/-- The state `ex_phg` with workstation 1 described by `ex_dt_bad`. -/
def ex_phg_bad : Phg Unit :=
  { ex_phg with psl := { ex_psl with ws_info := fun w => if w = 1 then some ex_dt_bad else none } }

/-- An empty initial stroke. -/
def ex_stroke0 : Ppoint_list3 :=
  { num_points := 0, points := fun _ => { x := 0, y := 0, z := 0 } }

/-- The choice data record of an initialisation record, if it is one of the
choice class. -/
def args_choice_record (a : Phg_args_inp_init_dev) : Option Pchoice_data3 :=
  match a.data with
  | Phg_args_init_data.cho d => some d.record
  | _ => none

/-- The valuator data record of an initialisation record, if it is one of the
valuator class. -/
def args_val_record (a : Phg_args_inp_init_dev) : Option Pval_data :=
  match a.data with
  | Phg_args_init_data.val d => some d.record
  | _ => none

/-- A caller's choice data record, different from the default record of
`ex_idt`. -/
def ex_choice_data : Pchoice_data3 :=
  { pet_r1_unused := 0, pet_r3_num_strings := 0, pet_r3_strings := [],
    pet_r4_num_strings := 0, pet_r4_strings := [], image := [5] }

/-- A caller's valuator data record, different from the default record of
`ex_idt`. -/
def ex_val_data : Pval_data :=
  { label := none, format := none, low_label := none, high_label := none, image := [5] }

/-- A character buffer of NULs. -/
def ex_buf : CArray Char :=
  fun _ => NUL

/-- The stroke data record in effect for a requested PET: the caller's when
the PET is in the descriptor's list, the descriptor's default otherwise. -/
def stroke_record_in_effect (ddt : Wst_defstroke) (pet : Pint) (data : Pstroke_data3) :
    Pstroke_data3 :=
  if phg_int_in_list pet ddt.num_pets ddt.pets then data else ddt.record

/-- What the pick accessors leave in the caller storage for a pick value
`pik` with status OK and a requested depth `depth`: the status OK, the depth
of the value, its first `min depth pik.pick_path.depth` path elements, and
the caller's own elements from there on. -/
def pick_copied (depth : Pint) (pik : Ppick) (before after : Pick_out) : Prop :=
  after.in_status = Pin_status.PIN_STATUS_OK ∧
  after.pick.depth = pik.pick_path.depth ∧
  (∀ i : Nat, (i : Int) < min depth pik.pick_path.depth →
    after.pick.path_list i = pik.pick_path.path_list i) ∧
  (∀ i : Nat, min depth pik.pick_path.depth ≤ (i : Int) →
    after.pick.path_list i = before.pick.path_list i)

/-- A pick value with status OK and a path of depth 5 whose element `i` has
the structure identifier `i + 1`. -/
def ex_pick5 : Ppick :=
  { status := Pin_status.PIN_STATUS_OK,
    pick_path := { depth := 5,
                   path_list := fun i => { struct_id := (i : Int) + 1, pick_id := 0,
                                           elem_pos := 0 } } }

/-- Collaborators as `ex_ext true` whose `sample_device` answers with the
pick value `ex_pick5`. -/
def ex_ext_pick : Ext Unit :=
  { ex_ext true with
    sample_device := fun _ _ _ d =>
      ({ ex_ret with
         inp_event := { ex_ret.inp_event with
                        data := { ex_event_data with pik := ex_pick5 } } }, d) }

/-- The state `ex_phg` with a current event of class pick carrying
`ex_pick5`. -/
def ex_phg_pick : Phg Unit :=
  { ex_phg with
    psl := { ex_psl with
             cur_event := { id := { ws := 1, dev := 1, in_class := Pin_class.PIN_PICK },
                            data := { ex_event_data with pik := ex_pick5 } } } }

/-- Caller storage for a pick path, all zero. -/
def ex_pick_out : Pick_out :=
  { in_status := Pin_status.PIN_STATUS_NONE, pick := Ws_inp_req.zero.pick.pick_path }

/-- The return record with which `inp_event_poll` enters its `switch` for the
queued event `e`: `err = 0` and the identity of `e`. -/
def poll_enter_ret (ret : Phg_ret) (e : Sin_input_event) : Phg_ret :=
  { ret with err := 0,
             inp_event := { ret.inp_event with
                            id := { ws := e.wsid, dev := e.dev_num, in_class := e.dev_class } } }

/-- The state in which `inp_event_poll` enters its `switch` for the queued
event `e`: ERR256 handed to `ERR_BUF` when the latch is set, and the
simultaneous-event id of `e` stored in the queue. -/
def poll_enter_state (s : Phg σ) (e : Sin_input_event) : Phg σ :=
  set_input_q (if SIN_Q_OVERFLOWED s.ds.input_q then ERR_BUF ERR256 s else s)
    (SIN_Q_SET_CUR_SIMUL_ID s.ds.input_q e)

/-- Number of times ERR256 (queue overflow) was handed to `ERR_BUF`. -/
def overflow_reports (l : List Effect) : Nat :=
  (buffered l).count ERR256

/-- A queued locator event of workstation 1, device 1, with view index 3 and
position (1, 2, 3). -/
def ex_loc_event : Sin_input_event :=
  { wsid := 1, dev_class := Pin_class.PIN_LOC, dev_num := 1, simul_id := 0,
    data := { locator := { view_ind := 3, position := { x := 1, y := 2, z := 3 } },
              stroke := Ws_inp_req.zero.stroke, pick := Ws_inp_req.zero.pick, valuator := 0,
              choice := Ws_inp_req.zero.choice, string := Ws_inp_req.zero.string } }

/-- The state `ex_phg` with the events `evs` in the input queue and the
overflow latch `latch`. -/
def ex_phg_q (evs : List Sin_input_event) (latch : Bool) : Phg Unit :=
  { ex_phg with ds := { ex_phg.ds with
                        input_q := { events := evs, overflow := latch, cur_simul_id := 0 } } }

/-- The points whose three coordinates are `i + 1` at index `i`. -/
def ex_points : CArray Ppoint3 :=
  fun i => { x := (i : Rat) + 1, y := (i : Rat) + 1, z := (i : Rat) + 1 }

/-- A queued stroke event of workstation 1, device 1, with `n` points taken
from `ex_points`. -/
def ex_stroke_event (n : Pint) : Sin_input_event :=
  { ex_loc_event with
    dev_class := Pin_class.PIN_STROKE,
    data := { ex_loc_event.data with
              stroke := { view_ind := 3, num_points := n, points := ex_points } } }

/-- The characters `a`, `b`, then NUL from index 2 on. -/
def ex_chars : CArray Char :=
  fun i => if i = 0 then 'a' else if i = 1 then 'b' else NUL

/-- A queued string event of workstation 1, device 1, with the two
characters of `ex_chars`. -/
def ex_string_event : Sin_input_event :=
  { ex_loc_event with
    dev_class := Pin_class.PIN_STRING,
    data := { ex_loc_event.data with string := { length := 2, string := ex_chars } } }

/-- Collaborators as `ex_ext true` whose allocator grants the requests with
the numbers in `grants` and refuses all others. -/
def ex_ext_alloc (grants : List Nat) : Ext Unit :=
  { ex_ext true with alloc_ok := fun k => grants.contains k }

/-- A return record whose stroke data announce 7 points and whose string
data announce the length 7, as left over from an earlier use. -/
def ex_ret7 : Phg_ret :=
  set_ed ex_ret { ex_event_data with
                  stk := { ex_event_data.stk with num_points := 7 },
                  str := { ex_event_data.str with length := 7 } }

/-- The state `ex_phg_pick` with every workstation closed. -/
def ex_phg_pick_closed : Phg Unit :=
  { ex_phg_pick with psl := { ex_phg_pick.psl with ws_state := Pws_st.PWS_ST_WSCL } }

/-- Caller storage for a locator position, all zero. -/
def ex_loc3_out : Sample_loc3_out :=
  { view_ind := 0, loc_pos := { x := 0, y := 0, z := 0 } }

/-- The state after a failed state check of the function `fn_id`: the log
gains `ERR_SET_CUR_FUNC` and the report of `err`. -/
def check_failed (s : Phg σ) (fn_id : Pfn) (err : Pint) : Phg σ :=
  ERR_REPORT err (ERR_SET_CUR_FUNC fn_id s)

/-- Caller storage of `pawait_event` holding 9, `PIN_LOC`, 9. -/
def ex_await_out : Await_out :=
  { ws_id := 9, dev_class := Pin_class.PIN_LOC, in_num := 9 }

/-- Initial content of the locals and of fresh blocks in a call of
`pawait_event`: the record `ex_ret7` with a stroke pointer that is NULL, zero
event data, and blocks holding `ex_points`, the path of `ex_pick5` and
`ex_chars`. -/
def ex_locals : Await_locals :=
  { ret := ex_ret7, stk_live := true, ed := ex_event_data, pts := ex_points,
    path := ex_pick5.pick_path.path_list, str := ex_chars }

/-- Caller storage for a locator position in two dimensions, all zero. -/
def ex_loc_out : Sample_loc_out :=
  { view_ind := 0, loc_pos := { x := 0, y := 0 } }

/-- Caller storage for a stroke in two dimensions, empty. -/
def ex_stroke_out : Sample_stroke_out :=
  { view_ind := 0, stroke := { num_points := 0, points := fun _ => { x := 0, y := 0 } } }

/-- Caller storage for a stroke, empty. -/
def ex_stroke3_out : Sample_stroke3_out :=
  { view_ind := 0, stroke := ex_stroke0 }

/-- Caller storage for a choice: status `PIN_STATUS_NONE`, choice 4. -/
def ex_choice_out : Req_choice_out :=
  { status := Pin_status.PIN_STATUS_NONE, choice := 4 }

/-- Time the loop of `pawait_event` accumulates in `r` rounds when its first
clock reading is reading number `n`: each round makes two readings and adds
their difference. -/
def elapsed (X : Ext σ) : Nat → Nat → Int
  | _, 0 => 0
  | n, r + 1 => (X.mtime (n + 1) - X.mtime n) + elapsed X (n + 2) r

/-- The return record and the state after the first round of the loop of
`pawait_event` called in the state `s` with the local `ret` whose stroke
pointer is NULL or live; `(ret, s)` when that round does not return. -/
def ex_polled (X : Ext Unit) (s : Phg Unit) (ret : Phg_ret) : Phg_ret × Phg Unit :=
  ((await_round X (ERR_SET_CUR_FUNC Pfn.Pfn_await_event s) ret true).map
    (fun r => (r.ret, r.st))).getD (ret, s)

/-- A queued valuator event of workstation 1, device 1, with the value 7. -/
def ex_val_event : Sin_input_event :=
  { ex_loc_event with
    dev_class := Pin_class.PIN_VAL,
    data := { ex_loc_event.data with valuator := 7 } }

/-! ## Element type names (`css_pr.c`) -/

/-- The enumeration `Pelem_type`, which is declared outside the sources: one
constructor per constant that `css_print_eltype` has a `case` for, and
`other value` for any other value of the type. -/
inductive Pelem_type where
  | PELEM_NIL
  | PELEM_POLYLINE3
  | PELEM_POLYLINE
  | PELEM_POLYMARKER3
  | PELEM_POLYMARKER
  | PELEM_TEXT
  | PELEM_TEXT3
  | PELEM_FILL_AREA3
  | PELEM_FILL_AREA_SET
  | PELEM_FILL_AREA_SET3
  | PELEM_FILL_AREA_SET_DATA
  | PELEM_FILL_AREA_SET3_DATA
  | PELEM_SET_OF_FILL_AREA_SET3_DATA
  | PELEM_FILL_AREA
  | PELEM_LINE_IND
  | PELEM_LINETYPE
  | PELEM_LINEWIDTH
  | PELEM_LINE_COLR_IND
  | PELEM_MARKER_IND
  | PELEM_MARKER_TYPE
  | PELEM_MARKER_SIZE
  | PELEM_MARKER_COLR_IND
  | PELEM_TEXT_IND
  | PELEM_TEXT_FONT
  | PELEM_TEXT_PREC
  | PELEM_TEXT_PATH
  | PELEM_TEXT_ALIGN
  | PELEM_CHAR_HT
  | PELEM_CHAR_EXPAN
  | PELEM_CHAR_SPACE
  | PELEM_CHAR_UP_VEC
  | PELEM_TEXT_COLR_IND
  | PELEM_INT_IND
  | PELEM_INT_STYLE
  | PELEM_BACK_INT_STYLE
  | PELEM_INT_STYLE_IND
  | PELEM_BACK_INT_STYLE_IND
  | PELEM_INT_COLR_IND
  | PELEM_EDGE_IND
  | PELEM_EDGE_FLAG
  | PELEM_EDGETYPE
  | PELEM_EDGEWIDTH
  | PELEM_EDGE_COLR_IND
  | PELEM_ADD_NAMES_SET
  | PELEM_REMOVE_NAMES_SET
  | PELEM_INDIV_ASF
  | PELEM_LOCAL_MODEL_TRAN3
  | PELEM_GLOBAL_MODEL_TRAN3
  | PELEM_VIEW_IND
  | PELEM_EXEC_STRUCT
  | PELEM_LABEL
  | PELEM_PICK_ID
  | PELEM_HLHSR_ID
  | PELEM_INT_COLR
  | PELEM_BACK_INT_COLR
  | PELEM_LINE_COLR
  | PELEM_MARKER_COLR
  | PELEM_EDGE_COLR
  | PELEM_TEXT_COLR
  | PELEM_LIGHT_SRC_STATE
  | PELEM_INT_SHAD_METH
  | PELEM_BACK_INT_SHAD_METH
  | PELEM_INT_REFL_EQN
  | PELEM_BACK_INT_REFL_EQN
  | PELEM_REFL_PROPS
  | PELEM_BACK_REFL_PROPS
  | PELEM_FACE_DISTING_MODE
  | PELEM_FACE_CULL_MODE
  | PELEM_ANNO_TEXT_REL3
  | PELEM_ANNO_TEXT_REL
  | PELEM_ANNO_ALIGN
  | PELEM_ANNO_CHAR_HT
  | PELEM_MODEL_CLIP_VOL3
  | PELEM_MODEL_CLIP_IND
  | PELEM_GSE
  | other (value : Int)

/-- The `switch (eltype)` of `css_print_eltype`: the string assigned to
`name` (`none` when `name` stays NULL) and the text the branch itself writes
to `stderr`. -/
def eltype_switch : Pelem_type → Option String × String
  | .PELEM_NIL => (some "PELEM_NIL", "")
  | .PELEM_POLYLINE3 => (some "PELEM_POLYLINE3", "")
  | .PELEM_POLYLINE => (some "PELEM_POLYLINE", "")
  | .PELEM_POLYMARKER3 => (some "PELEM_POLYMARKER3", "")
  | .PELEM_POLYMARKER => (some "PELEM_POLYMARKER", "")
  | .PELEM_TEXT => (some "PELEM_TEXT", "")
  | .PELEM_TEXT3 => (some "PELEM_TEXT3", "")
  | .PELEM_FILL_AREA3 => (some "PELEM_FILL_AREA3", "")
  | .PELEM_FILL_AREA_SET => (some "PELEM_FILL_AREA_SET", "")
  | .PELEM_FILL_AREA_SET3 => (some "PELEM_FILL_AREA_SET3", "")
  | .PELEM_FILL_AREA_SET_DATA => (some "PELEM_FILL_AREA_SET_DATA", "")
  | .PELEM_FILL_AREA_SET3_DATA => (some "PELEM_FILL_AREA_SET3_DATA", "")
  | .PELEM_SET_OF_FILL_AREA_SET3_DATA => (some "PELEM_FILL_AREA_SET3_DATA", "")
  | .PELEM_FILL_AREA => (some "PELEM_FILL_AREA", "")
  | .PELEM_LINE_IND => (some "PELEM_LINE_IND", "")
  | .PELEM_LINETYPE => (some "PELEM_LINETYPE", "")
  | .PELEM_LINEWIDTH => (some "PELEM_LINEWIDTH", "")
  | .PELEM_LINE_COLR_IND => (some "PELEM_LINE_COLR_IND", "")
  | .PELEM_MARKER_IND => (some "PELEM_MARKER_IND", "")
  | .PELEM_MARKER_TYPE => (some "PELEM_MARKER_TYPE", "")
  | .PELEM_MARKER_SIZE => (some "PELEM_MARKER_SIZE", "")
  | .PELEM_MARKER_COLR_IND => (some "PELEM_MARKER_COLR_IND", "")
  | .PELEM_TEXT_IND => (some "PELEM_TEXT_IND", "")
  | .PELEM_TEXT_FONT => (some "PELEM_TEXT_FONT", "")
  | .PELEM_TEXT_PREC => (some "PELEM_TEXT_PREC", "")
  | .PELEM_TEXT_PATH => (some "PELEM_TEXT_PATH", "")
  | .PELEM_TEXT_ALIGN => (some "PELEM_TEXT_ALIGN", "")
  | .PELEM_CHAR_HT => (some "PELEM_CHAR_HT", "")
  | .PELEM_CHAR_EXPAN => (some "PELEM_CHAR_EXPAN", "")
  | .PELEM_CHAR_SPACE => (some "PELEM_CHAR_SPACE", "")
  | .PELEM_CHAR_UP_VEC => (some "PELEM_CHAR_UP_VEC", "")
  | .PELEM_TEXT_COLR_IND => (some "PELEM_TEXT_COLR_IND", "")
  | .PELEM_INT_IND => (some "PELEM_INT_IND", "")
  | .PELEM_INT_STYLE => (some "PELEM_INT_STYLE", "")
  | .PELEM_BACK_INT_STYLE => (some "PELEM_BACK_INT_STYLE", "")
  | .PELEM_INT_STYLE_IND => (some "PELEM_INT_STYLE_IND", "")
  | .PELEM_BACK_INT_STYLE_IND => (some "PELEM_BACK_INT_STYLE_IND", "")
  | .PELEM_INT_COLR_IND => (some "PELEM_INT_COLR_IND", "")
  | .PELEM_EDGE_IND => (some "PELEM_EDGE_IND", "")
  | .PELEM_EDGE_FLAG => (some "PELEM_EDGE_FLAG", "")
  | .PELEM_EDGETYPE => (some "PELEM_EDGETYPE", "")
  | .PELEM_EDGEWIDTH => (some "PELEM_EDGEWIDTH", "")
  | .PELEM_EDGE_COLR_IND => (some "PELEM_EDGE_COLR_IND", "")
  | .PELEM_ADD_NAMES_SET => (some "PELEM_ADD_NAMES_SET", "")
  | .PELEM_REMOVE_NAMES_SET => (some "PELEM_REMOVE_NAMES_SET", "")
  | .PELEM_INDIV_ASF => (some "PELEM_INDIV_ASF", "")
  | .PELEM_LOCAL_MODEL_TRAN3 => (some "PELEM_LOCAL_MODEL_TRAN3", "")
  | .PELEM_GLOBAL_MODEL_TRAN3 => (some "PELEM_GLOBAL_MODEL_TRAN3", "")
  | .PELEM_VIEW_IND => (some "PELEM_VIEW_IND", "")
  | .PELEM_EXEC_STRUCT => (some "PELEM_EXEC_STRUCT", "")
  | .PELEM_LABEL => (some "PELEM_LABEL", "")
  | .PELEM_PICK_ID => (some "PELEM_PICK_ID", "")
  | .PELEM_HLHSR_ID => (some "PELEM_HLHSR_ID", "")
  | .PELEM_INT_COLR => (some "PELEM_INT_COLR", "")
  | .PELEM_BACK_INT_COLR => (some "PELEM_BACK_INT_COLR", "")
  | .PELEM_LINE_COLR => (some "PELEM_LINE_COLR", "")
  | .PELEM_MARKER_COLR => (some "PELEM_MARKER_COLR", "")
  | .PELEM_EDGE_COLR => (some "PELEM_EDGE_COLR", "")
  | .PELEM_TEXT_COLR => (some "PELEM_TEXT_COLR", "")
  | .PELEM_LIGHT_SRC_STATE => (some "PELEM_LIGHT_SRC_STATE", "")
  | .PELEM_INT_SHAD_METH => (some "PELEM_INT_SHAD_METH", "")
  | .PELEM_BACK_INT_SHAD_METH => (some "PELEM_BACK_INT_SHAD_METH", "")
  | .PELEM_INT_REFL_EQN => (some "PELEM_INT_REFL_EQN", "")
  | .PELEM_BACK_INT_REFL_EQN => (some "PELEM_BACK_INT_REFL_EQN", "")
  | .PELEM_REFL_PROPS => (some "PELEM_REFL_PROP", "")
  | .PELEM_BACK_REFL_PROPS => (some "PELEM_BACK_REFL_PROP", "")
  | .PELEM_FACE_DISTING_MODE => (some "PELEM_FACE_DISTING_MODE", "")
  | .PELEM_FACE_CULL_MODE => (some "PELEM_FACE_CULL_MODE", "")
  | .PELEM_ANNO_TEXT_REL3 => (some "PELEM_ANNO_TEXT_REL3", "")
  | .PELEM_ANNO_TEXT_REL => (some "PELEM_ANNO_TEXT_REL", "")
  | .PELEM_ANNO_ALIGN => (some "PELEM_ANNO_ALIGN", "")
  | .PELEM_ANNO_CHAR_HT => (some "PELEM_ANNO_CHAR_HT", "")
  | .PELEM_MODEL_CLIP_VOL3 => (some "PELEM_MODEL_CLIP_VOL3", "")
  | .PELEM_MODEL_CLIP_IND => (some "PELEM_MODEL_CLIP_IND", "")
  | .PELEM_GSE => (some "PELEM_GSE", "")
  | .other value => (none, "UNKNOWN TYPE: " ++ toString value ++ "\n")

/-- Embedding of `css_print_eltype`: the text written to `stderr`. -/
def css_print_eltype (eltype : Pelem_type) : String :=
  let r := eltype_switch eltype
  match r.1 with
  | some name => r.2 ++ name ++ "\n"
  | none => r.2

/-- The identifier of the enumeration constant of an element type, as the
source spells it in the `case` label; `none` for a value without a `case`. -/
def enum_constant : Pelem_type → Option String
  | .PELEM_NIL => some "PELEM_NIL"
  | .PELEM_POLYLINE3 => some "PELEM_POLYLINE3"
  | .PELEM_POLYLINE => some "PELEM_POLYLINE"
  | .PELEM_POLYMARKER3 => some "PELEM_POLYMARKER3"
  | .PELEM_POLYMARKER => some "PELEM_POLYMARKER"
  | .PELEM_TEXT => some "PELEM_TEXT"
  | .PELEM_TEXT3 => some "PELEM_TEXT3"
  | .PELEM_FILL_AREA3 => some "PELEM_FILL_AREA3"
  | .PELEM_FILL_AREA_SET => some "PELEM_FILL_AREA_SET"
  | .PELEM_FILL_AREA_SET3 => some "PELEM_FILL_AREA_SET3"
  | .PELEM_FILL_AREA_SET_DATA => some "PELEM_FILL_AREA_SET_DATA"
  | .PELEM_FILL_AREA_SET3_DATA => some "PELEM_FILL_AREA_SET3_DATA"
  | .PELEM_SET_OF_FILL_AREA_SET3_DATA => some "PELEM_SET_OF_FILL_AREA_SET3_DATA"
  | .PELEM_FILL_AREA => some "PELEM_FILL_AREA"
  | .PELEM_LINE_IND => some "PELEM_LINE_IND"
  | .PELEM_LINETYPE => some "PELEM_LINETYPE"
  | .PELEM_LINEWIDTH => some "PELEM_LINEWIDTH"
  | .PELEM_LINE_COLR_IND => some "PELEM_LINE_COLR_IND"
  | .PELEM_MARKER_IND => some "PELEM_MARKER_IND"
  | .PELEM_MARKER_TYPE => some "PELEM_MARKER_TYPE"
  | .PELEM_MARKER_SIZE => some "PELEM_MARKER_SIZE"
  | .PELEM_MARKER_COLR_IND => some "PELEM_MARKER_COLR_IND"
  | .PELEM_TEXT_IND => some "PELEM_TEXT_IND"
  | .PELEM_TEXT_FONT => some "PELEM_TEXT_FONT"
  | .PELEM_TEXT_PREC => some "PELEM_TEXT_PREC"
  | .PELEM_TEXT_PATH => some "PELEM_TEXT_PATH"
  | .PELEM_TEXT_ALIGN => some "PELEM_TEXT_ALIGN"
  | .PELEM_CHAR_HT => some "PELEM_CHAR_HT"
  | .PELEM_CHAR_EXPAN => some "PELEM_CHAR_EXPAN"
  | .PELEM_CHAR_SPACE => some "PELEM_CHAR_SPACE"
  | .PELEM_CHAR_UP_VEC => some "PELEM_CHAR_UP_VEC"
  | .PELEM_TEXT_COLR_IND => some "PELEM_TEXT_COLR_IND"
  | .PELEM_INT_IND => some "PELEM_INT_IND"
  | .PELEM_INT_STYLE => some "PELEM_INT_STYLE"
  | .PELEM_BACK_INT_STYLE => some "PELEM_BACK_INT_STYLE"
  | .PELEM_INT_STYLE_IND => some "PELEM_INT_STYLE_IND"
  | .PELEM_BACK_INT_STYLE_IND => some "PELEM_BACK_INT_STYLE_IND"
  | .PELEM_INT_COLR_IND => some "PELEM_INT_COLR_IND"
  | .PELEM_EDGE_IND => some "PELEM_EDGE_IND"
  | .PELEM_EDGE_FLAG => some "PELEM_EDGE_FLAG"
  | .PELEM_EDGETYPE => some "PELEM_EDGETYPE"
  | .PELEM_EDGEWIDTH => some "PELEM_EDGEWIDTH"
  | .PELEM_EDGE_COLR_IND => some "PELEM_EDGE_COLR_IND"
  | .PELEM_ADD_NAMES_SET => some "PELEM_ADD_NAMES_SET"
  | .PELEM_REMOVE_NAMES_SET => some "PELEM_REMOVE_NAMES_SET"
  | .PELEM_INDIV_ASF => some "PELEM_INDIV_ASF"
  | .PELEM_LOCAL_MODEL_TRAN3 => some "PELEM_LOCAL_MODEL_TRAN3"
  | .PELEM_GLOBAL_MODEL_TRAN3 => some "PELEM_GLOBAL_MODEL_TRAN3"
  | .PELEM_VIEW_IND => some "PELEM_VIEW_IND"
  | .PELEM_EXEC_STRUCT => some "PELEM_EXEC_STRUCT"
  | .PELEM_LABEL => some "PELEM_LABEL"
  | .PELEM_PICK_ID => some "PELEM_PICK_ID"
  | .PELEM_HLHSR_ID => some "PELEM_HLHSR_ID"
  | .PELEM_INT_COLR => some "PELEM_INT_COLR"
  | .PELEM_BACK_INT_COLR => some "PELEM_BACK_INT_COLR"
  | .PELEM_LINE_COLR => some "PELEM_LINE_COLR"
  | .PELEM_MARKER_COLR => some "PELEM_MARKER_COLR"
  | .PELEM_EDGE_COLR => some "PELEM_EDGE_COLR"
  | .PELEM_TEXT_COLR => some "PELEM_TEXT_COLR"
  | .PELEM_LIGHT_SRC_STATE => some "PELEM_LIGHT_SRC_STATE"
  | .PELEM_INT_SHAD_METH => some "PELEM_INT_SHAD_METH"
  | .PELEM_BACK_INT_SHAD_METH => some "PELEM_BACK_INT_SHAD_METH"
  | .PELEM_INT_REFL_EQN => some "PELEM_INT_REFL_EQN"
  | .PELEM_BACK_INT_REFL_EQN => some "PELEM_BACK_INT_REFL_EQN"
  | .PELEM_REFL_PROPS => some "PELEM_REFL_PROPS"
  | .PELEM_BACK_REFL_PROPS => some "PELEM_BACK_REFL_PROPS"
  | .PELEM_FACE_DISTING_MODE => some "PELEM_FACE_DISTING_MODE"
  | .PELEM_FACE_CULL_MODE => some "PELEM_FACE_CULL_MODE"
  | .PELEM_ANNO_TEXT_REL3 => some "PELEM_ANNO_TEXT_REL3"
  | .PELEM_ANNO_TEXT_REL => some "PELEM_ANNO_TEXT_REL"
  | .PELEM_ANNO_ALIGN => some "PELEM_ANNO_ALIGN"
  | .PELEM_ANNO_CHAR_HT => some "PELEM_ANNO_CHAR_HT"
  | .PELEM_MODEL_CLIP_VOL3 => some "PELEM_MODEL_CLIP_VOL3"
  | .PELEM_MODEL_CLIP_IND => some "PELEM_MODEL_CLIP_IND"
  | .PELEM_GSE => some "PELEM_GSE"
  | .other _ => none

/-! ## Statements on the request, await and initialisation engines -/

/-- What one call adds to the log `before`, giving `after`, respects the
discipline of the initialisation functions: at most one more call of
`init_device`, and if there is one, the reports of the call are none or
ERR253 alone. -/
def init_discipline (before after : List Effect) : Prop :=
  (init_calls after).length ≤ (init_calls before).length + 1 ∧
  ((init_calls after).length = (init_calls before).length + 1 →
    reported after = reported before ∨ reported after = reported before ++ [ERR253])

/-- Calls of the driver hook `request_device` in a log, in order. -/
def request_calls : List Effect → List (Pint × Phg_args_idev_class × Pint)
  | [] => []
  | Effect.request_device ws c n :: l => (ws, c, n) :: request_calls l
  | _ :: l => request_calls l

/-- Records handed to the driver hook `set_device_mode`, in order. -/
def mode_calls : List Effect → List Phg_args_set_mode_data
  | [] => []
  | Effect.set_device_mode _ a :: l => a :: mode_calls l
  | _ :: l => mode_calls l

/-- Collaborators as `ex_ext true` whose class codes are 1 to 12 and whose
hook `request_device` records the requested class and device number in the
request state block with the status `st`, a locator of view index 3 and
position (1, 2, 3), and stores the error `err` in the return record. -/
def ex_ext_req (st : Pin_status) (err : Pint) : Ext Unit :=
  { ex_ext true with
    idev_class_code := fun c => (c.toCtorIdx : Int) + 1,
    request_device := fun ws c n d =>
      ({ ex_ret with err := err },
       { d with
         input_request :=
           Function.update d.input_request ws
             { Ws_inp_req.zero with
               dev_class := (c.toCtorIdx : Int) + 1, dev_num := n, status := st,
               loc := { view_ind := 3, position := { x := 1, y := 2, z := 3 } } } }) }

/-- Description table of an input-only workstation. -/
def ex_dt_in : Wst_phigs_dt :=
  { ws_category := Pws_cat.PCAT_IN, in_dt := ex_idt }

/-- The state `ex_phg` with workstation 1 open as OUTIN and workstation 2
open as IN. -/
def ex_phg2 : Phg Unit :=
  { ex_phg with
    psl := { ex_psl with
             ws_info := fun w => if w = 1 then some ex_dt
                                 else if w = 2 then some ex_dt_in else none } }

/-- Collaborators as `ex_ext true` whose dispatcher answers TRUE for
workstation 1 and FALSE for every other workstation. -/
def ex_ext_disp : Ext Unit :=
  { ex_ext true with dispatch_next := fun ws d => (decide (ws = 1), d) }

/-- Caller storage of `preq_loc3`: status `PIN_STATUS_NONE`, zero data. -/
def ex_req_loc3_out : Req_loc3_out :=
  { in_status := Pin_status.PIN_STATUS_NONE, view_ind := 0,
    loc_pos := { x := 0, y := 0, z := 0 } }

/-- Caller storage of `preq_string`: status `PIN_STATUS_NONE`, NULs. -/
def ex_req_string_out : Req_string_out :=
  { status := Pin_status.PIN_STATUS_NONE, string := ex_buf }

/-- What `preq_loc3` stores in the caller storage `out` from the request
result `req` in its branch `ret.err == 0`. -/
def req_loc3_store (out : Req_loc3_out) (req : Phg_ret_inp_request) : Req_loc3_out :=
  if req.status ≠ Pin_status.PIN_STATUS_NO_IN then
    { in_status := req.status, view_ind := req.event.data.loc.view_ind,
      loc_pos := req.event.data.loc.position }
  else { out with in_status := req.status }

/-- What `preq_stroke3` stores in the caller storage `out` from the request
result `req` in its branch `ret.err == 0`. -/
def req_stroke3_store (out : Req_stroke3_out) (req : Phg_ret_inp_request) : Req_stroke3_out :=
  if req.status ≠ Pin_status.PIN_STATUS_NO_IN then
    { in_status := req.status, view_ind := req.event.data.stk.view_ind,
      stroke := { num_points := req.event.data.stk.num_points,
                  points := memcpy_elems out.stroke.points req.event.data.stk.points
                              req.event.data.stk.num_points } }
  else { out with in_status := req.status }

theorem input_ws_open_ok (s : Phg σ) (ws_id : Pint) (fn_id : Pfn) (dt : Wst_phigs_dt)
    (h : ws_ok s ws_id dt) :
    input_ws_open s ws_id fn_id none =
      { ret := some { idt := dt.in_dt, dt := dt }, err_ind := none,
        st := ERR_SET_CUR_FUNC fn_id s } := by
  obtain ⟨h1, h2, h3⟩ := h
  unfold input_ws_open
  simp only [ERR_SET_CUR_FUNC, emit, if_true, h1, h2, ne_eq, not_true_eq_false, if_false]
  rcases h3 with h3 | h3 <;> simp [h3]

theorem input_ws_open_fail (s : Phg σ) (ws_id : Pint) (fn_id : Pfn)
    (h : ¬ ∃ dt, ws_ok s ws_id dt) :
    input_ws_open s ws_id fn_id none =
      { ret := none, err_ind := none, st := ws_failed s ws_id fn_id } := by
  unfold input_ws_open ws_failed ws_error
  by_cases h1 : s.psl.ws_state = Pws_st.PWS_ST_WSOP
  · cases h2 : s.psl.ws_info ws_id with
    | none => simp [ERR_SET_CUR_FUNC, ERR_REPORT, emit, h1, h2]
    | some dt =>
      have h3 : ¬ (dt.ws_category = Pws_cat.PCAT_OUTIN ∨ dt.ws_category = Pws_cat.PCAT_IN) := by
        intro hc
        exact h ⟨dt, h1, h2, hc.symm⟩
      simp [ERR_SET_CUR_FUNC, ERR_REPORT, emit, h1, h2, h3]
  · simp [ERR_SET_CUR_FUNC, ERR_REPORT, emit, h1]

theorem ex_ws_ok : ws_ok ex_phg 1 ex_dt :=
  ⟨rfl, rfl, Or.inr rfl⟩

theorem ex_closed_fails (ws_id : Pint) : ¬ ∃ dt, ws_ok ex_phg_closed ws_id dt := by
  rintro ⟨dt, h1, _⟩
  exact absurd h1 (by decide)

theorem ex_unknown_fails : ¬ ∃ dt, ws_ok ex_phg 3 dt := by
  rintro ⟨dt, _, h2, _⟩
  exact absurd h2 (by simp [ex_phg, ex_psl])

theorem ex_out_fails : ¬ ∃ dt, ws_ok ex_phg 2 dt := by
  rintro ⟨dt, _, h2, h3⟩
  have h4 : dt = ex_dt_out := by
    have h5 : some ex_dt_out = some dt := h2
    exact (Option.some.inj h5).symm
  subst h4
  rcases h3 with h3 | h3 <;> exact absurd h3 (by decide)

theorem ex_bad_ws_ok : ws_ok ex_phg_bad 1 ex_dt_bad :=
  ⟨rfl, rfl, Or.inr rfl⟩

theorem reported_append (l1 l2 : List Effect) :
    reported (l1 ++ l2) = reported l1 ++ reported l2 := by
  induction l1 with
  | nil => rfl
  | cons e l ih => cases e <;> simp [reported, ih]

theorem init_calls_append (l1 l2 : List Effect) :
    init_calls (l1 ++ l2) = init_calls l1 ++ init_calls l2 := by
  induction l1 with
  | nil => rfl
  | cons e l ih => cases e <;> simp [init_calls, ih]

theorem hook_calls_append (l1 l2 : List Effect) :
    hook_calls (l1 ++ l2) = hook_calls l1 + hook_calls l2 := by
  simp [hook_calls]

theorem PHG_MIN_eq_min (a b : Int) : PHG_MIN a b = min a b := by
  unfold PHG_MIN
  rcases lt_or_le a b with h | h
  · rw [if_pos h, min_eq_left h.le]
  · rw [if_neg (not_lt.mpr h), min_eq_right h]

theorem copy_pick_path_copied (depth : Pint) (pik : Ppick) (out : Pick_out) :
    pick_copied depth pik out
      { in_status := Pin_status.PIN_STATUS_OK, pick := copy_pick_path depth pik out.pick } := by
  refine ⟨rfl, rfl, ?_, ?_⟩
  · intro i hi
    have h0 : (0 : Int) < min depth pik.pick_path.depth :=
      lt_of_le_of_lt (Int.ofNat_nonneg i) hi
    simp only [copy_pick_path, PHG_MIN_eq_min, gt_iff_lt, h0, if_true, memcpy_elems, hi]
  · intro i hi
    simp only [copy_pick_path, PHG_MIN_eq_min]
    split_ifs
    · simp only [memcpy_elems, not_lt.mpr hi, if_false]
    · rfl

theorem out_of_range (d c : Int) (h : d < 1 ∨ d > c) : ¬ (0 < d ∧ d ≤ c) := by
  omega

/-! ## Device number out of range on initialisation -/

/-- C1: on a workstation that passes the open/known/input-category checks,
each of the seven `pinit_*` functions called with a device number below 1 or
above the workstation's device count of its class logs exactly
`ERR_SET_CUR_FUNC` and one report of ERR250 (no other error, no call of
`init_device`) and leaves the driver state as it was. -/
theorem C1_init_invalid_device_number (X : Ext σ) (s : Phg σ) (ws_id dev : Pint)
    (dt : Wst_phigs_dt) (hws : ws_ok s ws_id dt) :
    (∀ view pos pet vol data, (dev < 1 ∨ dev > dt.in_dt.num_devs.loc) →
      pinit_loc3 X s ws_id dev view pos pet vol data =
        { s with log := s.log ++ [Effect.set_cur_func Pfn.Pfn_init_loc3,
                                  Effect.report ERR250] }) ∧
    (∀ view stroke pet vol data, (dev < 1 ∨ dev > dt.in_dt.num_devs.stroke) →
      pinit_stroke3 X s ws_id dev view stroke pet vol data =
        { s with log := s.log ++ [Effect.set_cur_func Pfn.Pfn_init_stroke3,
                                  Effect.report ERR250] }) ∧
    (∀ status path pet vol data order, (dev < 1 ∨ dev > dt.in_dt.num_devs.pick) →
      pinit_pick3 X s ws_id dev status path pet vol data order =
        { s with log := s.log ++ [Effect.set_cur_func Pfn.Pfn_init_pick3,
                                  Effect.report ERR250] }) ∧
    (∀ str pet vol data, (dev < 1 ∨ dev > dt.in_dt.num_devs.string) →
      pinit_string3 X s ws_id dev str pet vol data =
        { s with log := s.log ++ [Effect.set_cur_func Pfn.Pfn_init_string3,
                                  Effect.report ERR250] }) ∧
    (∀ str pet area data, (dev < 1 ∨ dev > dt.in_dt.num_devs.string) →
      pinit_string X s ws_id dev str pet area data =
        { s with log := s.log ++ [Effect.set_cur_func Pfn.Pfn_init_string,
                                  Effect.report ERR250] }) ∧
    (∀ status choice pet vol data, (dev < 1 ∨ dev > dt.in_dt.num_devs.choice) →
      pinit_choice3 X s ws_id dev status choice pet vol data =
        { s with log := s.log ++ [Effect.set_cur_func Pfn.Pfn_init_choice3,
                                  Effect.report ERR250] }) ∧
    (∀ value pet vol data, (dev < 1 ∨ dev > dt.in_dt.num_devs.val) →
      pinit_val3 X s ws_id dev value pet vol data =
        { s with log := s.log ++ [Effect.set_cur_func Pfn.Pfn_init_val3,
                                  Effect.report ERR250] }) := by
  refine ⟨?_, ?_, ?_, ?_, ?_, ?_, ?_⟩
  · intro view pos pet vol data hbad
    have hn := out_of_range dev dt.in_dt.num_devs.loc hbad
    simp [pinit_loc3, input_ws_open_ok s ws_id _ dt hws, hn, ERR_REPORT, ERR_SET_CUR_FUNC, emit]
  · intro view stroke pet vol data hbad
    have hn := out_of_range dev dt.in_dt.num_devs.stroke hbad
    simp [pinit_stroke3, input_ws_open_ok s ws_id _ dt hws, hn, ERR_REPORT, ERR_SET_CUR_FUNC,
      emit]
  · intro status path pet vol data order hbad
    have hn := out_of_range dev dt.in_dt.num_devs.pick hbad
    simp [pinit_pick3, input_ws_open_ok s ws_id _ dt hws, hn, ERR_REPORT, ERR_SET_CUR_FUNC, emit]
  · intro str pet vol data hbad
    have hn := out_of_range dev dt.in_dt.num_devs.string hbad
    simp [pinit_string3, input_ws_open_ok s ws_id _ dt hws, hn, ERR_REPORT, ERR_SET_CUR_FUNC,
      emit]
  · intro str pet area data hbad
    have hn := out_of_range dev dt.in_dt.num_devs.string hbad
    simp [pinit_string, input_ws_open_ok s ws_id _ dt hws, hn, ERR_REPORT, ERR_SET_CUR_FUNC,
      emit]
  · intro status choice pet vol data hbad
    have hn := out_of_range dev dt.in_dt.num_devs.choice hbad
    simp [pinit_choice3, input_ws_open_ok s ws_id _ dt hws, hn, ERR_REPORT, ERR_SET_CUR_FUNC,
      emit]
  · intro value pet vol data hbad
    have hn := out_of_range dev dt.in_dt.num_devs.val hbad
    simp [pinit_val3, input_ws_open_ok s ws_id _ dt hws, hn, ERR_REPORT, ERR_SET_CUR_FUNC, emit]

/-- C1 at a concrete call: workstation 1 of `ex_phg` has one locator and one
valuator; `pinit_loc3` with device 5 and `pinit_val3` with device 0 log
exactly the function identifier and ERR250, and nothing reaches the driver. -/
theorem C1_init_invalid_device_number_witness :
    ws_ok ex_phg 1 ex_dt ∧ (5 : Pint) > ex_dt.in_dt.num_devs.loc ∧
    (pinit_loc3 (ex_ext true) ex_phg 1 5 0 { x := 0, y := 0, z := 0 } 1 ex_vol
        { image := [] }).log =
      [Effect.set_cur_func Pfn.Pfn_init_loc3, Effect.report ERR250] ∧
    (pinit_val3 (ex_ext true) ex_phg 1 0 0 1 ex_vol
        { label := none, format := none, low_label := none, high_label := none,
          image := [] }).log =
      [Effect.set_cur_func Pfn.Pfn_init_val3, Effect.report ERR250] := by
  have h5 := C1_init_invalid_device_number (ex_ext true) ex_phg 1 5 ex_dt ex_ws_ok
  have h0 := C1_init_invalid_device_number (ex_ext true) ex_phg 1 0 ex_dt ex_ws_ok
  refine ⟨ex_ws_ok, by decide, ?_, ?_⟩
  · rw [h5.1 0 _ 1 ex_vol _ (Or.inr (by decide))]
    rfl
  · rw [h0.2.2.2.2.2.2 0 1 ex_vol _ (Or.inl (by decide))]
    rfl

/-! ## The workstation check and the operations built on it -/

/-- C2: `input_ws_open` in reporting mode (`err_ind = NULL`) returns a device
table exactly when the state is "workstation open", `ws_id` resolves to
workstation info and the category is IN or OUTIN (and then it is that
workstation's input table); otherwise it returns NULL and logs, after
`ERR_SET_CUR_FUNC`, exactly one report, of the error of precedence `ws_error`
(ERR3, then ERR54, then ERR61); and then every `pinit_*`, `psample_*`,
`preq_*` and `pset_*_mode` operation ends in that same state for every fuel:
no driver hook is called, the driver state and the caller storage are as
before. -/
theorem C2_input_ws_open (X : Ext σ) (s : Phg σ) (ws_id : Pint) :
    (∀ fn_id, (input_ws_open s ws_id fn_id none).ret.isSome = true ↔ ∃ dt, ws_ok s ws_id dt) ∧
    (∀ fn_id dt, ws_ok s ws_id dt →
      (input_ws_open s ws_id fn_id none).ret = some { idt := dt.in_dt, dt := dt }) ∧
    ((¬ ∃ dt, ws_ok s ws_id dt) →
      (∀ fn_id, input_ws_open s ws_id fn_id none =
        { ret := none, err_ind := none, st := ws_failed s ws_id fn_id }) ∧
      (∀ dev view pos pet vol data,
        pinit_loc3 X s ws_id dev view pos pet vol data = ws_failed s ws_id Pfn.Pfn_init_loc3) ∧
      (∀ dev view stroke pet vol data,
        pinit_stroke3 X s ws_id dev view stroke pet vol data =
          ws_failed s ws_id Pfn.Pfn_init_stroke3) ∧
      (∀ dev status path pet vol data order,
        pinit_pick3 X s ws_id dev status path pet vol data order =
          ws_failed s ws_id Pfn.Pfn_init_pick3) ∧
      (∀ dev str pet vol data,
        pinit_string3 X s ws_id dev str pet vol data = ws_failed s ws_id Pfn.Pfn_init_string3) ∧
      (∀ dev str pet area data,
        pinit_string X s ws_id dev str pet area data = ws_failed s ws_id Pfn.Pfn_init_string) ∧
      (∀ dev status choice pet vol data,
        pinit_choice3 X s ws_id dev status choice pet vol data =
          ws_failed s ws_id Pfn.Pfn_init_choice3) ∧
      (∀ dev value pet vol data,
        pinit_val3 X s ws_id dev value pet vol data = ws_failed s ws_id Pfn.Pfn_init_val3) ∧
      (∀ dev mode echo,
        pset_loc_mode X s ws_id dev mode echo = ws_failed s ws_id Pfn.Pfn_set_loc_mode) ∧
      (∀ dev mode echo,
        pset_stroke_mode X s ws_id dev mode echo = ws_failed s ws_id Pfn.Pfn_set_stroke_mode) ∧
      (∀ dev mode echo,
        pset_pick_mode X s ws_id dev mode echo = ws_failed s ws_id Pfn.Pfn_set_stroke_mode) ∧
      (∀ dev mode echo,
        pset_string_mode X s ws_id dev mode echo = ws_failed s ws_id Pfn.Pfn_set_string_mode) ∧
      (∀ dev mode echo,
        pset_choice_mode X s ws_id dev mode echo = ws_failed s ws_id Pfn.Pfn_set_choice_mode) ∧
      (∀ dev mode echo,
        pset_val_mode X s ws_id dev mode echo = ws_failed s ws_id Pfn.Pfn_set_val_mode) ∧
      (∀ fuel dev out,
        psample_loc X fuel s ws_id dev out = some (out, ws_failed s ws_id Pfn.Pfn_sample_loc)) ∧
      (∀ fuel dev out,
        psample_loc3 X fuel s ws_id dev out =
          some (out, ws_failed s ws_id Pfn.Pfn_sample_loc3)) ∧
      (∀ fuel dev out,
        psample_stroke X fuel s ws_id dev out =
          some (out, ws_failed s ws_id Pfn.Pfn_sample_stroke)) ∧
      (∀ fuel dev out,
        psample_stroke3 X fuel s ws_id dev out =
          some (out, ws_failed s ws_id Pfn.Pfn_sample_stroke3)) ∧
      (∀ fuel dev depth out,
        psample_pick X fuel s ws_id dev depth out =
          some (out, ws_failed s ws_id Pfn.Pfn_sample_pick)) ∧
      (∀ fuel dev out,
        psample_string X fuel s ws_id dev out =
          some (out, ws_failed s ws_id Pfn.Pfn_sample_pick)) ∧
      (∀ fuel dev out,
        preq_loc3 X fuel s ws_id dev out = some (out, ws_failed s ws_id Pfn.Pfn_req_loc3)) ∧
      (∀ fuel dev out,
        preq_stroke3 X fuel s ws_id dev out =
          some (out, ws_failed s ws_id Pfn.Pfn_req_stroke3)) ∧
      (∀ fuel dev depth out,
        preq_pick X fuel s ws_id dev depth out =
          some (out, ws_failed s ws_id Pfn.Pfn_req_pick)) ∧
      (∀ fuel dev out,
        preq_string X fuel s ws_id dev out = some (out, ws_failed s ws_id Pfn.Pfn_req_string)) ∧
      (∀ fuel dev out,
        preq_choice X fuel s ws_id dev out = some (out, ws_failed s ws_id Pfn.Pfn_req_choice)) ∧
      (∀ fuel dev out,
        preq_valuator X fuel s ws_id dev out = some (out, ws_failed s ws_id Pfn.Pfn_req_val))) := by
  refine ⟨?_, ?_, ?_⟩
  · intro fn_id
    constructor
    · intro h
      by_contra hn
      rw [input_ws_open_fail s ws_id fn_id hn] at h
      simp at h
    · rintro ⟨dt, hdt⟩
      rw [input_ws_open_ok s ws_id fn_id dt hdt]
      rfl
  · intro fn_id dt hdt
    rw [input_ws_open_ok s ws_id fn_id dt hdt]
  · intro h
    have hf := fun fn_id => input_ws_open_fail s ws_id fn_id h
    refine ⟨hf, ?_, ?_, ?_, ?_, ?_, ?_, ?_, ?_, ?_, ?_, ?_, ?_, ?_, ?_, ?_, ?_, ?_, ?_, ?_,
      ?_, ?_, ?_, ?_, ?_, ?_⟩
    · intros; simp [pinit_loc3, hf]
    · intros; simp [pinit_stroke3, hf]
    · intros; simp [pinit_pick3, hf]
    · intros; simp [pinit_string3, hf]
    · intros; simp [pinit_string, hf]
    · intros; simp [pinit_choice3, hf]
    · intros; simp [pinit_val3, hf]
    · intros; simp [pset_loc_mode, hf]
    · intros; simp [pset_stroke_mode, hf]
    · intros; simp [pset_pick_mode, hf]
    · intros; simp [pset_string_mode, hf]
    · intros; simp [pset_choice_mode, hf]
    · intros; simp [pset_val_mode, hf]
    · intros; simp [psample_loc, hf]
    · intros; simp [psample_loc3, hf]
    · intros; simp [psample_stroke, hf]
    · intros; simp [psample_stroke3, hf]
    · intros; simp [psample_pick, hf]
    · intros; simp [psample_string, hf]
    · intros; simp [preq_loc3, hf]
    · intros; simp [preq_stroke3, hf]
    · intros; simp [preq_pick, hf]
    · intros; simp [preq_string, hf]
    · intros; simp [preq_choice, hf]
    · intros; simp [preq_valuator, hf]

/-- C2 at concrete calls: with every workstation closed `pinit_loc3` logs the
function identifier and ERR3; for the unknown workstation 3 `psample_loc`
returns with ERR54; for the output-only workstation 2 `preq_choice` returns
with ERR61; none of the three logs a driver call. -/
theorem C2_input_ws_open_witness :
    (pinit_loc3 (ex_ext true) ex_phg_closed 1 1 0 { x := 0, y := 0, z := 0 } 1 ex_vol
        { image := [] }).log =
      [Effect.set_cur_func Pfn.Pfn_init_loc3, Effect.report ERR3] ∧
    (psample_loc (ex_ext true) 0 ex_phg 3 1
        { view_ind := 0, loc_pos := { x := 0, y := 0 } }).map (fun r => r.2.log) =
      some [Effect.set_cur_func Pfn.Pfn_sample_loc, Effect.report ERR54] ∧
    (preq_choice (ex_ext true) 0 ex_phg 2 1
        { status := Pin_status.PIN_STATUS_NONE, choice := 0 }).map (fun r => r.2.log) =
      some [Effect.set_cur_func Pfn.Pfn_req_choice, Effect.report ERR61] ∧
    hook_calls [Effect.set_cur_func Pfn.Pfn_req_choice, Effect.report ERR61] = 0 := by
  have h1 := (C2_input_ws_open (ex_ext true) ex_phg_closed 1).2.2 (ex_closed_fails 1)
  have h2 := (C2_input_ws_open (ex_ext true) ex_phg 3).2.2 ex_unknown_fails
  have h3 := (C2_input_ws_open (ex_ext true) ex_phg 2).2.2 ex_out_fails
  refine ⟨?_, ?_, ?_, by decide⟩
  · rw [h1.2.1]
    rfl
  · rw [h2.2.2.2.2.2.2.2.2.2.2.2.2.2.2.1]
    rfl
  · rw [h3.2.2.2.2.2.2.2.2.2.2.2.2.2.2.2.2.2.2.2.2.2.2.2.2.1]
    rfl

/-! ## Invalid prompt/echo type -/

/-- C3 fails as stated for `pinit_stroke3`: on workstation 1 of `ex_phg_bad`
(one stroke device, PETs 1 and 2, default record with `buffer_size = 32`,
`init_pos = 0`, `max_bufsize = 64`) the call with device 1, view index 0, an
empty initial stroke (0 < 32) and the PET 9 passes the workstation,
device-number and echo-volume checks, yet it reports ERR253 and then ERR260
and never calls `init_device`. -/
theorem C3_counterexample :
    ws_ok ex_phg_bad 1 ex_dt_bad ∧
    ((0 : Pint) < 1 ∧ (1 : Pint) ≤ ex_dt_bad.in_dt.num_devs.stroke) ∧
    (ex_ext true).phg_echo_limits_valid 1 Pfn.Pfn_init_stroke3 ex_vol ex_dt_bad = true ∧
    phg_int_in_list 9 (ex_dt_bad.in_dt.strokes 0).num_pets (ex_dt_bad.in_dt.strokes 0).pets
      = false ∧
    ex_stroke0.num_points < (ex_dt_bad.in_dt.strokes 0).record.buffer_size ∧
    reported (pinit_stroke3 (ex_ext true) ex_phg_bad 1 1 0 ex_stroke0 9 ex_vol
        { buffer_size := 8, init_pos := 1, image := [] }).log = [ERR253, ERR260] ∧
    (init_calls (pinit_stroke3 (ex_ext true) ex_phg_bad 1 1 0 ex_stroke0 9 ex_vol
        { buffer_size := 8, init_pos := 1, image := [] }).log).length = 0 := by
  refine ⟨ex_bad_ws_ok, by decide, rfl, by decide, by decide, ?_, ?_⟩ <;> rfl

/-- C3 as amended: on a workstation that passes the workstation checks, with
a device number in range, an echo volume the validator accepts, and (locator,
stroke) a non-negative view index, a requested PET outside the descriptor's
PET list makes each `pinit_*` function report ERR253, and no other error, and
call `init_device` exactly once; for `pinit_stroke3` this needs the
descriptor's default data record to pass `check_stroke_data_record` and the
initial point count to be below its `buffer_size`. -/
theorem C3_invalid_pet_still_initialises (X : Ext σ) (s : Phg σ) (ws_id dev : Pint)
    (dt : Wst_phigs_dt) (hws : ws_ok s ws_id dt) :
    (∀ view pos pet vol data,
      (0 < dev ∧ dev ≤ dt.in_dt.num_devs.loc) →
      X.phg_echo_limits_valid ws_id Pfn.Pfn_init_loc3 vol dt = true →
      view ≥ 0 →
      phg_int_in_list pet (dt.in_dt.locators (dev - 1).toNat).num_pets
        (dt.in_dt.locators (dev - 1).toNat).pets = false →
      reported (pinit_loc3 X s ws_id dev view pos pet vol data).log
        = reported s.log ++ [ERR253] ∧
      (init_calls (pinit_loc3 X s ws_id dev view pos pet vol data).log).length
        = (init_calls s.log).length + 1) ∧
    (∀ view stroke pet vol data,
      (0 < dev ∧ dev ≤ dt.in_dt.num_devs.stroke) →
      X.phg_echo_limits_valid ws_id Pfn.Pfn_init_stroke3 vol dt = true →
      view ≥ 0 →
      phg_int_in_list pet (dt.in_dt.strokes (dev - 1).toNat).num_pets
        (dt.in_dt.strokes (dev - 1).toNat).pets = false →
      check_stroke_data_record 1 (dt.in_dt.strokes (dev - 1).toNat).record dt
        (dt.in_dt.strokes (dev - 1).toNat) = true →
      stroke.num_points < (dt.in_dt.strokes (dev - 1).toNat).record.buffer_size →
      reported (pinit_stroke3 X s ws_id dev view stroke pet vol data).log
        = reported s.log ++ [ERR253] ∧
      (init_calls (pinit_stroke3 X s ws_id dev view stroke pet vol data).log).length
        = (init_calls s.log).length + 1) ∧
    (∀ status path pet vol data order,
      (0 < dev ∧ dev ≤ dt.in_dt.num_devs.pick) →
      X.phg_echo_limits_valid ws_id Pfn.Pfn_init_pick3 vol dt = true →
      phg_int_in_list pet (dt.in_dt.picks (dev - 1).toNat).num_pets
        (dt.in_dt.picks (dev - 1).toNat).pets = false →
      reported (pinit_pick3 X s ws_id dev status path pet vol data order).log
        = reported s.log ++ [ERR253] ∧
      (init_calls (pinit_pick3 X s ws_id dev status path pet vol data order).log).length
        = (init_calls s.log).length + 1) ∧
    (∀ str pet vol data,
      (0 < dev ∧ dev ≤ dt.in_dt.num_devs.string) →
      X.phg_echo_limits_valid ws_id Pfn.Pfn_init_string3 vol dt = true →
      phg_int_in_list pet (dt.in_dt.strings (dev - 1).toNat).num_pets
        (dt.in_dt.strings (dev - 1).toNat).pets = false →
      reported (pinit_string3 X s ws_id dev str pet vol data).log
        = reported s.log ++ [ERR253] ∧
      (init_calls (pinit_string3 X s ws_id dev str pet vol data).log).length
        = (init_calls s.log).length + 1) ∧
    (∀ str pet area data,
      (0 < dev ∧ dev ≤ dt.in_dt.num_devs.string) →
      X.phg_echo_limits_valid ws_id Pfn.Pfn_init_string
        { x_min := area.x_min, x_max := area.x_max, y_min := area.y_min,
          y_max := area.y_max, z_min := 0, z_max := 0 } dt = true →
      phg_int_in_list pet (dt.in_dt.strings (dev - 1).toNat).num_pets
        (dt.in_dt.strings (dev - 1).toNat).pets = false →
      reported (pinit_string X s ws_id dev str pet area data).log
        = reported s.log ++ [ERR253] ∧
      (init_calls (pinit_string X s ws_id dev str pet area data).log).length
        = (init_calls s.log).length + 1) ∧
    (∀ status choice pet vol data,
      (0 < dev ∧ dev ≤ dt.in_dt.num_devs.choice) →
      X.phg_echo_limits_valid ws_id Pfn.Pfn_init_choice3 vol dt = true →
      phg_int_in_list pet (dt.in_dt.choices (dev - 1).toNat).num_pets
        (dt.in_dt.choices (dev - 1).toNat).pets = false →
      reported (pinit_choice3 X s ws_id dev status choice pet vol data).log
        = reported s.log ++ [ERR253] ∧
      (init_calls (pinit_choice3 X s ws_id dev status choice pet vol data).log).length
        = (init_calls s.log).length + 1) ∧
    (∀ value pet vol data,
      (0 < dev ∧ dev ≤ dt.in_dt.num_devs.val) →
      X.phg_echo_limits_valid ws_id Pfn.Pfn_init_val3 vol dt = true →
      phg_int_in_list pet (dt.in_dt.valuators (dev - 1).toNat).num_pets
        (dt.in_dt.valuators (dev - 1).toNat).pets = false →
      reported (pinit_val3 X s ws_id dev value pet vol data).log
        = reported s.log ++ [ERR253] ∧
      (init_calls (pinit_val3 X s ws_id dev value pet vol data).log).length
        = (init_calls s.log).length + 1) := by
  refine ⟨?_, ?_, ?_, ?_, ?_, ?_, ?_⟩
  · intro view pos pet vol data hr he hv hp
    simp [pinit_loc3, input_ws_open_ok s ws_id _ dt hws, hr, echo_limits_valid, he, hv, hp,
      check_loc_data_record, call_init_device, ERR_REPORT, ERR_SET_CUR_FUNC, emit,
      reported_append, init_calls_append, reported, init_calls, -Int.pred_toNat]
  · intro view stroke pet vol data hr he hv hp hc hn
    simp [pinit_stroke3, input_ws_open_ok s ws_id _ dt hws, hr, echo_limits_valid, he, hv, hp,
      hc, hn, call_init_device, ERR_REPORT, ERR_SET_CUR_FUNC, emit,
      reported_append, init_calls_append, reported, init_calls, -Int.pred_toNat]
  · intro status path pet vol data order hr he hp
    simp [pinit_pick3, input_ws_open_ok s ws_id _ dt hws, hr, echo_limits_valid, he, hp,
      check_pick_data_record, call_init_device, ERR_REPORT, ERR_SET_CUR_FUNC, emit,
      reported_append, init_calls_append, reported, init_calls, -Int.pred_toNat]
  · intro str pet vol data hr he hp
    simp [pinit_string3, input_ws_open_ok s ws_id _ dt hws, hr, echo_limits_valid, he, hp,
      call_init_device, ERR_REPORT, ERR_SET_CUR_FUNC, emit,
      reported_append, init_calls_append, reported, init_calls, -Int.pred_toNat]
  · intro str pet area data hr he hp
    simp [pinit_string, input_ws_open_ok s ws_id _ dt hws, hr, echo_limits_valid, he, hp,
      call_init_device, ERR_REPORT, ERR_SET_CUR_FUNC, emit,
      reported_append, init_calls_append, reported, init_calls, -Int.pred_toNat]
  · intro status choice pet vol data hr he hp
    simp [pinit_choice3, input_ws_open_ok s ws_id _ dt hws, hr, echo_limits_valid, he, hp,
      call_init_device, ERR_REPORT, ERR_SET_CUR_FUNC, emit,
      reported_append, init_calls_append, reported, init_calls, -Int.pred_toNat]
  · intro value pet vol data hr he hp
    simp [pinit_val3, input_ws_open_ok s ws_id _ dt hws, hr, echo_limits_valid, he, hp,
      call_init_device, ERR_REPORT, ERR_SET_CUR_FUNC, emit,
      reported_append, init_calls_append, reported, init_calls, -Int.pred_toNat]

/-- C3 (amended) at concrete calls on workstation 1 of `ex_phg`, whose
devices offer the PETs 1 and 2: `pinit_stroke3` and `pinit_loc3` with PET 9
report ERR253 alone and call `init_device` once. -/
theorem C3_invalid_pet_still_initialises_witness :
    (reported (pinit_stroke3 (ex_ext true) ex_phg 1 1 0 ex_stroke0 9 ex_vol
        { buffer_size := 8, init_pos := 1, image := [] }).log = [ERR253] ∧
     (init_calls (pinit_stroke3 (ex_ext true) ex_phg 1 1 0 ex_stroke0 9 ex_vol
        { buffer_size := 8, init_pos := 1, image := [] }).log).length = 1) ∧
    (reported (pinit_loc3 (ex_ext true) ex_phg 1 1 0 { x := 0, y := 0, z := 0 } 9 ex_vol
        { image := [] }).log = [ERR253] ∧
     (init_calls (pinit_loc3 (ex_ext true) ex_phg 1 1 0 { x := 0, y := 0, z := 0 } 9 ex_vol
        { image := [] }).log).length = 1) :=
  ⟨(C3_invalid_pet_still_initialises (ex_ext true) ex_phg 1 1 ex_dt ex_ws_ok).2.1
      0 ex_stroke0 9 ex_vol { buffer_size := 8, init_pos := 1, image := [] }
      (by decide) rfl (by decide) (by decide) (by decide) (by decide),
   (C3_invalid_pet_still_initialises (ex_ext true) ex_phg 1 1 ex_dt ex_ws_ok).1
      0 { x := 0, y := 0, z := 0 } 9 ex_vol { image := [] }
      (by decide) rfl (by decide) (by decide)⟩

/-- C4 at the failing input: on workstation 1 of `ex_phg` (string device 1
with PETs 1 and 2) the PET 9 is not in the list; `pinit_string3` hands the
driver a record with PET 1, where the sibling `pinit_string` hands PET 0. -/
theorem C4_string3_fallback_pet :
    phg_int_in_list 9 (ex_dt.in_dt.strings 0).num_pets (ex_dt.in_dt.strings 0).pets = false ∧
    (init_calls (pinit_string3 (ex_ext true) ex_phg 1 1 "" 9 ex_vol
        { image := [] }).log).map (fun a => a.pet) = [1] ∧
    (init_calls (pinit_string (ex_ext true) ex_phg 1 1 "" 9
        { x_min := 0, x_max := 1, y_min := 0, y_max := 1 }
        { image := [] }).log).map (fun a => a.pet) = [0] := by
  refine ⟨by decide, ?_, ?_⟩ <;> rfl

/-- C5 at the failing inputs: on workstation 1 of `ex_phg` the PET 9 is in
neither PET list; `pinit_choice3` and `pinit_val3` report ERR253 and hand the
driver the caller's data record, not the descriptor's default record. -/
theorem C5_choice_val_record_not_replaced :
    phg_int_in_list 9 (ex_dt.in_dt.choices 0).num_pets (ex_dt.in_dt.choices 0).pets = false ∧
    phg_int_in_list 9 (ex_dt.in_dt.valuators 0).num_pets (ex_dt.in_dt.valuators 0).pets
      = false ∧
    (init_calls (pinit_choice3 (ex_ext true) ex_phg 1 1 Pin_status.PIN_STATUS_NONE 0 9 ex_vol
        ex_choice_data).log).map args_choice_record = [some ex_choice_data] ∧
    ex_choice_data ≠ (ex_dt.in_dt.choices 0).record ∧
    (init_calls (pinit_val3 (ex_ext true) ex_phg 1 1 0 9 ex_vol
        ex_val_data).log).map args_val_record = [some ex_val_data] ∧
    ex_val_data ≠ (ex_dt.in_dt.valuators 0).record := by
  refine ⟨by decide, by decide, ?_, by decide, ?_, by decide⟩ <;> rfl

/-- C7 at the failing inputs: when the echo-volume validator answers FALSE,
`pinit_string3`, `pinit_string`, `pinit_choice3` and `pinit_val3` report
ERR260 themselves, while `pinit_loc3` reports nothing; none calls the
driver. -/
theorem C7_echo_failure_reports_ERR260 :
    reported (pinit_string3 (ex_ext false) ex_phg 1 1 "" 1 ex_vol { image := [] }).log
      = [ERR260] ∧
    reported (pinit_string (ex_ext false) ex_phg 1 1 "" 1
        { x_min := 0, x_max := 1, y_min := 0, y_max := 1 } { image := [] }).log = [ERR260] ∧
    reported (pinit_choice3 (ex_ext false) ex_phg 1 1 Pin_status.PIN_STATUS_NONE 0 1 ex_vol
        ex_choice_data).log = [ERR260] ∧
    reported (pinit_val3 (ex_ext false) ex_phg 1 1 0 1 ex_vol ex_val_data).log = [ERR260] ∧
    reported (pinit_loc3 (ex_ext false) ex_phg 1 1 0 { x := 0, y := 0, z := 0 } 1 ex_vol
        { image := [] }).log = [] ∧
    hook_calls (pinit_string3 (ex_ext false) ex_phg 1 1 "" 1 ex_vol { image := [] }).log
      = 0 := by
  refine ⟨?_, ?_, ?_, ?_, ?_, ?_⟩ <;> rfl

/-- C9 at the failing input: workstation 1 of `ex_phg` has one string device;
`psample_string` with device 2 reports no error, drains the dispatcher and
calls the driver's `sample_device`. -/
theorem C9_sample_string_no_upper_bound :
    (2 : Pint) > ex_dt.in_dt.num_devs.string ∧
    (psample_string (ex_ext true) 1 ex_phg 1 2 ex_buf).map (fun r => r.2.log) =
      some [Effect.set_cur_func Pfn.Pfn_sample_pick, Effect.dispatch_next 1,
            Effect.sample_device 1 Phg_args_idev_class.PHG_ARGS_INP_STR 2] := by
  refine ⟨by decide, ?_⟩
  rfl

/-! ## Stroke buffer size -/

/-- C6 fails as stated: on workstation 1 of `ex_phg` the call of
`pinit_stroke3` with device 1, view index 0, the valid PET 1, an empty
initial stroke and a data record with `buffer_size = 0` passes the
workstation, device-number, echo-volume and view-index checks and has
`num_points >= buffer_size`, yet the only error reported is ERR260, not
ERR262. -/
theorem C6_counterexample :
    ws_ok ex_phg 1 ex_dt ∧
    ((0 : Pint) < 1 ∧ (1 : Pint) ≤ ex_dt.in_dt.num_devs.stroke) ∧
    (ex_ext true).phg_echo_limits_valid 1 Pfn.Pfn_init_stroke3 ex_vol ex_dt = true ∧
    ex_stroke0.num_points ≥
      (stroke_record_in_effect (ex_dt.in_dt.strokes 0) 1
        { buffer_size := 0, init_pos := 1, image := [] }).buffer_size ∧
    reported (pinit_stroke3 (ex_ext true) ex_phg 1 1 0 ex_stroke0 1 ex_vol
        { buffer_size := 0, init_pos := 1, image := [] }).log = [ERR260] := by
  refine ⟨ex_ws_ok, by decide, rfl, by decide, ?_⟩
  rfl

/-- C6 as amended: for a `pinit_stroke3` call that passes the workstation,
device-number, echo-volume and view-index checks and whose initial stroke has
`num_points >= buffer_size` of the data record in effect, `init_device` is
not called and the driver state is unchanged; ERR262 is reported (after
ERR253 when the PET was invalid) when the data record in effect passes
`check_stroke_data_record`, and ERR260 is reported in its place when it does
not. -/
theorem C6_stroke_buffer_too_small (X : Ext σ) (s : Phg σ) (ws_id dev view : Pint)
    (dt : Wst_phigs_dt) (stroke : Ppoint_list3) (pet : Pint) (vol : Plimit3)
    (data : Pstroke_data3)
    (hws : ws_ok s ws_id dt)
    (hr : 0 < dev ∧ dev ≤ dt.in_dt.num_devs.stroke)
    (he : X.phg_echo_limits_valid ws_id Pfn.Pfn_init_stroke3 vol dt = true)
    (hv : view ≥ 0)
    (hn : stroke.num_points ≥
      (stroke_record_in_effect (dt.in_dt.strokes (dev - 1).toNat) pet data).buffer_size) :
    init_calls (pinit_stroke3 X s ws_id dev view stroke pet vol data).log = init_calls s.log ∧
    (pinit_stroke3 X s ws_id dev view stroke pet vol data).ds = s.ds ∧
    reported (pinit_stroke3 X s ws_id dev view stroke pet vol data).log =
      reported s.log ++
        (if phg_int_in_list pet (dt.in_dt.strokes (dev - 1).toNat).num_pets
              (dt.in_dt.strokes (dev - 1).toNat).pets then [] else [ERR253]) ++
        (if check_stroke_data_record
              (if phg_int_in_list pet (dt.in_dt.strokes (dev - 1).toNat).num_pets
                 (dt.in_dt.strokes (dev - 1).toNat).pets then pet else 1)
              (stroke_record_in_effect (dt.in_dt.strokes (dev - 1).toNat) pet data) dt
              (dt.in_dt.strokes (dev - 1).toNat) then [ERR262] else [ERR260]) := by
  have hn2 : ¬ stroke.num_points <
      (stroke_record_in_effect (dt.in_dt.strokes (dev - 1).toNat) pet data).buffer_size :=
    not_lt.mpr hn
  unfold stroke_record_in_effect at hn2 ⊢
  cases hp : phg_int_in_list pet (dt.in_dt.strokes (dev - 1).toNat).num_pets
      (dt.in_dt.strokes (dev - 1).toNat).pets <;>
    simp only [hp, if_true, if_false, Bool.false_eq_true] at hn2 ⊢
  · cases hc : check_stroke_data_record 1 (dt.in_dt.strokes (dev - 1).toNat).record dt
        (dt.in_dt.strokes (dev - 1).toNat) <;>
      simp [pinit_stroke3, input_ws_open_ok s ws_id _ dt hws, hr, echo_limits_valid, he, hv,
        hp, hc, hn2, call_init_device, ERR_REPORT, ERR_SET_CUR_FUNC, emit,
        reported_append, init_calls_append, reported, init_calls, -Int.pred_toNat]
  · cases hc : check_stroke_data_record pet data dt (dt.in_dt.strokes (dev - 1).toNat) <;>
      simp [pinit_stroke3, input_ws_open_ok s ws_id _ dt hws, hr, echo_limits_valid, he, hv,
        hp, hc, hn2, call_init_device, ERR_REPORT, ERR_SET_CUR_FUNC, emit,
        reported_append, init_calls_append, reported, init_calls, -Int.pred_toNat]

/-- C6 (amended) at a concrete call: on workstation 1 of `ex_phg` an initial
stroke of 8 points against a valid data record with `buffer_size = 8` makes
`pinit_stroke3` report ERR262 alone and call no driver hook. -/
theorem C6_stroke_buffer_too_small_witness :
    reported (pinit_stroke3 (ex_ext true) ex_phg 1 1 0
        { num_points := 8, points := ex_stroke0.points } 1 ex_vol
        { buffer_size := 8, init_pos := 1, image := [] }).log = [ERR262] ∧
    hook_calls (pinit_stroke3 (ex_ext true) ex_phg 1 1 0
        { num_points := 8, points := ex_stroke0.points } 1 ex_vol
        { buffer_size := 8, init_pos := 1, image := [] }).log = 0 :=
  ⟨(C6_stroke_buffer_too_small (ex_ext true) ex_phg 1 1 0 ex_dt
      { num_points := 8, points := ex_stroke0.points } 1 ex_vol
      { buffer_size := 8, init_pos := 1, image := [] }
      ex_ws_ok (by decide) rfl (by decide) (by decide)).2.2, rfl⟩

/-! ## The record handed to the driver -/

/-- C10: for every requested depth `depth` and every pick value `pik` with
status OK, `psample_pick` (when the driver's `sample_device` has answered
with `err = 0` and `pik`) and `pget_pick` (when a workstation is open and the
current event is of class pick with data `pik`) leave in the caller storage
the status OK, the depth of `pik`, its first `min depth pik.pick_path.depth`
path elements, and the caller's own elements from there on; `pget_pick`
reports no error. -/
theorem C10_pick_path_truncation (X : Ext σ) (fuel : Nat) (s s1 : Phg σ)
    (ws_id dev depth : Pint) (dt : Wst_phigs_dt) (out : Pick_out) (ret : Phg_ret) :
    (ws_ok s ws_id dt →
      (0 < dev ∧ dev ≤ dt.in_dt.num_devs.pick) →
      sample_device X fuel (ERR_SET_CUR_FUNC Pfn.Pfn_sample_pick s) ws_id dev
        Phg_args_idev_class.PHG_ARGS_INP_PIK = some (ret, s1) →
      ret.err = 0 →
      ret.inp_event.data.pik.status = Pin_status.PIN_STATUS_OK →
      ∃ out1, psample_pick X fuel s ws_id dev depth out = some (out1, s1) ∧
        pick_copied depth ret.inp_event.data.pik out out1) ∧
    (s.psl.ws_state = Pws_st.PWS_ST_WSOP →
      s.psl.cur_event.id.in_class = Pin_class.PIN_PICK →
      s.psl.cur_event.data.pik.status = Pin_status.PIN_STATUS_OK →
      (pget_pick s depth out).2 = ERR_SET_CUR_FUNC Pfn.Pfn_get_pick s ∧
      pick_copied depth s.psl.cur_event.data.pik out (pget_pick s depth out).1) := by
  refine ⟨?_, ?_⟩
  · intro hws hr hs he hok
    refine ⟨{ in_status := Pin_status.PIN_STATUS_OK,
              pick := copy_pick_path depth ret.inp_event.data.pik out.pick }, ?_,
            copy_pick_path_copied depth ret.inp_event.data.pik out⟩
    simp [psample_pick, input_ws_open_ok s ws_id _ dt hws, hr, hs, he, hok]
  · intro hst hcl hok
    have hp : pget_pick s depth out =
        ({ in_status := Pin_status.PIN_STATUS_OK,
           pick := copy_pick_path depth s.psl.cur_event.data.pik out.pick },
         ERR_SET_CUR_FUNC Pfn.Pfn_get_pick s) := by
      simp [pget_pick, check_event_class, ERR_SET_CUR_FUNC, emit, hst, hcl, hok]
    rw [hp]
    exact ⟨rfl, copy_pick_path_copied depth s.psl.cur_event.data.pik out⟩

/-- C10 at the scenario of the specification: a pick value of depth 5 and a
requested depth of 3. `psample_pick` and `pget_pick` report depth 5 and copy
the first 3 path elements (structure identifiers 1, 2, 3), leaving the
caller's elements 3 and 4 (identifier 0) as they were. -/
theorem C10_pick_path_truncation_witness :
    (∃ out1 s1, psample_pick ex_ext_pick 1 ex_phg 1 1 3 ex_pick_out = some (out1, s1) ∧
      pick_copied 3 ex_pick5 ex_pick_out out1) ∧
    pick_copied 3 ex_pick5 ex_pick_out (pget_pick ex_phg_pick 3 ex_pick_out).1 ∧
    (psample_pick ex_ext_pick 1 ex_phg 1 1 3 ex_pick_out).map
        (fun r => (r.1.pick.depth,
                   (List.range 5).map (fun i => (r.1.pick.path_list i).struct_id)))
      = some (5, [1, 2, 3, 0, 0]) ∧
    ((pget_pick ex_phg_pick 3 ex_pick_out).1.pick.depth,
     (List.range 5).map
       (fun i => ((pget_pick ex_phg_pick 3 ex_pick_out).1.pick.path_list i).struct_id))
      = (5, [1, 2, 3, 0, 0]) := by
  refine ⟨?_, ?_, ?_, ?_⟩
  · obtain ⟨out1, h1, h2⟩ :=
      (C10_pick_path_truncation ex_ext_pick 1 ex_phg _ 1 1 3 ex_dt ex_pick_out _).1
        ex_ws_ok (by decide) rfl rfl rfl
    exact ⟨out1, _, h1, h2⟩
  · exact ((C10_pick_path_truncation ex_ext_pick 1 ex_phg_pick ex_phg_pick 1 1 3 ex_dt
      ex_pick_out ex_ret).2 rfl rfl rfl).2
  · rfl
  · rfl

/-! ## Paths that follow the sibling functions -/

/-- When the echo-volume validator answers FALSE on a workstation that passes
the workstation checks, with a device number in range, `pinit_loc3`,
`pinit_stroke3` and `pinit_pick3` log the function identifier and the
validator call and nothing else: no report of their own, no driver call, the
driver state unchanged. -/
theorem echo_failure_silent (X : Ext σ) (s : Phg σ) (ws_id dev : Pint) (dt : Wst_phigs_dt)
    (hws : ws_ok s ws_id dt) :
    (∀ view pos pet vol data,
      (0 < dev ∧ dev ≤ dt.in_dt.num_devs.loc) →
      X.phg_echo_limits_valid ws_id Pfn.Pfn_init_loc3 vol dt = false →
      pinit_loc3 X s ws_id dev view pos pet vol data =
        { s with log := s.log ++ [Effect.set_cur_func Pfn.Pfn_init_loc3,
                                  Effect.echo_limits_valid ws_id Pfn.Pfn_init_loc3] }) ∧
    (∀ view stroke pet vol data,
      (0 < dev ∧ dev ≤ dt.in_dt.num_devs.stroke) →
      X.phg_echo_limits_valid ws_id Pfn.Pfn_init_stroke3 vol dt = false →
      pinit_stroke3 X s ws_id dev view stroke pet vol data =
        { s with log := s.log ++ [Effect.set_cur_func Pfn.Pfn_init_stroke3,
                                  Effect.echo_limits_valid ws_id Pfn.Pfn_init_stroke3] }) ∧
    (∀ status path pet vol data order,
      (0 < dev ∧ dev ≤ dt.in_dt.num_devs.pick) →
      X.phg_echo_limits_valid ws_id Pfn.Pfn_init_pick3 vol dt = false →
      pinit_pick3 X s ws_id dev status path pet vol data order =
        { s with log := s.log ++ [Effect.set_cur_func Pfn.Pfn_init_pick3,
                                  Effect.echo_limits_valid ws_id Pfn.Pfn_init_pick3] }) := by
  refine ⟨?_, ?_, ?_⟩
  · intro view pos pet vol data hr he
    simp [pinit_loc3, input_ws_open_ok s ws_id _ dt hws, hr, echo_limits_valid, he,
      ERR_SET_CUR_FUNC, emit]
  · intro view stroke pet vol data hr he
    simp [pinit_stroke3, input_ws_open_ok s ws_id _ dt hws, hr, echo_limits_valid, he,
      ERR_SET_CUR_FUNC, emit]
  · intro status path pet vol data order hr he
    simp [pinit_pick3, input_ws_open_ok s ws_id _ dt hws, hr, echo_limits_valid, he,
      ERR_SET_CUR_FUNC, emit]

/-- The theorem `echo_failure_silent` at a concrete call: `pinit_pick3` on
workstation 1 of `ex_phg` with a validator that rejects every volume. -/
theorem echo_failure_silent_witness :
    (pinit_pick3 (ex_ext false) ex_phg 1 1 Pin_status.PIN_STATUS_NONE
        Ws_inp_req.zero.pick.pick_path 1 ex_vol { image := [] }
        Ppath_order.PORDER_TOP_FIRST).log =
      [Effect.set_cur_func Pfn.Pfn_init_pick3,
       Effect.echo_limits_valid 1 Pfn.Pfn_init_pick3] := by
  rw [(echo_failure_silent (ex_ext false) ex_phg 1 1 ex_dt ex_ws_ok).2.2
    Pin_status.PIN_STATUS_NONE Ws_inp_req.zero.pick.pick_path 1 ex_vol { image := [] }
    Ppath_order.PORDER_TOP_FIRST (by decide) rfl]
  rfl

/-- On a workstation that passes the workstation checks, `psample_loc`,
`psample_loc3`, `psample_stroke`, `psample_stroke3` and `psample_pick` with a
device number below 1 or above the device count of their class, and
`psample_string` with a device number below 1, return for every fuel with
the caller storage as it was and a log that gains the function identifier and
one report of ERR250: no dispatcher call, no `sample_device`. -/
theorem sample_invalid_device_number (X : Ext σ) (fuel : Nat) (s : Phg σ) (ws_id dev : Pint)
    (dt : Wst_phigs_dt) (hws : ws_ok s ws_id dt) :
    (∀ out, (dev < 1 ∨ dev > dt.in_dt.num_devs.loc) →
      psample_loc X fuel s ws_id dev out =
        some (out, { s with log := s.log ++ [Effect.set_cur_func Pfn.Pfn_sample_loc,
                                             Effect.report ERR250] })) ∧
    (∀ out, (dev < 1 ∨ dev > dt.in_dt.num_devs.loc) →
      psample_loc3 X fuel s ws_id dev out =
        some (out, { s with log := s.log ++ [Effect.set_cur_func Pfn.Pfn_sample_loc3,
                                             Effect.report ERR250] })) ∧
    (∀ out, (dev < 1 ∨ dev > dt.in_dt.num_devs.stroke) →
      psample_stroke X fuel s ws_id dev out =
        some (out, { s with log := s.log ++ [Effect.set_cur_func Pfn.Pfn_sample_stroke,
                                             Effect.report ERR250] })) ∧
    (∀ out, (dev < 1 ∨ dev > dt.in_dt.num_devs.stroke) →
      psample_stroke3 X fuel s ws_id dev out =
        some (out, { s with log := s.log ++ [Effect.set_cur_func Pfn.Pfn_sample_stroke3,
                                             Effect.report ERR250] })) ∧
    (∀ depth out, (dev < 1 ∨ dev > dt.in_dt.num_devs.pick) →
      psample_pick X fuel s ws_id dev depth out =
        some (out, { s with log := s.log ++ [Effect.set_cur_func Pfn.Pfn_sample_pick,
                                             Effect.report ERR250] })) ∧
    (∀ out, dev < 1 →
      psample_string X fuel s ws_id dev out =
        some (out, { s with log := s.log ++ [Effect.set_cur_func Pfn.Pfn_sample_pick,
                                             Effect.report ERR250] })) := by
  refine ⟨?_, ?_, ?_, ?_, ?_, ?_⟩
  · intro out hbad
    have hn := out_of_range dev dt.in_dt.num_devs.loc hbad
    simp [psample_loc, input_ws_open_ok s ws_id _ dt hws, hn, ERR_REPORT, ERR_SET_CUR_FUNC,
      emit]
  · intro out hbad
    have hn := out_of_range dev dt.in_dt.num_devs.loc hbad
    simp [psample_loc3, input_ws_open_ok s ws_id _ dt hws, hn, ERR_REPORT, ERR_SET_CUR_FUNC,
      emit]
  · intro out hbad
    have hn := out_of_range dev dt.in_dt.num_devs.stroke hbad
    simp [psample_stroke, input_ws_open_ok s ws_id _ dt hws, hn, ERR_REPORT, ERR_SET_CUR_FUNC,
      emit]
  · intro out hbad
    have hn := out_of_range dev dt.in_dt.num_devs.stroke hbad
    simp [psample_stroke3, input_ws_open_ok s ws_id _ dt hws, hn, ERR_REPORT,
      ERR_SET_CUR_FUNC, emit]
  · intro depth out hbad
    have hn := out_of_range dev dt.in_dt.num_devs.pick hbad
    simp [psample_pick, input_ws_open_ok s ws_id _ dt hws, hn, ERR_REPORT, ERR_SET_CUR_FUNC,
      emit]
  · intro out hbad
    have hn : ¬ 0 < dev := not_lt.mpr (Int.lt_add_one_iff.mp hbad)
    simp [psample_string, input_ws_open_ok s ws_id _ dt hws, hn, ERR_REPORT, ERR_SET_CUR_FUNC,
      emit]

/-- The theorem `sample_invalid_device_number` at a concrete call:
`psample_pick` with device 2 on workstation 1 of `ex_phg`, which has one pick
device. -/
theorem sample_invalid_device_number_witness :
    (psample_pick (ex_ext true) 0 ex_phg 1 2 3 ex_pick_out).map (fun r => r.2.log) =
      some [Effect.set_cur_func Pfn.Pfn_sample_pick, Effect.report ERR250] := by
  rw [(sample_invalid_device_number (ex_ext true) 0 ex_phg 1 2 ex_dt ex_ws_ok).2.2.2.2.1
    3 ex_pick_out (Or.inr (by decide))]
  rfl

/-! ## Polling the event queue -/

theorem buffered_append (l1 l2 : List Effect) :
    buffered (l1 ++ l2) = buffered l1 ++ buffered l2 := by
  induction l1 with
  | nil => rfl
  | cons e l ih => cases e <;> simp [buffered, ih]

theorem PHG_SCRATCH_SPACE_frame (X : Ext σ) (s : Phg σ) (size : Nat) :
    (PHG_SCRATCH_SPACE X s size).2.ds = s.ds ∧ (PHG_SCRATCH_SPACE X s size).2.psl = s.psl ∧
    (PHG_SCRATCH_SPACE X s size).2.log = s.log ∧
    (PHG_SCRATCH_SPACE X s size).2.n_mtime = s.n_mtime := by
  unfold PHG_SCRATCH_SPACE
  split_ifs <;> exact ⟨rfl, rfl, rfl, rfl⟩

theorem poll_fail_some (live : Bool) (ret : Phg_ret) (s : Phg σ) (r : Phg_ret × Phg σ)
    (h : poll_fail live ret s = some r) :
    live = true ∧ r = ({ ret with err := ERR900 }, ERR_BUF ERR900 s) := by
  unfold poll_fail at h
  split_ifs at h with hl
  simp only [Option.some.injEq] at h
  exact ⟨hl, h.symm⟩

theorem poll_switch_frame (X : Ext σ) (event : Sin_input_event) (ret : Phg_ret) (s : Phg σ)
    (live : Bool) (r : Phg_ret × Phg σ) (h : poll_switch X event ret s live = some r) :
    r.2.ds = s.ds ∧ r.2.psl = s.psl ∧ r.2.n_mtime = s.n_mtime ∧
    reported r.2.log = reported s.log ∧
    overflow_reports r.2.log = overflow_reports s.log ∧
    r.1.inp_event.id = ret.inp_event.id := by
  have hf := PHG_SCRATCH_SPACE_frame X s
  unfold poll_switch at h
  cases hc : ret.inp_event.id.in_class <;> simp only [hc] at h <;> (try split_ifs at h) <;>
    first
    | (simp only [Option.some.injEq] at h
       subst h
       simp [hf, set_ed])
    | (obtain ⟨_, h1⟩ := poll_fail_some _ _ _ _ h
       subst h1
       simp [ERR_BUF, emit, hf, overflow_reports, buffered_append, buffered,
         reported_append, reported, set_ed])

theorem poll_empty (X : Ext σ) (s : Phg σ) (ret : Phg_ret) (live : Bool)
    (h : s.ds.input_q.events = []) :
    ∃ r, inp_event_poll X s ret live = some r ∧
      r.1.inp_event.id.in_class = Pin_class.PIN_NONE ∧
      r.1.err = 0 ∧
      r.2.log = s.log ∧
      r.2.ds.input_q.overflow = false ∧
      r.2.ds.input_q.events = [] ∧
      r.2.psl = s.psl ∧
      r.2.n_mtime = s.n_mtime := by
  unfold inp_event_poll
  simp only [phg_sin_q_next_event, h, List.head?_nil]
  refine ⟨_, rfl, rfl, rfl, ?_⟩
  cases ho : s.ds.input_q.overflow <;>
    simp [SIN_Q_OVERFLOWED, SIN_Q_CLEAR_OVERFLOW, set_input_q, ho, h]

/-- C11: when the event queue is empty, `inp_event_poll` returns, whatever
the pointer in the return record, with class `PIN_NONE` and `err = 0`, adds
nothing to the effect log (no report, no ERR256), and leaves the overflow
latch cleared and the queue empty, whatever the latch was before; the state
list is untouched. -/
theorem C11_poll_empty_queue (X : Ext σ) (s : Phg σ) (ret : Phg_ret) (live : Bool)
    (h : s.ds.input_q.events = []) :
    ∃ r, inp_event_poll X s ret live = some r ∧
      r.1.inp_event.id.in_class = Pin_class.PIN_NONE ∧
      r.1.err = 0 ∧
      r.2.log = s.log ∧
      r.2.ds.input_q.overflow = false ∧
      r.2.ds.input_q.events = [] ∧
      r.2.psl = s.psl := by
  unfold inp_event_poll
  simp only [phg_sin_q_next_event, h, List.head?_nil]
  refine ⟨_, rfl, rfl, rfl, ?_⟩
  cases ho : s.ds.input_q.overflow <;>
    simp [SIN_Q_OVERFLOWED, SIN_Q_CLEAR_OVERFLOW, set_input_q, ho, h]

/-- C11 at concrete states: the empty queue of `ex_phg` with the latch set
and with the latch clear. -/
theorem C11_poll_empty_queue_witness :
    (inp_event_poll (ex_ext true) (ex_phg_q [] true) ex_ret false).map
      (fun r => (r.1.inp_event.id.in_class, r.2.log.length, r.2.ds.input_q.overflow))
      = some (Pin_class.PIN_NONE, 0, false) ∧
    (inp_event_poll (ex_ext true) (ex_phg_q [] false) ex_ret false).map
      (fun r => r.2.ds.input_q.overflow) = some false := by
  obtain ⟨r, hr, h1, _, h3, h4, _⟩ :=
    C11_poll_empty_queue (ex_ext true) (ex_phg_q [] true) ex_ret false rfl
  obtain ⟨q, hq, _, _, _, k4, _⟩ :=
    C11_poll_empty_queue (ex_ext true) (ex_phg_q [] false) ex_ret false rfl
  rw [hr, hq]
  simp only [Option.map]
  rw [h1, h3, h4, k4]
  exact ⟨rfl, rfl⟩

theorem poll_cons (X : Ext σ) (s : Phg σ) (ret : Phg_ret) (live : Bool) (e : Sin_input_event)
    (rest : List Sin_input_event) (h : s.ds.input_q.events = e :: rest) :
    inp_event_poll X s ret live =
      (poll_switch X e (poll_enter_ret ret e) (poll_enter_state s e) live).map
        (fun r => (r.1, set_input_q r.2 (phg_sin_q_deque_event r.2.ds.input_q))) := by
  have hs : poll_enter_state s e =
      set_input_q (if SIN_Q_OVERFLOWED s.ds.input_q then ERR_BUF ERR256 s else s)
        (SIN_Q_SET_CUR_SIMUL_ID
          (if SIN_Q_OVERFLOWED s.ds.input_q then ERR_BUF ERR256 s else s).ds.input_q e) := by
    unfold poll_enter_state
    split_ifs <;> rfl
  unfold inp_event_poll
  simp only [phg_sin_q_next_event, h, List.head?_cons]
  rw [← hs]
  show (match poll_switch X e (poll_enter_ret ret e) (poll_enter_state s e) live with
        | none => none
        | some r => some (r.1, set_input_q r.2 (phg_sin_q_deque_event r.2.ds.input_q))) = _
  cases poll_switch X e (poll_enter_ret ret e) (poll_enter_state s e) live <;> rfl

theorem poll_enter_state_frame (s : Phg σ) (e : Sin_input_event) (rest : List Sin_input_event)
    (h : s.ds.input_q.events = e :: rest) :
    (poll_enter_state s e).scratch = s.scratch ∧
    (poll_enter_state s e).n_alloc = s.n_alloc ∧
    (poll_enter_state s e).psl = s.psl ∧
    (poll_enter_state s e).n_mtime = s.n_mtime ∧
    (poll_enter_state s e).log =
      s.log ++ (if s.ds.input_q.overflow then [Effect.buf ERR256] else []) ∧
    (poll_enter_state s e).ds.input_q.events = e :: rest ∧
    (poll_enter_state s e).ds.input_q.overflow = s.ds.input_q.overflow := by
  unfold poll_enter_state set_input_q ERR_BUF emit SIN_Q_OVERFLOWED SIN_Q_SET_CUR_SIMUL_ID
  split_ifs <;> simp [h]

theorem poll_nonempty (X : Ext σ) (s : Phg σ) (ret : Phg_ret) (live : Bool)
    (event : Sin_input_event) (rest : List Sin_input_event)
    (h : s.ds.input_q.events = event :: rest) (r : Phg_ret × Phg σ)
    (hr : inp_event_poll X s ret live = some r) :
    r.2.ds.input_q.events = rest ∧
    r.2.ds.input_q.overflow = s.ds.input_q.overflow ∧
    overflow_reports r.2.log =
      overflow_reports s.log + (if s.ds.input_q.overflow then 1 else 0) ∧
    reported r.2.log = reported s.log ∧
    r.2.psl = s.psl ∧
    r.2.n_mtime = s.n_mtime ∧
    r.1.inp_event.id = { ws := event.wsid, dev := event.dev_num, in_class := event.dev_class } := by
  rw [poll_cons X s ret live event rest h] at hr
  cases hp : poll_switch X event (poll_enter_ret ret event) (poll_enter_state s event) live with
  | none => simp [hp] at hr
  | some p =>
    simp only [hp, Option.map, Option.some.injEq] at hr
    subst hr
    obtain ⟨f1, f2, f3, f4, f5, f6⟩ := poll_switch_frame X event _ _ live p hp
    obtain ⟨_, _, g3, g4, g5, g6, g7⟩ := poll_enter_state_frame s event rest h
    refine ⟨?_, ?_, ?_, ?_, ?_, ?_, ?_⟩
    · simp [set_input_q, phg_sin_q_deque_event, f1, g6]
    · simp [set_input_q, phg_sin_q_deque_event, f1, g7]
    · show overflow_reports p.2.log = _
      rw [f5]
      unfold overflow_reports
      rw [g5, buffered_append]
      cases s.ds.input_q.overflow <;> simp [buffered]
    · show reported p.2.log = _
      rw [f4, g5, reported_append]
      cases s.ds.input_q.overflow <;> simp [reported]
    · show p.2.psl = _
      rw [f2, g3]
    · show p.2.n_mtime = _
      rw [f3, g4]
    · rw [f6]
      rfl

theorem poll_switch_returns (X : Ext σ) (e : Sin_input_event) (ret : Phg_ret) (s : Phg σ)
    (live : Bool)
    (h : live = true ∨ (ret.inp_event.id.in_class ≠ Pin_class.PIN_STROKE ∧
                        ret.inp_event.id.in_class ≠ Pin_class.PIN_STRING)) :
    ∃ r, poll_switch X e ret s live = some r := by
  unfold poll_switch poll_fail
  cases hc : ret.inp_event.id.in_class <;> simp only [] <;> (try split_ifs) <;>
    first
    | exact ⟨_, rfl⟩
    | (rcases h with h | h
       · simp_all
       · simp_all)

theorem poll_returns (X : Ext σ) (s : Phg σ) (ret : Phg_ret) (live : Bool)
    (e : Sin_input_event) (rest : List Sin_input_event) (h : s.ds.input_q.events = e :: rest)
    (hl : live = true ∨ (e.dev_class ≠ Pin_class.PIN_STROKE ∧
                         e.dev_class ≠ Pin_class.PIN_STRING)) :
    ∃ r, inp_event_poll X s ret live = some r := by
  obtain ⟨p, hp⟩ := poll_switch_returns X e (poll_enter_ret ret e) (poll_enter_state s e) live hl
  rw [poll_cons X s ret live e rest h, hp]
  exact ⟨_, rfl⟩

/-- C12 fails as stated: from the queue of `ex_phg` holding two locator
events with the overflow latch set, the first `inp_event_poll` hands ERR256
to `ERR_BUF` once, and the second hands it over again and leaves the latch
set. -/
theorem C12_counterexample :
    (inp_event_poll (ex_ext true) (ex_phg_q [ex_loc_event, ex_loc_event] true) ex_ret true).map
      (fun r => overflow_reports r.2.log) = some 1 ∧
    ((inp_event_poll (ex_ext true) (ex_phg_q [ex_loc_event, ex_loc_event] true) ex_ret
        true).bind (fun r => inp_event_poll (ex_ext true) r.2 r.1 true)).map
      (fun r => (overflow_reports r.2.log, r.2.ds.input_q.overflow)) = some (2, true) := by
  refine ⟨?_, ?_⟩ <;> rfl

/-- C12 as amended: with the overflow latch set and an event `e1` at the head
of the queue, every `inp_event_poll` that returns has handed ERR256 to
`ERR_BUF` exactly once, removed `e1` and left the latch set. The second
`inp_event_poll` returns, reports no ERR256 and clears the latch when `e1`
was the only event; when a second event `e2` is queued it reports ERR256
once more and leaves the latch set. A poll of an event returns whenever the
pointer `stk.points` of the return record is NULL or live, or the event is
neither a Stroke nor a String event. -/
theorem C12_overflow_report (X : Ext σ) (s : Phg σ) (ret : Phg_ret) (live : Bool)
    (e1 : Sin_input_event) (rest : List Sin_input_event)
    (h : s.ds.input_q.events = e1 :: rest) (ho : s.ds.input_q.overflow = true) :
    ((live = true ∨ (e1.dev_class ≠ Pin_class.PIN_STROKE ∧
                     e1.dev_class ≠ Pin_class.PIN_STRING)) →
      ∃ r1, inp_event_poll X s ret live = some r1) ∧
    (∀ r1, inp_event_poll X s ret live = some r1 →
      (overflow_reports r1.2.log = overflow_reports s.log + 1 ∧
       r1.2.ds.input_q.overflow = true ∧
       r1.2.ds.input_q.events = rest) ∧
      (rest = [] → ∀ live2,
        ∃ r2, inp_event_poll X r1.2 r1.1 live2 = some r2 ∧
          overflow_reports r2.2.log = overflow_reports s.log + 1 ∧
          r2.2.ds.input_q.overflow = false) ∧
      (∀ e2 rest2, rest = e2 :: rest2 → ∀ live2,
        ((live2 = true ∨ (e2.dev_class ≠ Pin_class.PIN_STROKE ∧
                          e2.dev_class ≠ Pin_class.PIN_STRING)) →
          ∃ r2, inp_event_poll X r1.2 r1.1 live2 = some r2) ∧
        (∀ r2, inp_event_poll X r1.2 r1.1 live2 = some r2 →
          overflow_reports r2.2.log = overflow_reports s.log + 2 ∧
          r2.2.ds.input_q.overflow = true ∧
          r2.2.ds.input_q.events = rest2))) := by
  refine ⟨fun hl => poll_returns X s ret live e1 rest h hl, ?_⟩
  intro r1 hr1
  obtain ⟨h1, h2, h3, _, _, _, _⟩ := poll_nonempty X s ret live e1 rest h r1 hr1
  rw [ho] at h2 h3
  refine ⟨⟨by simpa using h3, h2, h1⟩, ?_, ?_⟩
  · intro hr live2
    obtain ⟨r2, hr2, _, _, k3, k4, _, _, _⟩ := poll_empty X r1.2 r1.1 live2 (by rw [h1, hr])
    refine ⟨r2, hr2, ?_, k4⟩
    rw [k3]
    simpa using h3
  · intro e2 rest2 hr live2
    have hq : r1.2.ds.input_q.events = e2 :: rest2 := by rw [h1, hr]
    refine ⟨fun hl => poll_returns X r1.2 r1.1 live2 e2 rest2 hq hl, ?_⟩
    intro r2 hr2
    obtain ⟨k1, k2, k3, _, _, _, _⟩ := poll_nonempty X r1.2 r1.1 live2 e2 rest2 hq r2 hr2
    rw [h2] at k2 k3
    refine ⟨?_, k2, k1⟩
    rw [k3, h3]
    simp

/-- C12 (amended) at concrete states: with one locator event queued and the
latch set, the first poll reports ERR256 once and the second poll reports
nothing more and clears the latch. -/
theorem C12_overflow_report_witness :
    (inp_event_poll (ex_ext true) (ex_phg_q [ex_loc_event] true) ex_ret false).map
      (fun r => overflow_reports r.2.log) = some 1 ∧
    ((inp_event_poll (ex_ext true) (ex_phg_q [ex_loc_event] true) ex_ret false).bind
        (fun r => inp_event_poll (ex_ext true) r.2 r.1 false)).map
      (fun r => (overflow_reports r.2.log, r.2.ds.input_q.overflow)) = some (1, false) := by
  obtain ⟨hret, hall⟩ := C12_overflow_report (ex_ext true) (ex_phg_q [ex_loc_event] true) ex_ret
    false ex_loc_event [] rfl rfl
  obtain ⟨r1, hr1⟩ := hret (Or.inr ⟨by decide, by decide⟩)
  obtain ⟨⟨a, _, _⟩, hrest, _⟩ := hall r1 hr1
  obtain ⟨r2, hr2, k1, k2⟩ := hrest rfl false
  rw [hr1]
  simp only [Option.map, Option.bind, hr2]
  rw [a, k1, k2]
  exact ⟨rfl, rfl⟩

theorem to_unsigned_of_lt (x : Int) (h0 : 0 ≤ x) (h1 : x < 2 ^ 32) :
    to_unsigned x = x.toNat := by
  unfold to_unsigned
  rw [Int.emod_eq_of_lt h0 h1]

theorem bytes_exact (n : Int) (S : Nat) (hn : 0 < n) (hS : 0 < S)
    (hw : n * (S : Int) < 2 ^ 32) :
    0 < to_unsigned (n * (S : Int)) ∧ ((to_unsigned (n * (S : Int)) / S : Nat) : Int) = n := by
  have hS1 : (0 : Int) < (S : Int) := by exact_mod_cast hS
  have h0 : 0 ≤ n * (S : Int) := by positivity
  have hpos : 0 < n * (S : Int) := by positivity
  rw [to_unsigned_of_lt _ h0 hw]
  refine ⟨by omega, ?_⟩
  have hm : (n * (S : Int)).toNat = n.toNat * S := by
    apply Int.ofNat.inj
    simp only [Int.ofNat_eq_coe]
    rw [Int.toNat_of_nonneg h0]
    push_cast
    rw [Int.toNat_of_nonneg hn.le]
  rw [hm, Nat.mul_div_cancel _ hS, Int.toNat_of_nonneg hn.le]

theorem memcpy_bytes_exact {α : Type} (dst src : CArray α) (n : Int) (S : Nat) (hn : 0 < n)
    (hS : 0 < S) (hw : n * (S : Int) < 2 ^ 32) :
    memcpy_bytes dst src (to_unsigned (n * (S : Int))) S = memcpy_elems dst src n := by
  unfold memcpy_bytes
  rw [(bytes_exact n S hn hS hw).2]

theorem PHG_SCRATCH_SPACE_ok (X : Ext σ) (s : Phg σ) (size : Nat)
    (hg : size ≤ s.scratch.size ∨ X.alloc_ok s.n_alloc = true) :
    (PHG_SCRATCH_SPACE X s size).1 = true ∧
    (PHG_SCRATCH_SPACE X s size).2.scratch.points = s.scratch.points ∧
    (PHG_SCRATCH_SPACE X s size).2.scratch.path = s.scratch.path ∧
    (PHG_SCRATCH_SPACE X s size).2.scratch.chars = s.scratch.chars := by
  unfold PHG_SCRATCH_SPACE
  by_cases h1 : size ≤ s.scratch.size
  · rw [if_pos h1]
    exact ⟨rfl, rfl, rfl, rfl⟩
  · have h2 : X.alloc_ok s.n_alloc = true := hg.resolve_left h1
    rw [if_neg h1, if_pos h2]
    exact ⟨rfl, rfl, rfl, rfl⟩

theorem poll_switch_stroke (X : Ext σ) (e : Sin_input_event) (ret : Phg_ret) (s : Phg σ)
    (live : Bool)
    (hc : ret.inp_event.id.in_class = Pin_class.PIN_STROKE)
    (hn : 0 < e.data.stroke.num_points) (hS : 0 < X.sizeof_Ppoint3)
    (hw : e.data.stroke.num_points * (X.sizeof_Ppoint3 : Int) < 2 ^ 32)
    (hg : to_unsigned (e.data.stroke.num_points * (X.sizeof_Ppoint3 : Int)) ≤ s.scratch.size ∨
      X.alloc_ok s.n_alloc = true) :
    ∃ r, poll_switch X e ret s live = some r ∧
      r.1 =
        set_ed ret { ret.inp_event.data with
                     stk := { e.data.stroke with
                              points := memcpy_elems s.scratch.points e.data.stroke.points
                                          e.data.stroke.num_points } } ∧
      r.2.scratch.points =
        memcpy_elems s.scratch.points e.data.stroke.points e.data.stroke.num_points ∧
      r.2.ds = s.ds := by
  obtain ⟨hb, _⟩ := bytes_exact _ _ hn hS hw
  have hm := memcpy_bytes_exact s.scratch.points e.data.stroke.points _ _ hn hS hw
  obtain ⟨k1, k2, _, _⟩ := PHG_SCRATCH_SPACE_ok X s _ hg
  have kf := (PHG_SCRATCH_SPACE_frame X s
    (to_unsigned (e.data.stroke.num_points * (X.sizeof_Ppoint3 : Int)))).1
  simp only [poll_switch, hc, gt_iff_lt, hb, if_true, k1, k2, hm, Bool.true_eq_false,
    if_false]
  exact ⟨_, rfl, rfl, rfl, kf⟩

theorem poll_switch_pick (X : Ext σ) (e : Sin_input_event) (ret : Phg_ret) (s : Phg σ)
    (live : Bool)
    (hc : ret.inp_event.id.in_class = Pin_class.PIN_PICK)
    (hk : e.data.pick.status = Pin_status.PIN_STATUS_OK)
    (hn : 0 < e.data.pick.pick_path.depth) (hS : 0 < X.sizeof_Ppick_path_elem)
    (hw : e.data.pick.pick_path.depth * (X.sizeof_Ppick_path_elem : Int) < 2 ^ 32)
    (hg : to_unsigned (e.data.pick.pick_path.depth * (X.sizeof_Ppick_path_elem : Int))
        ≤ s.scratch.size ∨ X.alloc_ok s.n_alloc = true) :
    ∃ r, poll_switch X e ret s live = some r ∧
      r.1 =
        set_ed ret { ret.inp_event.data with
                     pik := { e.data.pick with
                              pick_path :=
                                { e.data.pick.pick_path with
                                  path_list := memcpy_elems s.scratch.path
                                                 e.data.pick.pick_path.path_list
                                                 e.data.pick.pick_path.depth } } } ∧
      r.2.scratch.path =
        memcpy_elems s.scratch.path e.data.pick.pick_path.path_list
          e.data.pick.pick_path.depth ∧
      r.2.ds = s.ds := by
  obtain ⟨hb, _⟩ := bytes_exact _ _ hn hS hw
  have hm := memcpy_bytes_exact s.scratch.path e.data.pick.pick_path.path_list _ _ hn hS hw
  obtain ⟨k1, _, k2, _⟩ := PHG_SCRATCH_SPACE_ok X s _ hg
  have kf := (PHG_SCRATCH_SPACE_frame X s
    (to_unsigned (e.data.pick.pick_path.depth * (X.sizeof_Ppick_path_elem : Int)))).1
  simp only [poll_switch, hc, hk, gt_iff_lt, hb, if_true, k1, k2, hm, Bool.true_eq_false,
    if_false]
  exact ⟨_, rfl, rfl, rfl, kf⟩

theorem poll_switch_string (X : Ext σ) (e : Sin_input_event) (ret : Phg_ret) (s : Phg σ)
    (live : Bool)
    (hc : ret.inp_event.id.in_class = Pin_class.PIN_STRING)
    (hn : 0 < e.data.string.length) (hw : e.data.string.length < 2 ^ 32)
    (hg : to_unsigned e.data.string.length ≤ s.scratch.size ∨ X.alloc_ok s.n_alloc = true) :
    ∃ r, poll_switch X e ret s live = some r ∧
      r.1 =
        set_ed ret { ret.inp_event.data with
                     str := { e.data.string with
                              string := memcpy_elems s.scratch.chars e.data.string.string
                                          e.data.string.length } } ∧
      r.2.scratch.chars =
        memcpy_elems s.scratch.chars e.data.string.string e.data.string.length ∧
      r.2.ds = s.ds := by
  have hw1 : e.data.string.length * ((1 : Nat) : Int) < 2 ^ 32 := by simpa using hw
  obtain ⟨hb, _⟩ := bytes_exact _ 1 hn Nat.one_pos hw1
  have hm := memcpy_bytes_exact s.scratch.chars e.data.string.string _ 1 hn Nat.one_pos hw1
  simp only [Nat.cast_one, mul_one] at hb hm
  obtain ⟨k1, _, _, k2⟩ := PHG_SCRATCH_SPACE_ok X s _ hg
  have kf := (PHG_SCRATCH_SPACE_frame X s (to_unsigned e.data.string.length)).1
  simp only [poll_switch, hc, gt_iff_lt, hb, if_true, k1, k2, hm, Bool.true_eq_false,
    if_false]
  exact ⟨_, rfl, rfl, rfl, kf⟩

/-- C13 fails as stated for payloads whose byte size does not fit the
`unsigned` variable `size`: a queued stroke event of 357913942 points of 12
bytes has the size 4294967304, which the code reduces to 8. The arena
growth succeeds and `err` is 0, the returned event announces 357913942
points, but no whole point is copied: element 1 of the arena has the
coordinate `x = 0`, element 1 of the payload has `x = 2`. -/
theorem C13_counterexample :
    (inp_event_poll (ex_ext true) (ex_phg_q [ex_stroke_event 357913942] false) ex_ret
        true).map (fun r => (r.1.err, r.1.inp_event.data.stk.num_points))
      = some (0, 357913942) ∧
    (inp_event_poll (ex_ext true) (ex_phg_q [ex_stroke_event 357913942] false) ex_ret
        true).map (fun r => (r.2.scratch.points 1).x) = some 0 ∧
    ((ex_stroke_event 357913942).data.stroke.points 1).x = 2 := by
  refine ⟨rfl, rfl, ?_⟩
  norm_num [ex_stroke_event, ex_points]

/-- C13 as amended: for a Stroke, Pick (status OK) or String event `e` at the
head of the queue that carries `n > 0` elements whose byte size
`n * sizeof(element)` is below `2 ^ 32` (the range of the `unsigned` size),
if the scratch arena has that capacity or the allocator grants its growth,
then `inp_event_poll` returns, with `err = 0` and an event with the
workstation id, device number and class of `e` and the element count `n`,
whose payload is the content of the scratch arena; the first `n` elements of
the arena are those of the payload of `e`, and `e` is removed from the
queue. -/
theorem C13_poll_round_trip (X : Ext σ) (s : Phg σ) (ret : Phg_ret) (live : Bool)
    (e : Sin_input_event) (rest : List Sin_input_event)
    (h : s.ds.input_q.events = e :: rest) :
    (e.dev_class = Pin_class.PIN_STROKE →
      0 < e.data.stroke.num_points → 0 < X.sizeof_Ppoint3 →
      e.data.stroke.num_points * (X.sizeof_Ppoint3 : Int) < 2 ^ 32 →
      (to_unsigned (e.data.stroke.num_points * (X.sizeof_Ppoint3 : Int)) ≤ s.scratch.size ∨
        X.alloc_ok s.n_alloc = true) →
      ∃ r, inp_event_poll X s ret live = some r ∧
        r.1.err = 0 ∧
        r.1.inp_event.id = { ws := e.wsid, dev := e.dev_num, in_class := e.dev_class } ∧
        r.1.inp_event.data.stk.view_ind = e.data.stroke.view_ind ∧
        r.1.inp_event.data.stk.num_points = e.data.stroke.num_points ∧
        r.1.inp_event.data.stk.points = r.2.scratch.points ∧
        (∀ i : Nat, (i : Int) < e.data.stroke.num_points →
          r.2.scratch.points i = e.data.stroke.points i) ∧
        r.2.ds.input_q.events = rest) ∧
    (e.dev_class = Pin_class.PIN_PICK →
      e.data.pick.status = Pin_status.PIN_STATUS_OK →
      0 < e.data.pick.pick_path.depth → 0 < X.sizeof_Ppick_path_elem →
      e.data.pick.pick_path.depth * (X.sizeof_Ppick_path_elem : Int) < 2 ^ 32 →
      (to_unsigned (e.data.pick.pick_path.depth * (X.sizeof_Ppick_path_elem : Int))
          ≤ s.scratch.size ∨ X.alloc_ok s.n_alloc = true) →
      ∃ r, inp_event_poll X s ret live = some r ∧
        r.1.err = 0 ∧
        r.1.inp_event.id = { ws := e.wsid, dev := e.dev_num, in_class := e.dev_class } ∧
        r.1.inp_event.data.pik.status = Pin_status.PIN_STATUS_OK ∧
        r.1.inp_event.data.pik.pick_path.depth = e.data.pick.pick_path.depth ∧
        r.1.inp_event.data.pik.pick_path.path_list = r.2.scratch.path ∧
        (∀ i : Nat, (i : Int) < e.data.pick.pick_path.depth →
          r.2.scratch.path i = e.data.pick.pick_path.path_list i) ∧
        r.2.ds.input_q.events = rest) ∧
    (e.dev_class = Pin_class.PIN_STRING →
      0 < e.data.string.length → e.data.string.length < 2 ^ 32 →
      (to_unsigned e.data.string.length ≤ s.scratch.size ∨ X.alloc_ok s.n_alloc = true) →
      ∃ r, inp_event_poll X s ret live = some r ∧
        r.1.err = 0 ∧
        r.1.inp_event.id = { ws := e.wsid, dev := e.dev_num, in_class := e.dev_class } ∧
        r.1.inp_event.data.str.length = e.data.string.length ∧
        r.1.inp_event.data.str.string = r.2.scratch.chars ∧
        (∀ i : Nat, (i : Int) < e.data.string.length →
          r.2.scratch.chars i = e.data.string.string i) ∧
        r.2.ds.input_q.events = rest) := by
  have hp := poll_cons X s ret live e rest h
  obtain ⟨hs1, hs2, _, _, _, hs6, _⟩ := poll_enter_state_frame s e rest h
  refine ⟨?_, ?_, ?_⟩
  · intro hc hn hS hw hg
    obtain ⟨p, hsw, a, b, c⟩ := poll_switch_stroke X e (poll_enter_ret ret e)
      (poll_enter_state s e) live hc hn hS hw (by rw [hs1, hs2]; exact hg)
    rw [hp, hsw]
    refine ⟨_, rfl, ?_, ?_, ?_, ?_, ?_, ?_, ?_⟩
    · show p.1.err = 0
      rw [a]; rfl
    · show p.1.inp_event.id = _
      rw [a]; rfl
    · show p.1.inp_event.data.stk.view_ind = _
      rw [a]; rfl
    · show p.1.inp_event.data.stk.num_points = _
      rw [a]; rfl
    · show p.1.inp_event.data.stk.points = p.2.scratch.points
      rw [a, b, hs1]; rfl
    · intro i hi
      show p.2.scratch.points i = _
      rw [b]
      simp [memcpy_elems, hi]
    · simp [set_input_q, phg_sin_q_deque_event, c, hs6]
  · intro hc hk hn hS hw hg
    obtain ⟨p, hsw, a, b, c⟩ := poll_switch_pick X e (poll_enter_ret ret e)
      (poll_enter_state s e) live hc hk hn hS hw (by rw [hs1, hs2]; exact hg)
    rw [hp, hsw]
    refine ⟨_, rfl, ?_, ?_, ?_, ?_, ?_, ?_, ?_⟩
    · show p.1.err = 0
      rw [a]; rfl
    · show p.1.inp_event.id = _
      rw [a]; rfl
    · show p.1.inp_event.data.pik.status = _
      rw [a]; exact hk
    · show p.1.inp_event.data.pik.pick_path.depth = _
      rw [a]; rfl
    · show p.1.inp_event.data.pik.pick_path.path_list = p.2.scratch.path
      rw [a, b, hs1]; rfl
    · intro i hi
      show p.2.scratch.path i = _
      rw [b]
      simp [memcpy_elems, hi]
    · simp [set_input_q, phg_sin_q_deque_event, c, hs6]
  · intro hc hn hw hg
    obtain ⟨p, hsw, a, b, c⟩ := poll_switch_string X e (poll_enter_ret ret e)
      (poll_enter_state s e) live hc hn hw (by rw [hs1, hs2]; exact hg)
    rw [hp, hsw]
    refine ⟨_, rfl, ?_, ?_, ?_, ?_, ?_, ?_⟩
    · show p.1.err = 0
      rw [a]; rfl
    · show p.1.inp_event.id = _
      rw [a]; rfl
    · show p.1.inp_event.data.str.length = _
      rw [a]; rfl
    · show p.1.inp_event.data.str.string = p.2.scratch.chars
      rw [a, b, hs1]; rfl
    · intro i hi
      show p.2.scratch.chars i = _
      rw [b]
      simp [memcpy_elems, hi]
    · simp [set_input_q, phg_sin_q_deque_event, c, hs6]

/-- C13 (amended) at a concrete state: a stroke event of 2 points is polled
from the queue of `ex_phg`; the arena grows, the returned points are the
arena, and its first two elements are the two points of the payload. -/
theorem C13_poll_round_trip_witness :
    ∃ r, inp_event_poll (ex_ext true) (ex_phg_q [ex_stroke_event 2] false) ex_ret false
        = some r ∧
      r.1.err = 0 ∧ r.1.inp_event.data.stk.num_points = 2 ∧
      r.1.inp_event.data.stk.points = r.2.scratch.points ∧
      (∀ i : Nat, (i : Int) < 2 → r.2.scratch.points i = ex_points i) ∧
      r.2.ds.input_q.events = [] := by
  obtain ⟨r, hr, h1, _, _, h4, h5, h6, h7⟩ :=
    (C13_poll_round_trip (ex_ext true) (ex_phg_q [ex_stroke_event 2] false) ex_ret false
      (ex_stroke_event 2) [] rfl).1 rfl (by decide) (by decide) (by decide) (Or.inr rfl)
  exact ⟨r, hr, h1, h4, h5, h6, h7⟩

/-! ## Failure of the scratch arena growth -/

theorem check_failed_frame (s : Phg σ) (fn_id : Pfn) (err : Pint) :
    (check_failed s fn_id err).ds = s.ds ∧ (check_failed s fn_id err).psl = s.psl ∧
    (check_failed s fn_id err).scratch = s.scratch ∧
    (check_failed s fn_id err).log = s.log ++ [Effect.set_cur_func fn_id, Effect.report err] ∧
    reported (check_failed s fn_id err).log = reported s.log ++ [err] := by
  simp [check_failed, ERR_REPORT, ERR_SET_CUR_FUNC, emit, reported_append, reported]

theorem check_event_class_closed (s : Phg σ) (c : Pin_class) (fn_id : Pfn)
    (h : s.psl.ws_state ≠ Pws_st.PWS_ST_WSOP) :
    check_event_class s c fn_id = (false, check_failed s fn_id ERR3) := by
  simp [check_event_class, check_failed, ERR_REPORT, ERR_SET_CUR_FUNC, emit, h]

theorem check_event_class_mismatch (s : Phg σ) (c : Pin_class) (fn_id : Pfn)
    (h : s.psl.ws_state = Pws_st.PWS_ST_WSOP) (hc : s.psl.cur_event.id.in_class ≠ c) :
    check_event_class s c fn_id = (false, check_failed s fn_id ERR259) := by
  simp [check_event_class, check_failed, ERR_REPORT, ERR_SET_CUR_FUNC, emit, h, hc]

theorem check_event_class_false (s : Phg σ) (c : Pin_class) (fn_id : Pfn)
    (hc : s.psl.cur_event.id.in_class ≠ c) :
    (check_event_class s c fn_id).1 = false := by
  by_cases h : s.psl.ws_state = Pws_st.PWS_ST_WSOP
  · rw [check_event_class_mismatch s c fn_id h hc]
  · rw [check_event_class_closed s c fn_id h]

/-- C15 fails as stated: with every workstation closed and no current event
(class `PIN_NONE`), `pget_pick` reports nothing and writes
`PIN_STATUS_NO_IN` over the caller's status `PIN_STATUS_NONE`; with a current
event of class pick, `pget_val` reports ERR3 and writes 0 over the caller's
value 5. -/
theorem C15_counterexample :
    reported (pget_pick ex_phg_closed 0 ex_pick_out).2.log = [] ∧
    ex_pick_out.in_status = Pin_status.PIN_STATUS_NONE ∧
    (pget_pick ex_phg_closed 0 ex_pick_out).1.in_status = Pin_status.PIN_STATUS_NO_IN ∧
    reported (pget_val ex_phg_pick_closed 5).2.log = [ERR3] ∧
    (pget_val ex_phg_pick_closed 5).1 = 0 := by
  refine ⟨?_, ?_, ?_, ?_, ?_⟩ <;> rfl

/-- C15 as amended: when the workstation state is not "workstation open",
`pawait_event` (for any fuel, timeout and locals) and `pget_loc`, `pget_loc3`,
`pget_stroke`, `pget_stroke3` return their outputs unwritten in the state
`check_failed s fn ERR3`, which differs from `s` only by the log entries of
`ERR_SET_CUR_FUNC` and of the report of ERR3 (driver state with the queue,
state list with the current event, and scratch arena are those of `s`).
`pget_pick`, `pget_val` and `pget_choice` do the same only when the class of
the current event is not `PIN_NONE`, except that `pget_val` then writes 0;
when the class is `PIN_NONE` they leave the state exactly as it was,
`pget_pick` writes `PIN_STATUS_NO_IN` to the status, and `pget_val` and
`pget_choice` write nothing. -/
theorem C15_ws_not_open (X : Ext σ) (s : Phg σ) (h : s.psl.ws_state ≠ Pws_st.PWS_ST_WSOP)
    (fuel : Nat) (timeout : Pfloat) (out : Await_out) (L : Await_locals)
    (o2 : Sample_loc_out) (o3 : Sample_loc3_out) (k2 : Sample_stroke_out)
    (k3 : Sample_stroke3_out) (depth : Pint) (op : Pick_out) (val : Pfloat)
    (oc : Req_choice_out) :
    pawait_event X fuel s timeout out L = some (out, check_failed s Pfn.Pfn_await_event ERR3) ∧
    pget_loc s o2 = (o2, check_failed s Pfn.Pfn_get_loc ERR3) ∧
    pget_loc3 s o3 = (o3, check_failed s Pfn.Pfn_get_loc3 ERR3) ∧
    pget_stroke s k2 = (k2, check_failed s Pfn.Pfn_get_stroke ERR3) ∧
    pget_stroke3 s k3 = (k3, check_failed s Pfn.Pfn_get_stroke3 ERR3) ∧
    (s.psl.cur_event.id.in_class ≠ Pin_class.PIN_NONE →
      pget_pick s depth op = (op, check_failed s Pfn.Pfn_get_pick ERR3) ∧
      pget_val s val = (0, check_failed s Pfn.Pfn_get_val ERR3) ∧
      pget_choice s oc = (oc, check_failed s Pfn.Pfn_get_choice ERR3)) ∧
    (s.psl.cur_event.id.in_class = Pin_class.PIN_NONE →
      pget_pick s depth op = ({ op with in_status := Pin_status.PIN_STATUS_NO_IN }, s) ∧
      pget_val s val = (val, s) ∧
      pget_choice s oc = (oc, s)) ∧
    (∀ fn_id, (check_failed s fn_id ERR3).ds = s.ds ∧
      (check_failed s fn_id ERR3).psl = s.psl ∧
      (check_failed s fn_id ERR3).scratch = s.scratch ∧
      (check_failed s fn_id ERR3).log =
        s.log ++ [Effect.set_cur_func fn_id, Effect.report ERR3]) := by
  refine ⟨?_, ?_, ?_, ?_, ?_, ?_, ?_, ?_⟩
  · have h0 : (ERR_SET_CUR_FUNC Pfn.Pfn_await_event s).psl.ws_state ≠ Pws_st.PWS_ST_WSOP := h
    unfold pawait_event
    simp only [h0, ne_eq, not_false_eq_true, if_true]
    rfl
  · simp [pget_loc, check_event_class_closed s _ _ h]
  · simp [pget_loc3, check_event_class_closed s _ _ h]
  · simp [pget_stroke, check_event_class_closed s _ _ h]
  · simp [pget_stroke3, check_event_class_closed s _ _ h]
  · intro hc
    refine ⟨?_, ?_, ?_⟩
    · simp [pget_pick, check_event_class_closed s _ _ h, hc]
    · simp [pget_val, check_event_class_closed s _ _ h, hc]
    · simp [pget_choice, check_event_class_closed s _ _ h, hc]
  · intro hc
    refine ⟨?_, ?_, ?_⟩
    · simp [pget_pick, hc]
    · simp [pget_val, hc]
    · simp [pget_choice, hc]
  · intro fn_id
    have hf := check_failed_frame s fn_id ERR3
    exact ⟨hf.1, hf.2.1, hf.2.2.1, hf.2.2.2.1⟩

/-- C15 (amended) at a concrete state: `pawait_event` and `pget_loc3` on the
state `ex_phg_closed`. -/
theorem C15_ws_not_open_witness :
    (pawait_event (ex_ext true) 0 ex_phg_closed 1 ex_await_out ex_locals).map
      (fun r => (r.1, reported r.2.log)) = some (ex_await_out, [ERR3]) ∧
    reported (pget_loc3 ex_phg_closed ex_loc3_out).2.log = [ERR3] := by
  have hw := C15_ws_not_open (ex_ext true) ex_phg_closed (by decide) 0 1
    ex_await_out ex_locals ex_loc_out ex_loc3_out ex_stroke_out ex_stroke3_out 0 ex_pick_out 0
    ex_choice_out
  refine ⟨?_, ?_⟩
  · rw [hw.1]; rfl
  · rw [hw.2.2.1]; rfl

/-! ## Class mismatch in the get functions -/

/-- C19 fails as stated: with workstation 1 open and no current event (class
`PIN_NONE`), `pget_pick`, `pget_val` and `pget_choice` report nothing. -/
theorem C19_counterexample :
    ex_phg.psl.ws_state = Pws_st.PWS_ST_WSOP ∧
    ex_phg.psl.cur_event.id.in_class = Pin_class.PIN_NONE ∧
    reported (pget_pick ex_phg 0 ex_pick_out).2.log = [] ∧
    reported (pget_val ex_phg 5).2.log = [] ∧
    reported (pget_choice ex_phg ex_choice_out).2.log = [] := by
  refine ⟨?_, ?_, ?_, ?_, ?_⟩ <;> rfl

/-- C19 as amended: with the workstation state "workstation open", a call of
`pget_loc`, `pget_loc3`, `pget_stroke` or `pget_stroke3` while the class of
the current event differs from the function's class (`PIN_NONE` included)
ends in the state `check_failed s fn ERR259`, whose log is that of `s` plus
`ERR_SET_CUR_FUNC` and one report of ERR259; `pget_pick`, `pget_val` and
`pget_choice` do so when the class of the current event differs from theirs
and is not `PIN_NONE`, and leave the state as it was, reporting nothing, when
it is `PIN_NONE`. -/
theorem C19_wrong_event_class (s : Phg σ) (h : s.psl.ws_state = Pws_st.PWS_ST_WSOP)
    (o2 : Sample_loc_out) (o3 : Sample_loc3_out) (k2 : Sample_stroke_out)
    (k3 : Sample_stroke3_out) (depth : Pint) (op : Pick_out) (val : Pfloat)
    (oc : Req_choice_out) :
    (s.psl.cur_event.id.in_class ≠ Pin_class.PIN_LOC →
      (pget_loc s o2).2 = check_failed s Pfn.Pfn_get_loc ERR259 ∧
      (pget_loc3 s o3).2 = check_failed s Pfn.Pfn_get_loc3 ERR259) ∧
    (s.psl.cur_event.id.in_class ≠ Pin_class.PIN_STROKE →
      (pget_stroke s k2).2 = check_failed s Pfn.Pfn_get_stroke ERR259 ∧
      (pget_stroke3 s k3).2 = check_failed s Pfn.Pfn_get_stroke3 ERR259) ∧
    (s.psl.cur_event.id.in_class ≠ Pin_class.PIN_NONE →
      (s.psl.cur_event.id.in_class ≠ Pin_class.PIN_PICK →
        (pget_pick s depth op).2 = check_failed s Pfn.Pfn_get_pick ERR259) ∧
      (s.psl.cur_event.id.in_class ≠ Pin_class.PIN_VAL →
        (pget_val s val).2 = check_failed s Pfn.Pfn_get_val ERR259) ∧
      (s.psl.cur_event.id.in_class ≠ Pin_class.PIN_CHOICE →
        (pget_choice s oc).2 = check_failed s Pfn.Pfn_get_choice ERR259)) ∧
    (s.psl.cur_event.id.in_class = Pin_class.PIN_NONE →
      (pget_pick s depth op).2 = s ∧ (pget_val s val).2 = s ∧ (pget_choice s oc).2 = s) ∧
    (∀ fn_id, reported (check_failed s fn_id ERR259).log = reported s.log ++ [ERR259]) := by
  refine ⟨?_, ?_, ?_, ?_, ?_⟩
  · intro hc
    constructor
    · simp [pget_loc, check_event_class_mismatch s _ _ h hc]
    · simp [pget_loc3, check_event_class_mismatch s _ _ h hc]
  · intro hc
    constructor
    · simp [pget_stroke, check_event_class_mismatch s _ _ h hc]
    · simp [pget_stroke3, check_event_class_mismatch s _ _ h hc]
  · intro hn
    refine ⟨?_, ?_, ?_⟩
    · intro hc
      simp [pget_pick, check_event_class_mismatch s _ _ h hc, hn]
    · intro hc
      simp [pget_val, check_event_class_mismatch s _ _ h hc, hn]
    · intro hc
      simp [pget_choice, check_event_class_mismatch s _ _ h hc, hn]
  · intro hn
    refine ⟨?_, ?_, ?_⟩
    · simp [pget_pick, hn]
    · simp [pget_val, hn]
    · simp [pget_choice, hn]
  · intro fn_id
    exact (check_failed_frame s fn_id ERR259).2.2.2.2

/-- C19 (amended) at concrete states: `pget_loc3` with no current event, and
`pget_val` with a current event of class pick, each report ERR259 once. -/
theorem C19_wrong_event_class_witness :
    reported (pget_loc3 ex_phg ex_loc3_out).2.log = [ERR259] ∧
    reported (pget_val ex_phg_pick 5).2.log = [ERR259] := by
  have hw := C19_wrong_event_class ex_phg rfl
    ex_loc_out ex_loc3_out ex_stroke_out ex_stroke3_out 0 ex_pick_out 5 ex_choice_out
  have hv := C19_wrong_event_class ex_phg_pick rfl
    ex_loc_out ex_loc3_out ex_stroke_out ex_stroke3_out 0 ex_pick_out 5 ex_choice_out
  refine ⟨?_, ?_⟩
  · rw [(hw.1 (by decide)).2]; rfl
  · rw [(hv.2.2.1 (by decide)).2.1 (by decide)]; rfl

/-- C20 fails as stated: with no current event (class `PIN_NONE`),
`pget_pick` writes `PIN_STATUS_NO_IN` over the caller's status
`PIN_STATUS_NONE`; with a current event of class pick, `pget_val` writes 0
over the caller's value 5. -/
theorem C20_counterexample :
    ex_phg.psl.cur_event.id.in_class ≠ Pin_class.PIN_PICK ∧
    ex_pick_out.in_status = Pin_status.PIN_STATUS_NONE ∧
    (pget_pick ex_phg 0 ex_pick_out).1.in_status = Pin_status.PIN_STATUS_NO_IN ∧
    ex_phg_pick.psl.cur_event.id.in_class ≠ Pin_class.PIN_VAL ∧
    (pget_val ex_phg_pick 5).1 = 0 := by
  refine ⟨by decide, rfl, rfl, by decide, rfl⟩

/-- C20 as amended: when the class of the current event differs from the
function's class, `pget_loc`, `pget_loc3`, `pget_stroke`, `pget_stroke3` and
`pget_choice` return their outputs exactly as they were; `pget_pick` leaves
the pick path as it was, and the status too unless the class of the current
event is `PIN_NONE`, in which case the status becomes `PIN_STATUS_NO_IN`;
`pget_val` leaves the value as it was when the class of the current event is
`PIN_NONE` and writes 0 otherwise. -/
theorem C20_outputs_on_mismatch (s : Phg σ)
    (o2 : Sample_loc_out) (o3 : Sample_loc3_out) (k2 : Sample_stroke_out)
    (k3 : Sample_stroke3_out) (depth : Pint) (op : Pick_out) (val : Pfloat)
    (oc : Req_choice_out) :
    (s.psl.cur_event.id.in_class ≠ Pin_class.PIN_LOC →
      (pget_loc s o2).1 = o2 ∧ (pget_loc3 s o3).1 = o3) ∧
    (s.psl.cur_event.id.in_class ≠ Pin_class.PIN_STROKE →
      (pget_stroke s k2).1 = k2 ∧ (pget_stroke3 s k3).1 = k3) ∧
    (s.psl.cur_event.id.in_class ≠ Pin_class.PIN_CHOICE → (pget_choice s oc).1 = oc) ∧
    (s.psl.cur_event.id.in_class ≠ Pin_class.PIN_PICK →
      (pget_pick s depth op).1.pick = op.pick ∧
      (s.psl.cur_event.id.in_class ≠ Pin_class.PIN_NONE → (pget_pick s depth op).1 = op) ∧
      (s.psl.cur_event.id.in_class = Pin_class.PIN_NONE →
        (pget_pick s depth op).1.in_status = Pin_status.PIN_STATUS_NO_IN)) ∧
    (s.psl.cur_event.id.in_class ≠ Pin_class.PIN_VAL →
      (s.psl.cur_event.id.in_class = Pin_class.PIN_NONE → (pget_val s val).1 = val) ∧
      (s.psl.cur_event.id.in_class ≠ Pin_class.PIN_NONE → (pget_val s val).1 = 0)) := by
  refine ⟨?_, ?_, ?_, ?_, ?_⟩
  · intro hc
    constructor
    · simp [pget_loc, check_event_class_false s _ _ hc]
    · simp [pget_loc3, check_event_class_false s _ _ hc]
  · intro hc
    constructor
    · simp [pget_stroke, check_event_class_false s _ _ hc]
    · simp [pget_stroke3, check_event_class_false s _ _ hc]
  · intro hc
    unfold pget_choice
    split_ifs <;> simp_all [check_event_class_false s _ _ hc]
  · intro hc
    refine ⟨?_, ?_, ?_⟩
    · unfold pget_pick
      split_ifs <;> simp_all [check_event_class_false s _ _ hc]
    · intro hn
      simp [pget_pick, check_event_class_false s _ _ hc, hn]
    · intro hn
      simp [pget_pick, hn]
  · intro hc
    constructor
    · intro hn
      simp [pget_val, hn]
    · intro hn
      simp [pget_val, check_event_class_false s _ _ hc, hn]

/-- C20 (amended) at concrete states: with a current event of class pick,
`pget_loc3` and `pget_choice` return the caller's storage as it was. -/
theorem C20_outputs_on_mismatch_witness :
    (pget_loc3 ex_phg_pick ex_loc3_out).1 = ex_loc3_out ∧
    (pget_choice ex_phg_pick ex_choice_out).1 = ex_choice_out := by
  have hw := C20_outputs_on_mismatch ex_phg_pick
    ex_loc_out ex_loc3_out ex_stroke_out ex_stroke3_out 0 ex_pick_out 5 ex_choice_out
  exact ⟨(hw.1 (by decide)).2, hw.2.2.1 (by decide)⟩

/-! ## Await loop -/

theorem timeout_limit_floor (T : Pfloat) (h : 0 ≤ T) : timeout_limit T = ⌊T * 1000⌋ := by
  have h0 : (0 : Rat) ≤ T * 1000 := mul_nonneg h (by norm_num)
  unfold timeout_limit
  rw [if_pos h0]
  rfl

theorem input_ws_open_quiet (s : Phg σ) (ws_id : Pint) (fn_id : Pfn) (e : Pint) :
    (input_ws_open s ws_id fn_id (some e)).st = s := by
  unfold input_ws_open
  simp only [reduceCtorEq, if_false]
  split_ifs
  · rfl
  · split
    · rfl
    · split_ifs <;> rfl

theorem sleep_frame (d : Bool × Phg σ) :
    (if d.1 = false then emit (Effect.msleep 1) d.2 else d.2).psl = d.2.psl ∧
    (if d.1 = false then emit (Effect.msleep 1) d.2 else d.2).n_mtime = d.2.n_mtime ∧
    (if d.1 = false then emit (Effect.msleep 1) d.2 else d.2).ds = d.2.ds ∧
    reported (if d.1 = false then emit (Effect.msleep 1) d.2 else d.2).log
      = reported d.2.log := by
  split_ifs <;> simp [emit, reported_append, reported]

theorem await_round_poll (X : Ext σ) (s : Phg σ) (ret : Phg_ret) (live : Bool) :
    await_round X s ret live =
      (inp_event_poll X
        (if (inp_dispatch_next X Pfn.Pfn_await_event (phg_mtime X s).2).1 = false then
           emit (Effect.msleep 1) (inp_dispatch_next X Pfn.Pfn_await_event (phg_mtime X s).2).2
         else (inp_dispatch_next X Pfn.Pfn_await_event (phg_mtime X s).2).2) ret live).map
        (fun p => { elapsed := (phg_mtime X p.2).1 - (phg_mtime X s).1, ret := p.1,
                    st := (phg_mtime X p.2).2 }) := by
  unfold await_round
  simp only
  cases inp_event_poll X
        (if (inp_dispatch_next X Pfn.Pfn_await_event (phg_mtime X s).2).1 = false then
           emit (Effect.msleep 1) (inp_dispatch_next X Pfn.Pfn_await_event (phg_mtime X s).2).2
         else (inp_dispatch_next X Pfn.Pfn_await_event (phg_mtime X s).2).2) ret live <;> rfl

theorem await_loop_succ (X : Ext σ) (limit : Int) (live : Bool) (fuel : Nat) (time : Int)
    (ret : Phg_ret) (s : Phg σ) :
    await_loop X limit live (fuel + 1) time ret s =
      match await_round X s ret live with
      | none => none
      | some rd =>
        if limit ≤ time + rd.elapsed then some (rd.ret, rd.st)
        else if rd.ret.inp_event.id.in_class = Pin_class.PIN_NONE then
          await_loop X limit live fuel (time + rd.elapsed) rd.ret rd.st
        else some (rd.ret, rd.st) := by
  rw [await_round_poll]
  conv_lhs => unfold await_loop
  simp only [ge_iff_le]
  cases inp_event_poll X
        (if (inp_dispatch_next X Pfn.Pfn_await_event (phg_mtime X s).2).1 = false then
           emit (Effect.msleep 1) (inp_dispatch_next X Pfn.Pfn_await_event (phg_mtime X s).2).2
         else (inp_dispatch_next X Pfn.Pfn_await_event (phg_mtime X s).2).2) ret live <;> rfl

theorem timeout_limit_one : timeout_limit 1 = 1000 := by
  rw [timeout_limit_floor _ (by norm_num), Int.floor_eq_iff]
  constructor <;> norm_num

/-- C17 fails for the locator class: `pawait_event` delivers the locator
event `ex_loc_event` (view index 3, position (1, 2, 3)) of workstation 1,
device 1, from the queue; the following `pget_loc3` passes its checks
(nothing is reported) and returns view index 0 and position (0, 0, 0), the
data the current event held before the call, not the delivered values. -/
theorem C17_locator_data_not_stored :
    (pawait_event (ex_ext true) 1 (ex_phg_q [ex_loc_event] false) 1 ex_await_out ex_locals).map
      (fun r => (r.1, (pget_loc3 r.2 ex_loc3_out).1,
                 reported (pget_loc3 r.2 ex_loc3_out).2.log))
      = some ({ ws_id := 1, dev_class := Pin_class.PIN_LOC, in_num := 1 }, ex_loc3_out, []) ∧
    ex_loc_event.data.locator = { view_ind := 3, position := { x := 1, y := 2, z := 3 } } ∧
    ex_loc3_out = { view_ind := 0, loc_pos := { x := 0, y := 0, z := 0 } } := by
  refine ⟨?_, rfl, rfl⟩
  unfold pawait_event
  rw [timeout_limit_one]
  rfl

/-- C18: when the loop of `pawait_event` has ended with a return record `ret`
(`err = 0`) holding a Stroke event, or a Pick event of status OK, whose
payload has a non-zero byte size, and the allocator refuses the block for
the owned copy, the call returns with the workstation id, class and device
number of the event in its outputs, the log gains exactly one report of
ERR900, the current event has the identity of the event, and its payload is
degraded: `num_points = 0` for Stroke, status `PIN_STATUS_NONE` for Pick. -/
theorem C18_await_alloc_failure (X : Ext σ) (fuel : Nat) (s : Phg σ) (timeout : Pfloat)
    (out : Await_out) (L : Await_locals) (ret : Phg_ret) (s1 : Phg σ)
    (hopen : s.psl.ws_state = Pws_st.PWS_ST_WSOP)
    (hl : await_loop X (timeout_limit timeout) L.stk_live fuel 0 L.ret
            (ERR_SET_CUR_FUNC Pfn.Pfn_await_event s) = some (ret, s1))
    (he : ret.err = 0) (ha : X.alloc_ok s1.n_alloc = false) :
    (ret.inp_event.id.in_class = Pin_class.PIN_STROKE →
      0 < to_unsigned (ret.inp_event.data.stk.num_points * (X.sizeof_Ppoint3 : Int)) →
      ∃ res, pawait_event X fuel s timeout out L = some res ∧
        res.1 = { ws_id := ret.inp_event.id.ws, dev_class := Pin_class.PIN_STROKE,
                  in_num := ret.inp_event.id.dev } ∧
        res.2.log = s1.log ++ [Effect.report ERR900] ∧
        res.2.psl.cur_event.id = ret.inp_event.id ∧
        res.2.psl.cur_event.data.stk.num_points = 0) ∧
    (ret.inp_event.id.in_class = Pin_class.PIN_PICK →
      ret.inp_event.data.pik.status = Pin_status.PIN_STATUS_OK →
      0 < to_unsigned (ret.inp_event.data.pik.pick_path.depth *
                       (X.sizeof_Ppick_path_elem : Int)) →
      ∃ res, pawait_event X fuel s timeout out L = some res ∧
        res.1 = { ws_id := ret.inp_event.id.ws, dev_class := Pin_class.PIN_PICK,
                  in_num := ret.inp_event.id.dev } ∧
        res.2.log = s1.log ++ [Effect.report ERR900] ∧
        res.2.psl.cur_event.id = ret.inp_event.id ∧
        res.2.psl.cur_event.data.pik.status = Pin_status.PIN_STATUS_NONE) := by
  have h0 : (ERR_SET_CUR_FUNC Pfn.Pfn_await_event s).psl.ws_state = Pws_st.PWS_ST_WSOP := hopen
  have hp : pawait_event X fuel s timeout out L = await_finish X L ret s1 out := by
    unfold pawait_event
    simp only [h0, ne_eq, not_true_eq_false, if_false, hl]
  rw [hp]
  constructor
  · intro hc hn
    simp only [await_finish, he, if_true, await_copy, hc, gt_iff_lt, hn, malloc, ha]
    refine ⟨_, rfl, rfl, ?_, ?_, ?_⟩
    · simp [ERR_REPORT, emit]
    · simp [await_store, hc]
    · simp [await_store, hc]
  · intro hc hk hn
    simp only [await_finish, he, if_true, await_copy, hc, hk, gt_iff_lt, hn, malloc, ha]
    refine ⟨_, rfl, rfl, ?_, ?_, ?_⟩
    · simp [ERR_REPORT, emit]
    · simp [await_store, hc]
    · simp [await_store, hc]

/-- C18 at a concrete input: a stroke event of 2 points is polled, the
allocator grants the growth of the scratch arena (request 0) and refuses the
block for the owned copy (request 1). -/
theorem C18_await_alloc_failure_witness :
    (pawait_event (ex_ext_alloc [0]) 1 (ex_phg_q [ex_stroke_event 2] false) 1 ex_await_out
        ex_locals).map
      (fun r => (r.1, reported r.2.log, r.2.psl.cur_event.id.in_class,
                 r.2.psl.cur_event.data.stk.num_points))
      = some ({ ws_id := 1, dev_class := Pin_class.PIN_STROKE, in_num := 1 }, [ERR900],
              Pin_class.PIN_STROKE, 0) := by
  have hl : await_loop (ex_ext_alloc [0]) (timeout_limit 1) ex_locals.stk_live 1 0 ex_locals.ret
      (ERR_SET_CUR_FUNC Pfn.Pfn_await_event (ex_phg_q [ex_stroke_event 2] false))
      = some ((ex_polled (ex_ext_alloc [0]) (ex_phg_q [ex_stroke_event 2] false) ex_ret7).1,
              (ex_polled (ex_ext_alloc [0]) (ex_phg_q [ex_stroke_event 2] false) ex_ret7).2) := by
    rw [timeout_limit_one]
    rfl
  obtain ⟨res, h1, h2, h3, h4, h5⟩ :=
    (C18_await_alloc_failure (ex_ext_alloc [0]) 1 (ex_phg_q [ex_stroke_event 2] false) 1
      ex_await_out ex_locals _ _ rfl hl rfl rfl).1 rfl (by decide)
  rw [h1]
  simp only [Option.map]
  rw [h2, h3, h4, h5]
  rfl

/-! ## Delivery of valuator and choice events -/

theorem dispatch_step_psl (X : Ext σ) (fn_id : Pfn) (acc : Bool × Phg σ) (i : Nat) :
    (dispatch_step X fn_id acc i).2.psl = acc.2.psl := by
  unfold dispatch_step
  simp only [input_ws_open_quiet]
  split
  · rfl
  · split_ifs <;> rfl

theorem inp_dispatch_next_psl (X : Ext σ) (fn_id : Pfn) (s : Phg σ) :
    (inp_dispatch_next X fn_id s).2.psl = s.psl := by
  have key : ∀ (l : List Nat) (acc : Bool × Phg σ),
      (l.foldl (dispatch_step X fn_id) acc).2.psl = acc.2.psl := by
    intro l
    induction l with
    | nil => intro acc; rfl
    | cons i l ih =>
      intro acc
      simp only [List.foldl_cons]
      exact (ih _).trans (dispatch_step_psl X fn_id acc i)
  exact key _ (false, s)

theorem inp_event_poll_psl (X : Ext σ) (s : Phg σ) (ret : Phg_ret) (live : Bool)
    (r : Phg_ret × Phg σ) (hr : inp_event_poll X s ret live = some r) :
    r.2.psl = s.psl := by
  cases h : s.ds.input_q.events with
  | nil =>
    obtain ⟨p, hp, _, _, _, _, _, h6, _⟩ := poll_empty X s ret live h
    rw [hp] at hr
    simp only [Option.some.injEq] at hr
    subst hr
    exact h6
  | cons e rest => exact (poll_nonempty X s ret live e rest h r hr).2.2.2.2.1

theorem await_round_psl (X : Ext σ) (s : Phg σ) (ret : Phg_ret) (live : Bool)
    (rd : Await_round σ) (hr : await_round X s ret live = some rd) :
    rd.st.psl = s.psl := by
  rw [await_round_poll] at hr
  have hk := sleep_frame (inp_dispatch_next X Pfn.Pfn_await_event (phg_mtime X s).2)
  have hd := inp_dispatch_next_psl X Pfn.Pfn_await_event (phg_mtime X s).2
  cases hp : inp_event_poll X
        (if (inp_dispatch_next X Pfn.Pfn_await_event (phg_mtime X s).2).1 = false then
           emit (Effect.msleep 1) (inp_dispatch_next X Pfn.Pfn_await_event (phg_mtime X s).2).2
         else (inp_dispatch_next X Pfn.Pfn_await_event (phg_mtime X s).2).2) ret live with
  | none => simp [hp] at hr
  | some p =>
    have h1 := inp_event_poll_psl X _ ret live p hp
    simp only [hp, Option.map, Option.some.injEq] at hr
    subst hr
    show p.2.psl = s.psl
    rw [h1, hk.1, hd]
    rfl

theorem await_loop_psl (X : Ext σ) (limit : Int) (live : Bool) (fuel : Nat) :
    ∀ (time : Int) (ret : Phg_ret) (s : Phg σ) (ret1 : Phg_ret) (s1 : Phg σ),
      await_loop X limit live fuel time ret s = some (ret1, s1) → s1.psl = s.psl := by
  induction fuel with
  | zero => intro time ret s ret1 s1 h; simp [await_loop] at h
  | succ f ih =>
    intro time ret s ret1 s1 h
    rw [await_loop_succ] at h
    cases hr : await_round X s ret live with
    | none => simp [hr] at h
    | some rd =>
      have hp := await_round_psl X s ret live rd hr
      simp only [hr] at h
      split_ifs at h
      · simp only [Option.some.injEq, Prod.mk.injEq] at h
        rw [← h.2]
        exact hp
      · exact (ih _ _ _ _ _ h).trans hp
      · simp only [Option.some.injEq, Prod.mk.injEq] at h
        rw [← h.2]
        exact hp

/-- Delivery of a Valuator or Choice event: when the loop of `pawait_event`
has ended with a return record `ret` (`err = 0`) of class Valuator or Choice,
the call returns the workstation id, class and device number of the event,
reports nothing, and the current event takes the identity of the event; a
following `pget_val` returns the delivered value, and a following
`pget_choice` returns status OK and the delivered choice when the delivered
status is OK, each without a report. -/
theorem await_delivers (X : Ext σ) (fuel : Nat) (s : Phg σ) (timeout : Pfloat)
    (out : Await_out) (L : Await_locals) (ret : Phg_ret) (s1 : Phg σ)
    (hopen : s.psl.ws_state = Pws_st.PWS_ST_WSOP)
    (hl : await_loop X (timeout_limit timeout) L.stk_live fuel 0 L.ret
            (ERR_SET_CUR_FUNC Pfn.Pfn_await_event s) = some (ret, s1))
    (he : ret.err = 0) :
    (ret.inp_event.id.in_class = Pin_class.PIN_VAL →
      ∃ res, pawait_event X fuel s timeout out L = some res ∧
        res.1 = { ws_id := ret.inp_event.id.ws, dev_class := Pin_class.PIN_VAL,
                  in_num := ret.inp_event.id.dev } ∧
        res.2.psl.cur_event.id = ret.inp_event.id ∧
        res.2.log = s1.log ∧
        ∀ val, (pget_val res.2 val).1 = ret.inp_event.data.val ∧
               reported (pget_val res.2 val).2.log = reported s1.log) ∧
    (ret.inp_event.id.in_class = Pin_class.PIN_CHOICE →
      ∃ res, pawait_event X fuel s timeout out L = some res ∧
        res.1 = { ws_id := ret.inp_event.id.ws, dev_class := Pin_class.PIN_CHOICE,
                  in_num := ret.inp_event.id.dev } ∧
        res.2.psl.cur_event.id = ret.inp_event.id ∧
        res.2.log = s1.log ∧
        (ret.inp_event.data.chc.status = Pin_status.PIN_STATUS_OK →
          ∀ oc, (pget_choice res.2 oc).1 = { status := Pin_status.PIN_STATUS_OK,
                                              choice := ret.inp_event.data.chc.choice } ∧
                reported (pget_choice res.2 oc).2.log = reported s1.log)) := by
  have h0 : (ERR_SET_CUR_FUNC Pfn.Pfn_await_event s).psl.ws_state = Pws_st.PWS_ST_WSOP := hopen
  have hp : pawait_event X fuel s timeout out L = await_finish X L ret s1 out := by
    unfold pawait_event
    simp only [h0, ne_eq, not_true_eq_false, if_false, hl]
  have hpsl : s1.psl.ws_state = Pws_st.PWS_ST_WSOP := by
    rw [await_loop_psl X _ L.stk_live fuel 0 L.ret _ ret s1 hl]
    exact hopen
  rw [hp]
  constructor
  · intro hc
    simp only [await_finish, he, if_true, await_copy, hc]
    refine ⟨_, rfl, rfl, ?_, rfl, ?_⟩
    · simp [await_store, hc]
    · intro val
      simp [pget_val, check_event_class, await_store, hc, hpsl, ERR_SET_CUR_FUNC, emit,
        reported_append, reported]
  · intro hc
    simp only [await_finish, he, if_true, await_copy, hc]
    refine ⟨_, rfl, rfl, ?_, rfl, ?_⟩
    · simp [await_store, hc]
    · intro hk oc
      simp [pget_choice, check_event_class, await_store, hc, hpsl, hk, ERR_SET_CUR_FUNC, emit,
        reported_append, reported]

/-- The theorem `await_delivers` at a concrete input: the valuator event
`ex_val_event` with the value 7 is delivered and read back by `pget_val`. -/
theorem await_delivers_witness :
    (pawait_event (ex_ext true) 1 (ex_phg_q [ex_val_event] false) 1 ex_await_out
        ex_locals).map (fun r => (r.1, (pget_val r.2 0).1))
      = some ({ ws_id := 1, dev_class := Pin_class.PIN_VAL, in_num := 1 }, 7) := by
  have hl : await_loop (ex_ext true) (timeout_limit 1) ex_locals.stk_live 1 0 ex_locals.ret
      (ERR_SET_CUR_FUNC Pfn.Pfn_await_event (ex_phg_q [ex_val_event] false))
      = some ((ex_polled (ex_ext true) (ex_phg_q [ex_val_event] false) ex_ret7).1,
              (ex_polled (ex_ext true) (ex_phg_q [ex_val_event] false) ex_ret7).2) := by
    rw [timeout_limit_one]
    rfl
  obtain ⟨res, h1, h2, _, _, h5⟩ :=
    (await_delivers (ex_ext true) 1 (ex_phg_q [ex_val_event] false) 1
      ex_await_out ex_locals _ _ rfl hl rfl).1 rfl
  rw [h1]
  simp only [Option.map]
  rw [h2, (h5 0).1]
  rfl

/-! ## Request engine -/

theorem request_device_err (X : Ext σ) (fuel : Nat) (s : Phg σ) (ws_id dev_num : Pint)
    (dev_class : Phg_args_idev_class) (ret : Phg_ret) (s2 : Phg σ)
    (h : request_device X fuel s ws_id dev_num dev_class = some (ret, s2)) :
    ret.err = 0 := by
  unfold request_device at h
  simp only at h
  split at h
  · simp at h
  · simp only [Option.some.injEq, Prod.mk.injEq] at h
    rw [← h.1]

/-- C30: on a workstation that passes the workstation checks, every return of
`request_device` has `ret.err = 0`, whatever the driver hook stored; and for a
valid device number `preq_loc3` and `preq_stroke3` are `request_device`
followed by the stores of their branch `ret.err == 0` (`req_loc3_store`,
`req_stroke3_store`): the branch for a non-zero `ret.err` is never taken. -/
theorem C30_request_err_zero (X : Ext σ) (fuel : Nat) (s : Phg σ) (ws_id dev : Pint)
    (dt : Wst_phigs_dt) (hws : ws_ok s ws_id dt) :
    (∀ dev_class ret s2, request_device X fuel s ws_id dev dev_class = some (ret, s2) →
      ret.err = 0) ∧
    (∀ out, 0 < dev ∧ dev ≤ dt.in_dt.num_devs.loc →
      preq_loc3 X fuel s ws_id dev out =
        (request_device X fuel (ERR_SET_CUR_FUNC Pfn.Pfn_req_loc3 s) ws_id dev
          Phg_args_idev_class.PHG_ARGS_INP_LOC3).map
          (fun p => (req_loc3_store out p.1.inp_request, p.2))) ∧
    (∀ out, 0 < dev ∧ dev ≤ dt.in_dt.num_devs.stroke →
      preq_stroke3 X fuel s ws_id dev out =
        (request_device X fuel (ERR_SET_CUR_FUNC Pfn.Pfn_req_stroke3 s) ws_id dev
          Phg_args_idev_class.PHG_ARGS_INP_STK3).map
          (fun p => (req_stroke3_store out p.1.inp_request, p.2))) := by
  refine ⟨?_, ?_, ?_⟩
  · intro dev_class ret s2 h
    exact request_device_err X fuel s ws_id dev dev_class ret s2 h
  · intro out hd
    unfold preq_loc3
    simp only [input_ws_open_ok s ws_id _ dt hws, hd, and_self, if_true]
    cases hr : request_device X fuel (ERR_SET_CUR_FUNC Pfn.Pfn_req_loc3 s) ws_id dev
        Phg_args_idev_class.PHG_ARGS_INP_LOC3 with
    | none => rfl
    | some r =>
      obtain ⟨ret, s2⟩ := r
      have he := request_device_err X fuel _ ws_id dev _ ret s2 hr
      simp only [he, if_true, Option.map, req_loc3_store]
      split_ifs <;> rfl
  · intro out hd
    unfold preq_stroke3
    simp only [input_ws_open_ok s ws_id _ dt hws, hd, and_self, if_true]
    cases hr : request_device X fuel (ERR_SET_CUR_FUNC Pfn.Pfn_req_stroke3 s) ws_id dev
        Phg_args_idev_class.PHG_ARGS_INP_STK3 with
    | none => rfl
    | some r =>
      obtain ⟨ret, s2⟩ := r
      have he := request_device_err X fuel _ ws_id dev _ ret s2 hr
      simp only [he, if_true, Option.map, req_stroke3_store]
      split_ifs <;> rfl

/-- C30 at a concrete call: the driver hook stores the error 5 in the return
record; `preq_loc3` still delivers status OK and the view index 3. -/
theorem C30_request_err_zero_witness :
    (preq_loc3 (ex_ext_req Pin_status.PIN_STATUS_OK 5) 1 ex_phg 1 1 ex_req_loc3_out).map
      (fun r => (r.1.in_status, r.1.view_ind))
      = some (Pin_status.PIN_STATUS_OK, 3) ∧
    ((ex_ext_req Pin_status.PIN_STATUS_OK 5).request_device 1
      Phg_args_idev_class.PHG_ARGS_INP_LOC3 1 ex_phg.ds).1.err = 5 := by
  refine ⟨?_, rfl⟩
  rw [(C30_request_err_zero (ex_ext_req Pin_status.PIN_STATUS_OK 5) 1 ex_phg 1 1 ex_dt
    ex_ws_ok).2.1 ex_req_loc3_out (by decide)]
  rfl

/-- C23 fails in the code: on workstation 1 of `ex_phg`, which has one device
of each class, `preq_string`, `preq_choice` and `preq_valuator` with device
number 99 call the driver hook `request_device` and report nothing;
`preq_pick` and `preq_string` with device number 0 do not call the driver but
report nothing either. -/
theorem C23_request_bounds_missing :
    (99 : Pint) > ex_dt.in_dt.num_devs.string ∧
    (preq_string (ex_ext true) 1 ex_phg 1 99 ex_req_string_out).map
      (fun r => (reported r.2.log, request_calls r.2.log))
      = some ([], [(1, Phg_args_idev_class.PHG_ARGS_INP_STR, 99)]) ∧
    (preq_choice (ex_ext true) 1 ex_phg 1 99 ex_choice_out).map
      (fun r => (reported r.2.log, request_calls r.2.log))
      = some ([], [(1, Phg_args_idev_class.PHG_ARGS_INP_CHC, 99)]) ∧
    (preq_valuator (ex_ext true) 1 ex_phg 1 99
        { status := Pin_status.PIN_STATUS_NONE, value := 0 }).map
      (fun r => (reported r.2.log, request_calls r.2.log))
      = some ([], [(1, Phg_args_idev_class.PHG_ARGS_INP_VAL, 99)]) ∧
    (preq_pick (ex_ext true) 1 ex_phg 1 0 3 ex_pick_out).map
      (fun r => (reported r.2.log, request_calls r.2.log)) = some ([], []) ∧
    (preq_string (ex_ext true) 1 ex_phg 1 0 ex_req_string_out).map
      (fun r => (reported r.2.log, request_calls r.2.log)) = some ([], []) := by
  refine ⟨by decide, ?_, ?_, ?_, ?_, ?_⟩ <;> rfl

/-- On a workstation that passes the workstation checks, `preq_loc3` and
`preq_stroke3` with a device number below 1 or above the device count of
their class return for every fuel with the caller storage as it was and a log
that gains the function identifier and one report of ERR250; `preq_pick` with
a device number below 1 or above the locator count, and `preq_string`,
`preq_choice` and `preq_valuator` with a device number below 1, return for
every fuel with the storage as it was and a log that gains the function
identifier only. None of them calls the driver. -/
theorem request_invalid_device_number (X : Ext σ) (fuel : Nat) (s : Phg σ) (ws_id dev : Pint)
    (dt : Wst_phigs_dt) (hws : ws_ok s ws_id dt) :
    (∀ out, (dev < 1 ∨ dev > dt.in_dt.num_devs.loc) →
      preq_loc3 X fuel s ws_id dev out = some (out, check_failed s Pfn.Pfn_req_loc3 ERR250)) ∧
    (∀ out, (dev < 1 ∨ dev > dt.in_dt.num_devs.stroke) →
      preq_stroke3 X fuel s ws_id dev out
        = some (out, check_failed s Pfn.Pfn_req_stroke3 ERR250)) ∧
    (∀ depth out, (dev < 1 ∨ dev > dt.in_dt.num_devs.loc) →
      preq_pick X fuel s ws_id dev depth out
        = some (out, ERR_SET_CUR_FUNC Pfn.Pfn_req_pick s)) ∧
    (∀ out, dev < 1 →
      preq_string X fuel s ws_id dev out = some (out, ERR_SET_CUR_FUNC Pfn.Pfn_req_string s)) ∧
    (∀ out, dev < 1 →
      preq_choice X fuel s ws_id dev out = some (out, ERR_SET_CUR_FUNC Pfn.Pfn_req_choice s)) ∧
    (∀ out, dev < 1 →
      preq_valuator X fuel s ws_id dev out = some (out, ERR_SET_CUR_FUNC Pfn.Pfn_req_val s)) := by
  refine ⟨?_, ?_, ?_, ?_, ?_, ?_⟩
  · intro out hbad
    have hn := out_of_range dev _ hbad
    simp [preq_loc3, input_ws_open_ok s ws_id _ dt hws, hn, check_failed]
  · intro out hbad
    have hn := out_of_range dev _ hbad
    simp [preq_stroke3, input_ws_open_ok s ws_id _ dt hws, hn, check_failed]
  · intro depth out hbad
    have hn := out_of_range dev _ hbad
    simp [preq_pick, input_ws_open_ok s ws_id _ dt hws, hn]
  · intro out hbad
    have hn : ¬ 0 < dev := not_lt.mpr (Int.lt_add_one_iff.mp hbad)
    simp [preq_string, input_ws_open_ok s ws_id _ dt hws, hn]
  · intro out hbad
    have hn : ¬ 0 < dev := not_lt.mpr (Int.lt_add_one_iff.mp hbad)
    simp [preq_choice, input_ws_open_ok s ws_id _ dt hws, hn]
  · intro out hbad
    have hn : ¬ 0 < dev := not_lt.mpr (Int.lt_add_one_iff.mp hbad)
    simp [preq_valuator, input_ws_open_ok s ws_id _ dt hws, hn]

/-- The theorem `request_invalid_device_number` at a concrete call:
`preq_loc3` with device 2 on workstation 1 of `ex_phg`. -/
theorem request_invalid_device_number_witness :
    (preq_loc3 (ex_ext true) 0 ex_phg 1 2 ex_req_loc3_out).map (fun r => r.2.log) =
      some [Effect.set_cur_func Pfn.Pfn_req_loc3, Effect.report ERR250] := by
  rw [(request_invalid_device_number (ex_ext true) 0 ex_phg 1 2 ex_dt ex_ws_ok).1
    ex_req_loc3_out (by decide)]
  rfl

/-! ## Device numbers of the mode setters -/

/-- C24 fails in the code: on workstation 1 of `ex_phg`, which has one device
of each class, `pset_string_mode`, `pset_choice_mode` and `pset_val_mode` with
device number 99 call the driver hook `set_device_mode` and report
nothing. -/
theorem C24_mode_bounds_missing :
    (99 : Pint) > ex_dt.in_dt.num_devs.string ∧
    (99 : Pint) > ex_dt.in_dt.num_devs.choice ∧
    (99 : Pint) > ex_dt.in_dt.num_devs.val ∧
    reported (pset_string_mode (ex_ext true) ex_phg 1 99 Pop_mode.POP_EVENT
      Pecho_switch.PSWITCH_ECHO).log = [] ∧
    mode_calls (pset_string_mode (ex_ext true) ex_phg 1 99 Pop_mode.POP_EVENT
      Pecho_switch.PSWITCH_ECHO).log
      = [{ idev_class := Phg_args_idev_class.PHG_ARGS_INP_STR, dev := 99,
           mode := Pop_mode.POP_EVENT, echo := Pecho_switch.PSWITCH_ECHO }] ∧
    mode_calls (pset_choice_mode (ex_ext true) ex_phg 1 99 Pop_mode.POP_EVENT
      Pecho_switch.PSWITCH_ECHO).log
      = [{ idev_class := Phg_args_idev_class.PHG_ARGS_INP_CHC, dev := 99,
           mode := Pop_mode.POP_EVENT, echo := Pecho_switch.PSWITCH_ECHO }] ∧
    mode_calls (pset_val_mode (ex_ext true) ex_phg 1 99 Pop_mode.POP_EVENT
      Pecho_switch.PSWITCH_ECHO).log
      = [{ idev_class := Phg_args_idev_class.PHG_ARGS_INP_VAL, dev := 99,
           mode := Pop_mode.POP_EVENT, echo := Pecho_switch.PSWITCH_ECHO }] := by
  refine ⟨by decide, by decide, by decide, ?_, ?_, ?_, ?_⟩ <;> rfl

/-- On a workstation that passes the workstation checks, `pset_loc_mode`,
`pset_stroke_mode` and `pset_pick_mode` call `set_mode` exactly when
`1 <= dev <= ` the device count of their class, and `pset_string_mode`,
`pset_choice_mode` and `pset_val_mode` exactly when `1 <= dev`; otherwise the
log gains the function identifier and one report of ERR250. A call of
`set_mode` hands the driver one record with the given class, device number,
operating mode and echo switch and reports nothing. -/
theorem set_mode_device_number (X : Ext σ) (s : Phg σ) (ws_id dev : Pint)
    (dt : Wst_phigs_dt) (hws : ws_ok s ws_id dt) (op_mode : Pop_mode)
    (echo_switch : Pecho_switch) :
    (pset_loc_mode X s ws_id dev op_mode echo_switch =
      if 0 < dev ∧ dev ≤ dt.in_dt.num_devs.loc then
        set_mode X (ERR_SET_CUR_FUNC Pfn.Pfn_set_loc_mode s) ws_id
          Phg_args_idev_class.PHG_ARGS_INP_LOC dev op_mode echo_switch
      else check_failed s Pfn.Pfn_set_loc_mode ERR250) ∧
    (pset_stroke_mode X s ws_id dev op_mode echo_switch =
      if 0 < dev ∧ dev ≤ dt.in_dt.num_devs.stroke then
        set_mode X (ERR_SET_CUR_FUNC Pfn.Pfn_set_stroke_mode s) ws_id
          Phg_args_idev_class.PHG_ARGS_INP_STK dev op_mode echo_switch
      else check_failed s Pfn.Pfn_set_stroke_mode ERR250) ∧
    (pset_pick_mode X s ws_id dev op_mode echo_switch =
      if 0 < dev ∧ dev ≤ dt.in_dt.num_devs.pick then
        set_mode X (ERR_SET_CUR_FUNC Pfn.Pfn_set_stroke_mode s) ws_id
          Phg_args_idev_class.PHG_ARGS_INP_PIK dev op_mode echo_switch
      else check_failed s Pfn.Pfn_set_stroke_mode ERR250) ∧
    (pset_string_mode X s ws_id dev op_mode echo_switch =
      if 0 < dev then
        set_mode X (ERR_SET_CUR_FUNC Pfn.Pfn_set_string_mode s) ws_id
          Phg_args_idev_class.PHG_ARGS_INP_STR dev op_mode echo_switch
      else check_failed s Pfn.Pfn_set_string_mode ERR250) ∧
    (pset_choice_mode X s ws_id dev op_mode echo_switch =
      if 0 < dev then
        set_mode X (ERR_SET_CUR_FUNC Pfn.Pfn_set_choice_mode s) ws_id
          Phg_args_idev_class.PHG_ARGS_INP_CHC dev op_mode echo_switch
      else check_failed s Pfn.Pfn_set_choice_mode ERR250) ∧
    (pset_val_mode X s ws_id dev op_mode echo_switch =
      if 0 < dev then
        set_mode X (ERR_SET_CUR_FUNC Pfn.Pfn_set_val_mode s) ws_id
          Phg_args_idev_class.PHG_ARGS_INP_VAL dev op_mode echo_switch
      else check_failed s Pfn.Pfn_set_val_mode ERR250) ∧
    (∀ fn_id dev_class s0, s0 = ERR_SET_CUR_FUNC fn_id s →
      mode_calls (set_mode X s0 ws_id dev_class dev op_mode echo_switch).log =
        mode_calls s.log ++ [{ idev_class := dev_class, dev := dev, mode := op_mode,
                               echo := echo_switch }] ∧
      reported (set_mode X s0 ws_id dev_class dev op_mode echo_switch).log = reported s.log) := by
  refine ⟨?_, ?_, ?_, ?_, ?_, ?_, ?_⟩
  · simp only [pset_loc_mode, input_ws_open_ok s ws_id _ dt hws, check_failed]
  · simp only [pset_stroke_mode, input_ws_open_ok s ws_id _ dt hws, check_failed]
  · simp only [pset_pick_mode, input_ws_open_ok s ws_id _ dt hws, check_failed]
  · simp only [pset_string_mode, input_ws_open_ok s ws_id _ dt hws, check_failed]
  · simp only [pset_choice_mode, input_ws_open_ok s ws_id _ dt hws, check_failed]
  · simp only [pset_val_mode, input_ws_open_ok s ws_id _ dt hws, check_failed]
  · intro fn_id dev_class s0 h0
    subst h0
    have hm : ∀ l1 l2 : List Effect, mode_calls (l1 ++ l2) = mode_calls l1 ++ mode_calls l2 := by
      intro l1 l2
      induction l1 with
      | nil => rfl
      | cons e l ih => cases e <;> simp [mode_calls, ih]
    simp [set_mode, ERR_SET_CUR_FUNC, emit, hm, mode_calls, reported_append, reported]

/-- The theorem `set_mode_device_number` at concrete calls: `pset_pick_mode`
with device 1 and with device 2 on workstation 1 of `ex_phg`. -/
theorem set_mode_device_number_witness :
    mode_calls (pset_pick_mode (ex_ext true) ex_phg 1 1 Pop_mode.POP_EVENT
      Pecho_switch.PSWITCH_ECHO).log
      = [{ idev_class := Phg_args_idev_class.PHG_ARGS_INP_PIK, dev := 1,
           mode := Pop_mode.POP_EVENT, echo := Pecho_switch.PSWITCH_ECHO }] ∧
    reported (pset_pick_mode (ex_ext true) ex_phg 1 2 Pop_mode.POP_EVENT
      Pecho_switch.PSWITCH_ECHO).log = [ERR250] := by
  have h1 := (set_mode_device_number (ex_ext true) ex_phg 1 1 ex_dt ex_ws_ok Pop_mode.POP_EVENT
    Pecho_switch.PSWITCH_ECHO).2.2.1
  have h2 := (set_mode_device_number (ex_ext true) ex_phg 1 2 ex_dt ex_ws_ok Pop_mode.POP_EVENT
    Pecho_switch.PSWITCH_ECHO).2.2.1
  rw [h1, h2]
  exact ⟨rfl, rfl⟩

/-! ## Status of the dispatch scan -/

/-- C25 fails in the code: with workstation 1 (OUTIN) and workstation 2 (IN)
open and a dispatcher that answers TRUE for workstation 1 and FALSE for
workstation 2, `inp_dispatch_next` dispatches both and returns FALSE, and the
round of `pawait_event` takes the 1 ms sleep although workstation 1
dispatched an event. -/
theorem C25_dispatch_status_overwritten :
    (ex_ext_disp.dispatch_next 1 ex_phg2.ds).1 = true ∧
    (inp_dispatch_next ex_ext_disp Pfn.Pfn_await_event ex_phg2).1 = false ∧
    (inp_dispatch_next ex_ext_disp Pfn.Pfn_await_event ex_phg2).2.log
      = [Effect.dispatch_next 1, Effect.dispatch_next 2] ∧
    (await_round ex_ext_disp ex_phg2 ex_ret true).map (fun r => r.st.log)
      = some [Effect.dispatch_next 1, Effect.dispatch_next 2, Effect.msleep 1] := by
  refine ⟨?_, ?_, ?_, ?_⟩ <;> rfl

/-! ## Element type names -/

/-- C26 fails in the code: `css_print_eltype` prints
`PELEM_FILL_AREA_SET3_DATA` for the element type
`PELEM_SET_OF_FILL_AREA_SET3_DATA`, the same text as for the distinct type
`PELEM_FILL_AREA_SET3_DATA` and not the name of its constant; for
`PELEM_REFL_PROPS` and `PELEM_BACK_REFL_PROPS` it prints the names without
the final S. -/
theorem C26_duplicate_and_misspelt_names :
    css_print_eltype Pelem_type.PELEM_SET_OF_FILL_AREA_SET3_DATA
      = "PELEM_FILL_AREA_SET3_DATA\n" ∧
    css_print_eltype Pelem_type.PELEM_FILL_AREA_SET3_DATA = "PELEM_FILL_AREA_SET3_DATA\n" ∧
    Pelem_type.PELEM_SET_OF_FILL_AREA_SET3_DATA ≠ Pelem_type.PELEM_FILL_AREA_SET3_DATA ∧
    enum_constant Pelem_type.PELEM_SET_OF_FILL_AREA_SET3_DATA
      = some "PELEM_SET_OF_FILL_AREA_SET3_DATA" ∧
    css_print_eltype Pelem_type.PELEM_REFL_PROPS = "PELEM_REFL_PROP\n" ∧
    css_print_eltype Pelem_type.PELEM_BACK_REFL_PROPS = "PELEM_BACK_REFL_PROP\n" := by
  refine ⟨rfl, rfl, ?_, rfl, rfl, rfl⟩
  intro h
  cases h

/-- For every element type with a `case` other than
`PELEM_SET_OF_FILL_AREA_SET3_DATA`, `PELEM_REFL_PROPS` and
`PELEM_BACK_REFL_PROPS`, `css_print_eltype` writes the identifier of the
type's enumeration constant followed by a newline. -/
theorem css_print_eltype_names (t : Pelem_type) (name : String)
    (h1 : t ≠ Pelem_type.PELEM_SET_OF_FILL_AREA_SET3_DATA)
    (h2 : t ≠ Pelem_type.PELEM_REFL_PROPS) (h3 : t ≠ Pelem_type.PELEM_BACK_REFL_PROPS)
    (h : enum_constant t = some name) :
    css_print_eltype t = name ++ "\n" := by
  cases t <;>
    first
    | exact absurd rfl h1
    | exact absurd rfl h2
    | exact absurd rfl h3
    | (simp only [enum_constant, Option.some.injEq] at h
       subst h
       rfl)
    | simp [enum_constant] at h

/-- The theorem `css_print_eltype_names` at the element type
`PELEM_POLYLINE3`. -/
theorem css_print_eltype_names_witness :
    css_print_eltype Pelem_type.PELEM_POLYLINE3 = "PELEM_POLYLINE3" ++ "\n" :=
  css_print_eltype_names Pelem_type.PELEM_POLYLINE3 "PELEM_POLYLINE3"
    (by intro h; cases h) (by intro h; cases h) (by intro h; cases h) rfl

/-! ## Reports and driver calls of the initialisation functions -/

/-- C27: for each of the seven initialisation functions and every input, the
call adds at most one call of `init_device` to the log, and when it adds one,
what the call has reported through `ERR_REPORT` is nothing or ERR253 alone
(`init_discipline`); so a call that reports ERR3, ERR54, ERR61, ERR250,
ERR114, ERR260 or ERR262 does not reach the driver. -/
theorem C27_init_discipline (X : Ext σ) (s : Phg σ) (ws_id dev : Pint) :
    (∀ view pos pet vol data,
      init_discipline s.log (pinit_loc3 X s ws_id dev view pos pet vol data).log) ∧
    (∀ view stroke pet vol data,
      init_discipline s.log (pinit_stroke3 X s ws_id dev view stroke pet vol data).log) ∧
    (∀ status path pet vol data order,
      init_discipline s.log (pinit_pick3 X s ws_id dev status path pet vol data order).log) ∧
    (∀ str pet vol data,
      init_discipline s.log (pinit_string3 X s ws_id dev str pet vol data).log) ∧
    (∀ str pet area data,
      init_discipline s.log (pinit_string X s ws_id dev str pet area data).log) ∧
    (∀ status choice pet vol data,
      init_discipline s.log (pinit_choice3 X s ws_id dev status choice pet vol data).log) ∧
    (∀ value pet vol data,
      init_discipline s.log (pinit_val3 X s ws_id dev value pet vol data).log) := by
  by_cases hws : ∃ dt, ws_ok s ws_id dt
  · obtain ⟨dt, hws⟩ := hws
    refine ⟨?_, ?_, ?_, ?_, ?_, ?_, ?_⟩
    · intro view pos pet vol data
      unfold pinit_loc3
      simp only [input_ws_open_ok s ws_id _ dt hws, echo_limits_valid, call_init_device,
        ERR_REPORT, ERR_SET_CUR_FUNC, emit]
      split_ifs <;>
        simp [init_discipline, init_calls_append, reported_append, init_calls, reported]
    · intro view stroke pet vol data
      unfold pinit_stroke3
      simp only [input_ws_open_ok s ws_id _ dt hws, echo_limits_valid, call_init_device,
        ERR_REPORT, ERR_SET_CUR_FUNC, emit]
      split_ifs <;>
        simp [init_discipline, init_calls_append, reported_append, init_calls, reported]
    · intro status path pet vol data order
      unfold pinit_pick3
      simp only [input_ws_open_ok s ws_id _ dt hws, echo_limits_valid, call_init_device,
        ERR_REPORT, ERR_SET_CUR_FUNC, emit]
      split_ifs <;>
        simp [init_discipline, init_calls_append, reported_append, init_calls, reported]
    · intro str pet vol data
      unfold pinit_string3
      simp only [input_ws_open_ok s ws_id _ dt hws, echo_limits_valid, call_init_device,
        ERR_REPORT, ERR_SET_CUR_FUNC, emit]
      split_ifs <;>
        simp [init_discipline, init_calls_append, reported_append, init_calls, reported]
    · intro str pet area data
      unfold pinit_string
      simp only [input_ws_open_ok s ws_id _ dt hws, echo_limits_valid, call_init_device,
        ERR_REPORT, ERR_SET_CUR_FUNC, emit]
      split_ifs <;>
        simp [init_discipline, init_calls_append, reported_append, init_calls, reported]
    · intro status choice pet vol data
      unfold pinit_choice3
      simp only [input_ws_open_ok s ws_id _ dt hws, echo_limits_valid, call_init_device,
        ERR_REPORT, ERR_SET_CUR_FUNC, emit]
      split_ifs <;>
        simp [init_discipline, init_calls_append, reported_append, init_calls, reported]
    · intro value pet vol data
      unfold pinit_val3
      simp only [input_ws_open_ok s ws_id _ dt hws, echo_limits_valid, call_init_device,
        ERR_REPORT, ERR_SET_CUR_FUNC, emit]
      split_ifs <;>
        simp [init_discipline, init_calls_append, reported_append, init_calls, reported]
  · have hf : ∀ fn_id, init_discipline s.log (ws_failed s ws_id fn_id).log := by
      intro fn_id
      simp [init_discipline, ws_failed, init_calls_append, reported_append, init_calls, reported]
    refine ⟨?_, ?_, ?_, ?_, ?_, ?_, ?_⟩
    · intro view pos pet vol data
      simp only [pinit_loc3, input_ws_open_fail s ws_id _ hws]
      exact hf _
    · intro view stroke pet vol data
      simp only [pinit_stroke3, input_ws_open_fail s ws_id _ hws]
      exact hf _
    · intro status path pet vol data order
      simp only [pinit_pick3, input_ws_open_fail s ws_id _ hws]
      exact hf _
    · intro str pet vol data
      simp only [pinit_string3, input_ws_open_fail s ws_id _ hws]
      exact hf _
    · intro str pet area data
      simp only [pinit_string, input_ws_open_fail s ws_id _ hws]
      exact hf _
    · intro status choice pet vol data
      simp only [pinit_choice3, input_ws_open_fail s ws_id _ hws]
      exact hf _
    · intro value pet vol data
      simp only [pinit_val3, input_ws_open_fail s ws_id _ hws]
      exact hf _

/-! ## Event and timeout in the same round -/

end Phigs
